import Mathlib

/-! Fleet scheduling core: status model, conflict detector, trip lifecycle.

A shallow embedding of the fleet module (`modules/fleet`): the status enums,
the vehicle / driver / trip / maintenance / fuel-entry aggregates, the SQL
repositories as filters over in-memory tables, the trip, vehicle, maintenance
and fuel services written against the repository interfaces, as in the Go
source, the trip detail view model, and the job scheduler: its registrations,
`RunOnce`, and the goroutines of `Start` and `Stop` as interleaved steps.

Conventions of the embedding
* `uuid.UUID` is a natural number. A `time.Time` of which only the instant
  matters (comparisons, timestamps) is an integer count of nanoseconds since
  1970-01-01 UTC (so `time.Hour` is `3600 * 10^9`); a `time.Time` on which
  calendar arithmetic is done (`AddDate`) is a `ZonedTime`, the instant with
  its `*time.Location`.
* Go `int` is the 64-bit signed integer: values are integers, and the result
  of an addition or subtraction of two `int`s is brought back into the range
  by `wrapInt64`.
* `enums.VehicleStatus`, `enums.TripStatus`, `enums.DriverStatus` are `int`
  in the source and integers here; the named constants are `0, 1, 2, ...`.
* What `pkg/composables` reads from the `context.Context` (permission check,
  tenant id, transaction, user, session) and what `time.Now()` shows are the
  fields of `Ctx`. All readings of the clock within one call give the same
  instant; only creation and update timestamps depend on it.
* Go `float64` is a type parameter `F` with the operations the code uses
  (class `Float64`), so nothing is assumed about rounding; concrete inputs are
  evaluated in exact rational arithmetic.
* Every call a service makes on a repository or on the event bus is appended
  to the log of the `World`, so that "does not call / does not write" can be
  stated.
* The aggregates' mutators are methods on pointers; where the receiver matters
  the structs live on a `Heap` and a pointer is an index into it.
-/

namespace Fleet

/-! ## Basic types -/

abbrev UUID := Nat

abbrev Time := Int

/-- Go `time.Hour`, a `time.Duration` in nanoseconds. -/
def Hour : Int := 3600 * 1000000000

/-- Go `math.MaxInt64`, the largest `int`. -/
def MaxInt64 : Int := 9223372036854775807

/-- Go `math.MinInt64`, the smallest `int`. -/
def MinInt64 : Int := -9223372036854775808

/-- The `int` that an addition or subtraction of two `int`s yields, given its
mathematical result: the integer of the range `MinInt64 .. MaxInt64` that
differs from it by a multiple of `2^64` (two's-complement wrap-around). -/
def wrapInt64 (x : Int) : Int :=
  (x + 9223372036854775808) % 18446744073709551616 - 9223372036854775808

/-- Errors: a leaf message (`errors.New`, `fmt.Errorf` without `%w`) or a
message wrapping a cause (`fmt.Errorf("...: %w", err)`). -/
inductive Err where
  | msg (text : String)
  | wrap (text : String) (cause : Err)
  deriving DecidableEq, Repr

deriving instance DecidableEq for Except

/-- True when the outcome is an error. -/
def isError {α : Type} (r : Except Err α) : Bool :=
  match r with
  | .error _ => true
  | .ok _ => false

/-! ## enums/vehicle_status.go -/

abbrev VehicleStatus := Int

def VehicleStatusAvailable : VehicleStatus := 0
def VehicleStatusInUse : VehicleStatus := 1
def VehicleStatusMaintenance : VehicleStatus := 2
def VehicleStatusOutOfService : VehicleStatus := 3
def VehicleStatusRetired : VehicleStatus := 4

def VehicleStatus.IsValid (s : VehicleStatus) : Bool :=
  decide (s ≥ VehicleStatusAvailable) && decide (s ≤ VehicleStatusRetired)

def VehicleStatus.CanTransitionTo (s target : VehicleStatus) : Bool :=
  if !VehicleStatus.IsValid s || !VehicleStatus.IsValid target then
    false
  else if s = VehicleStatusAvailable then
    decide (target = VehicleStatusInUse) || decide (target = VehicleStatusMaintenance) ||
      decide (target = VehicleStatusOutOfService) || decide (target = VehicleStatusRetired)
  else if s = VehicleStatusInUse then
    decide (target = VehicleStatusAvailable) || decide (target = VehicleStatusMaintenance) ||
      decide (target = VehicleStatusOutOfService)
  else if s = VehicleStatusMaintenance then
    decide (target = VehicleStatusAvailable) || decide (target = VehicleStatusOutOfService) ||
      decide (target = VehicleStatusRetired)
  else if s = VehicleStatusOutOfService then
    decide (target = VehicleStatusAvailable) || decide (target = VehicleStatusMaintenance) ||
      decide (target = VehicleStatusRetired)
  else if s = VehicleStatusRetired then
    false
  else
    false

/-- The vehicle transition table as the specification lists it (section 4.1):
the statuses reachable from `s` in one non-identity step. -/
def specTransitionTable (s : VehicleStatus) : List VehicleStatus :=
  if s = VehicleStatusAvailable then
    [VehicleStatusInUse, VehicleStatusMaintenance, VehicleStatusOutOfService, VehicleStatusRetired]
  else if s = VehicleStatusInUse then
    [VehicleStatusAvailable, VehicleStatusMaintenance, VehicleStatusOutOfService]
  else if s = VehicleStatusMaintenance then
    [VehicleStatusAvailable, VehicleStatusOutOfService, VehicleStatusRetired]
  else if s = VehicleStatusOutOfService then
    [VehicleStatusAvailable, VehicleStatusMaintenance, VehicleStatusRetired]
  else
    []

/-! ## enums/trip_status.go, enums/driver_status.go -/

abbrev TripStatus := Int

def TripStatusScheduled : TripStatus := 0
def TripStatusInProgress : TripStatus := 1
def TripStatusCompleted : TripStatus := 2
def TripStatusCancelled : TripStatus := 3

def TripStatus.IsValid (t : TripStatus) : Bool :=
  decide (t ≥ TripStatusScheduled) && decide (t ≤ TripStatusCancelled)

abbrev DriverStatus := Int

def DriverStatusActive : DriverStatus := 0
def DriverStatusInactive : DriverStatus := 1
def DriverStatusOnLeave : DriverStatus := 2
def DriverStatusTerminated : DriverStatus := 3

def DriverStatus.IsValid (d : DriverStatus) : Bool :=
  decide (d ≥ DriverStatusActive) && decide (d ≤ DriverStatusTerminated)

/-! ## Aggregates: vehicle, driver, trip -/

structure Vehicle where
  id : UUID
  tenantID : UUID
  make : String
  model : String
  year : Int
  vin : String
  licensePlate : String
  status : VehicleStatus
  currentOdometer : Int
  registrationExpiry : Time
  insuranceExpiry : Time
  createdAt : Time
  updatedAt : Time
  deriving DecidableEq, Repr

/-- Go `vehicle.UpdateStatus`; `now` is the reading of `time.Now()`. -/
def Vehicle.UpdateStatus (v : Vehicle) (status : VehicleStatus) (now : Time) : Vehicle :=
  { id := v.id
    tenantID := v.tenantID
    make := v.make
    model := v.model
    year := v.year
    vin := v.vin
    licensePlate := v.licensePlate
    status := status
    currentOdometer := v.currentOdometer
    registrationExpiry := v.registrationExpiry
    insuranceExpiry := v.insuranceExpiry
    createdAt := v.createdAt
    updatedAt := now }

/-- Go `vehicle.UpdateOdometer`. -/
def Vehicle.UpdateOdometer (v : Vehicle) (reading : Int) (now : Time) : Vehicle :=
  { id := v.id
    tenantID := v.tenantID
    make := v.make
    model := v.model
    year := v.year
    vin := v.vin
    licensePlate := v.licensePlate
    status := v.status
    currentOdometer := reading
    registrationExpiry := v.registrationExpiry
    insuranceExpiry := v.insuranceExpiry
    createdAt := v.createdAt
    updatedAt := now }

structure Driver where
  id : UUID
  tenantID : UUID
  userID : Option Int
  firstName : String
  lastName : String
  licenseNumber : String
  licenseExpiry : Time
  phone : String
  email : String
  status : DriverStatus
  createdAt : Time
  updatedAt : Time
  deriving DecidableEq, Repr

structure Trip where
  id : UUID
  tenantID : UUID
  vehicleID : UUID
  driverID : UUID
  origin : String
  destination : String
  purpose : String
  startTime : Time
  endTime : Option Time
  startOdometer : Int
  endOdometer : Option Int
  status : TripStatus
  createdAt : Time
  updatedAt : Time
  deriving DecidableEq, Repr

/-- Go `trip.Complete`. -/
def Trip.Complete (t : Trip) (endTime : Time) (endOdometer : Int) (now : Time) : Trip :=
  { id := t.id
    tenantID := t.tenantID
    vehicleID := t.vehicleID
    driverID := t.driverID
    origin := t.origin
    destination := t.destination
    purpose := t.purpose
    startTime := t.startTime
    endTime := some endTime
    startOdometer := t.startOdometer
    endOdometer := some endOdometer
    status := TripStatusCompleted
    createdAt := t.createdAt
    updatedAt := now }

/-- Go `trip.Cancel`. -/
def Trip.Cancel (t : Trip) (reason : String) (now : Time) : Trip :=
  { id := t.id
    tenantID := t.tenantID
    vehicleID := t.vehicleID
    driverID := t.driverID
    origin := t.origin
    destination := t.destination
    purpose := reason
    startTime := t.startTime
    endTime := t.endTime
    startOdometer := t.startOdometer
    endOdometer := t.endOdometer
    status := TripStatusCancelled
    createdAt := t.createdAt
    updatedAt := now }

/-! ## The ambient context of a call -/

/-- The permissions of `permissions/constants.go` that the modelled services check. -/
inductive Permission where
  | VehicleCreate | VehicleRead | VehicleUpdate | VehicleDelete
  | DriverCreate | DriverRead | DriverUpdate | DriverDelete
  | TripCreate | TripRead | TripUpdate | TripDelete
  | MaintenanceCreate | MaintenanceRead | MaintenanceUpdate | MaintenanceDelete
  | FuelEntryCreate | FuelEntryRead | FuelEntryUpdate | FuelEntryDelete
  deriving DecidableEq, Repr

abbrev User := Nat

abbrev Session := Nat

/-- What a call reads from its surroundings: the outcomes of the
`pkg/composables` accessors on the `context.Context` (that package is not part
of the fleet module, so its results are inputs here) and the clock.
* `canUser p` : `composables.CanUser(ctx, p)`, `none` when the permission is granted;
* `useTenantID` : `composables.UseTenantID(ctx)`;
* `useTx` : `composables.UseTx(ctx)`, `none` when a transaction is available;
* `useUser`, `useSession` : `composables.UseUser(ctx)`, `composables.UseSession(ctx)`;
* `now` : the instant `time.Now()` returns during the call. -/
structure Ctx where
  canUser : Permission → Option Err
  useTenantID : Except Err UUID
  useTx : Option Err
  useUser : Except Err User
  useSession : Except Err Session
  now : Time

/-! ## Domain events (trip_events.go, vehicle_events.go) -/

inductive Event where
  | TripCreated (sender : User) (session : Session) (data : Trip) (result : Option Trip)
  | TripCompleted (sender : User) (session : Session) (trip : Trip)
  | TripCancelled (sender : User) (session : Session) (trip : Trip) (reason : String)
  | VehicleStatusChanged (sender : User) (session : Session) (vehicle : Vehicle)
      (oldStatus newStatus : VehicleStatus)
  deriving DecidableEq, Repr

def NewTripCreatedEvent (ctx : Ctx) (data : Trip) : Except Err Event :=
  match ctx.useUser with
  | .error err => .error err
  | .ok sender =>
    match ctx.useSession with
    | .error err => .error err
    | .ok sess => .ok (Event.TripCreated sender sess data none)

def NewTripCompletedEvent (ctx : Ctx) (trip : Trip) : Except Err Event :=
  match ctx.useUser with
  | .error err => .error err
  | .ok sender =>
    match ctx.useSession with
    | .error err => .error err
    | .ok sess => .ok (Event.TripCompleted sender sess trip)

def NewTripCancelledEvent (ctx : Ctx) (trip : Trip) (reason : String) : Except Err Event :=
  match ctx.useUser with
  | .error err => .error err
  | .ok sender =>
    match ctx.useSession with
    | .error err => .error err
    | .ok sess => .ok (Event.TripCancelled sender sess trip reason)

def NewVehicleStatusChangedEvent (ctx : Ctx) (vehicle : Vehicle)
    (oldStatus newStatus : VehicleStatus) : Except Err Event :=
  match ctx.useUser with
  | .error err => .error err
  | .ok sender =>
    match ctx.useSession with
    | .error err => .error err
    | .ok sess => .ok (Event.VehicleStatusChanged sender sess vehicle oldStatus newStatus)

/-- Go `event.Result = created` on a `TripCreatedEvent`. -/
def Event.setResult (e : Event) (created : Trip) : Event :=
  match e with
  | .TripCreated sender sess data _ => .TripCreated sender sess data (some created)
  | other => other

/-! ## Repository interfaces (the methods the modelled services call)

The Go interfaces `vehicle.Repository`, `driver.Repository`, `trip.Repository`.
A repository method takes the context and its arguments, reads and possibly
changes the store `σ`, and returns a value or an error. -/

structure vehicle.Repository (σ : Type) where
  GetByID : Ctx → UUID → σ → Except Err Vehicle × σ
  Update : Ctx → Vehicle → σ → Except Err Vehicle × σ

structure driver.Repository (σ : Type) where
  GetByID : Ctx → UUID → σ → Except Err Driver × σ

structure trip.Repository (σ : Type) where
  GetByID : Ctx → UUID → σ → Except Err Trip × σ
  CheckConflict : Ctx → UUID → Time → Time → Option UUID → σ → Except Err Bool × σ
  Create : Ctx → Trip → σ → Except Err Trip × σ
  Update : Ctx → Trip → σ → Except Err Trip × σ

/-- One outgoing call of a service: on a repository, or `Publish` on the event bus. -/
inductive Call where
  | VehicleGetByID (id : UUID)
  | VehicleUpdate (v : Vehicle)
  | DriverGetByID (id : UUID)
  | TripGetByID (id : UUID)
  | TripCheckConflict (vehicleID : UUID) (startTime endTime : Time) (excludeTripID : Option UUID)
  | TripCreate (t : Trip)
  | TripUpdate (t : Trip)
  | Publish (e : Event)
  deriving DecidableEq, Repr

/-- The store together with the log of the calls made on it so far. -/
structure World (σ : Type) where
  store : σ
  log : List Call
  deriving DecidableEq, Repr

/-- Perform one repository call: run it on the store and append it to the log. -/
def World.call {σ α : Type} (w : World σ) (c : Call) (f : σ → Except Err α × σ) :
    Except Err α × World σ :=
  ((f w.store).1, { store := (f w.store).2, log := w.log ++ [c] })

/-- Go `s.publisher.Publish(event)`. -/
def World.publish {σ : Type} (w : World σ) (e : Event) : World σ :=
  { store := w.store, log := w.log ++ [Call.Publish e] }

/-- The call writes a vehicle. -/
def Call.isVehicleWrite (c : Call) : Bool :=
  match c with
  | .VehicleUpdate _ => true
  | _ => false

/-- The call writes a trip. -/
def Call.isTripWrite (c : Call) : Bool :=
  match c with
  | .TripCreate _ => true
  | .TripUpdate _ => true
  | _ => false

/-- The call is the conflict check. -/
def Call.isCheckConflict (c : Call) : Bool :=
  match c with
  | .TripCheckConflict _ _ _ _ => true
  | _ => false

/-- The call publishes an event. -/
def Call.isPublish (c : Call) : Bool :=
  match c with
  | .Publish _ => true
  | _ => false

/-- The call only loads an entity by id. -/
def Call.isLoad (c : Call) : Bool :=
  match c with
  | .VehicleGetByID _ => true
  | .DriverGetByID _ => true
  | .TripGetByID _ => true
  | _ => false

/-! ## services/trip_service.go -/

structure TripService (σ : Type) where
  tripRepo : trip.Repository σ
  vehicleRepo : vehicle.Repository σ
  driverRepo : driver.Repository σ

/-- The end of the window handed to the conflict check in `TripService.Create`
(lines 108-111): the trip's end time if set, else its start plus 24 hours. -/
def TripService.effectiveEnd (t : Trip) : Time :=
  match t.endTime with
  | some e => e
  | none => t.startTime + 24 * Hour

def TripService.Create {σ : Type} (s : TripService σ) (ctx : Ctx) (t : Trip) (w : World σ) :
    Except Err Trip × World σ :=
  match ctx.canUser Permission.TripCreate with
  | some err => (.error err, w)
  | none =>
    match w.call (.VehicleGetByID t.vehicleID) (s.vehicleRepo.GetByID ctx t.vehicleID) with
    | (.error err, w1) => (.error (.wrap "failed to get vehicle" err), w1)
    | (.ok v, w1) =>
      if v.status = VehicleStatusMaintenance ∨ v.status = VehicleStatusOutOfService then
        (.error (.msg "vehicle is not available for trips"), w1)
      else
        match w1.call (.DriverGetByID t.driverID) (s.driverRepo.GetByID ctx t.driverID) with
        | (.error err, w2) => (.error (.wrap "failed to get driver" err), w2)
        | (.ok d, w2) =>
          if d.status ≠ DriverStatusActive then
            (.error (.msg "driver is not active"), w2)
          else if d.licenseExpiry < ctx.now then
            (.error (.msg "driver license has expired"), w2)
          else
            let endTime := TripService.effectiveEnd t
            match w2.call (.TripCheckConflict t.vehicleID t.startTime endTime none)
                (s.tripRepo.CheckConflict ctx t.vehicleID t.startTime endTime none) with
            | (.error err, w3) => (.error (.wrap "failed to check for conflicts" err), w3)
            | (.ok true, w3) =>
              (.error (.msg "vehicle is already assigned to another trip during this time"), w3)
            | (.ok false, w3) =>
              match w3.call (.TripCreate t) (s.tripRepo.Create ctx t) with
              | (.error err, w4) => (.error (.wrap "failed to create trip" err), w4)
              | (.ok created, w4) =>
                let updatedVehicle := v.UpdateStatus VehicleStatusInUse ctx.now
                match w4.call (.VehicleUpdate updatedVehicle)
                    (s.vehicleRepo.Update ctx updatedVehicle) with
                | (.error err, w5) => (.error (.wrap "failed to update vehicle status" err), w5)
                | (.ok _, w5) =>
                  match NewTripCreatedEvent ctx created with
                  | .error err => (.error (.wrap "failed to create event" err), w5)
                  | .ok event => (.ok created, w5.publish (event.setResult created))

/-- The condition of the status check of `TripService.Complete` (line 151):
true when the trip is turned away. -/
def TripService.completeRejects (st : TripStatus) : Bool :=
  decide (st ≠ TripStatusInProgress) && decide (st ≠ TripStatusScheduled)

/-- The condition of the status check of `TripService.Cancel` (line 194):
true when the trip is turned away. -/
def TripService.cancelRejects (st : TripStatus) : Bool :=
  decide (st = TripStatusCompleted) || decide (st = TripStatusCancelled)

def TripService.Complete {σ : Type} (s : TripService σ) (ctx : Ctx) (id : UUID)
    (endTime : Time) (endOdometer : Int) (w : World σ) : Except Err Trip × World σ :=
  match ctx.canUser Permission.TripUpdate with
  | some err => (.error err, w)
  | none =>
    match w.call (.TripGetByID id) (s.tripRepo.GetByID ctx id) with
    | (.error err, w1) => (.error (.wrap "failed to get trip" err), w1)
    | (.ok t, w1) =>
      if TripService.completeRejects t.status then
        (.error (.msg "trip cannot be completed in current status"), w1)
      else if endOdometer < t.startOdometer then
        (.error (.msg "end odometer must be greater than start odometer"), w1)
      else
        let completed := t.Complete endTime endOdometer ctx.now
        match w1.call (.TripUpdate completed) (s.tripRepo.Update ctx completed) with
        | (.error err, w2) => (.error (.wrap "failed to update trip" err), w2)
        | (.ok updated, w2) =>
          match w2.call (.VehicleGetByID t.vehicleID) (s.vehicleRepo.GetByID ctx t.vehicleID) with
          | (.error err, w3) => (.error (.wrap "failed to get vehicle" err), w3)
          | (.ok v, w3) =>
            let updatedVehicle :=
              (v.UpdateStatus VehicleStatusAvailable ctx.now).UpdateOdometer endOdometer ctx.now
            match w3.call (.VehicleUpdate updatedVehicle)
                (s.vehicleRepo.Update ctx updatedVehicle) with
            | (.error err, w4) => (.error (.wrap "failed to update vehicle" err), w4)
            | (.ok _, w4) =>
              match NewTripCompletedEvent ctx updated with
              | .error err => (.error (.wrap "failed to create event" err), w4)
              | .ok event => (.ok updated, w4.publish event)

def TripService.Cancel {σ : Type} (s : TripService σ) (ctx : Ctx) (id : UUID)
    (reason : String) (w : World σ) : Except Err Trip × World σ :=
  match ctx.canUser Permission.TripUpdate with
  | some err => (.error err, w)
  | none =>
    match w.call (.TripGetByID id) (s.tripRepo.GetByID ctx id) with
    | (.error err, w1) => (.error (.wrap "failed to get trip" err), w1)
    | (.ok t, w1) =>
      if TripService.cancelRejects t.status then
        (.error (.msg "trip cannot be cancelled in current status"), w1)
      else
        let cancelled := t.Cancel reason ctx.now
        match w1.call (.TripUpdate cancelled) (s.tripRepo.Update ctx cancelled) with
        | (.error err, w2) => (.error (.wrap "failed to update trip" err), w2)
        | (.ok updated, w2) =>
          let finish (w3 : World σ) : Except Err Trip × World σ :=
            match NewTripCancelledEvent ctx updated reason with
            | .error err => (.error (.wrap "failed to create event" err), w3)
            | .ok event => (.ok updated, w3.publish event)
          if t.status = TripStatusInProgress then
            match w2.call (.VehicleGetByID t.vehicleID)
                (s.vehicleRepo.GetByID ctx t.vehicleID) with
            | (.error err, w3) => (.error (.wrap "failed to get vehicle" err), w3)
            | (.ok v, w3) =>
              let updatedVehicle := v.UpdateStatus VehicleStatusAvailable ctx.now
              match w3.call (.VehicleUpdate updatedVehicle)
                  (s.vehicleRepo.Update ctx updatedVehicle) with
              | (.error err, w4) => (.error (.wrap "failed to update vehicle" err), w4)
              | (.ok _, w4) => finish w4
          else
            finish w2

/-! ## services/vehicle_service.go -/

structure VehicleService (σ : Type) where
  repo : vehicle.Repository σ

/-- Go `validateStatusTransition`; `none` is the `nil` error. -/
def VehicleService.validateStatusTransition (oldStatus newStatus : VehicleStatus) : Option Err :=
  if oldStatus = newStatus then
    none
  else if oldStatus = VehicleStatusRetired then
    some (.msg "cannot change status of retired vehicle")
  else if oldStatus = VehicleStatusOutOfService then
    if newStatus = VehicleStatusInUse then
      some (.msg "vehicle must be available before being used")
    else
      none
  else if oldStatus = VehicleStatusMaintenance then
    if newStatus = VehicleStatusInUse then
      some (.msg "vehicle must be available before being used")
    else
      none
  else
    none

def VehicleService.UpdateStatus {σ : Type} (s : VehicleService σ) (ctx : Ctx) (id : UUID)
    (newStatus : VehicleStatus) (w : World σ) : Except Err Vehicle × World σ :=
  match ctx.canUser Permission.VehicleUpdate with
  | some err => (.error err, w)
  | none =>
    match w.call (.VehicleGetByID id) (s.repo.GetByID ctx id) with
    | (.error err, w1) => (.error (.wrap "failed to get vehicle" err), w1)
    | (.ok v, w1) =>
      let oldStatus := v.status
      match VehicleService.validateStatusTransition oldStatus newStatus with
      | some err => (.error err, w1)
      | none =>
        let updated := v.UpdateStatus newStatus ctx.now
        match w1.call (.VehicleUpdate updated) (s.repo.Update ctx updated) with
        | (.error err, w2) => (.error (.wrap "failed to update vehicle status" err), w2)
        | (.ok updated2, w2) =>
          match NewVehicleStatusChangedEvent ctx updated2 oldStatus newStatus with
          | .error err => (.error (.wrap "failed to create event" err), w2)
          | .ok event => (.ok updated2, w2.publish event)

/-! ## infrastructure/persistence: the tables and the SQL repositories

`VehicleRepository`, `DriverRepository`, `TripRepository` are the structs of
package `persistence` that implement the interfaces above.

The tables of `models/models.go` are lists of rows; a query is a filter over
the list, in list order. The database connection (`pool.Query`, `pool.Exec`,
`pool.QueryRow(...).Scan`) may fail on any call for reasons outside the code
(connection loss, a constraint of the schema, a value a column or a scan
target cannot hold): `faults` scripts the outcome of the coming connection
calls, one entry per call, `none` for success; an exhausted script means
success. -/

namespace models

structure Vehicle where
  ID : UUID
  TenantID : UUID
  Make : String
  Model : String
  Year : Int
  VIN : String
  LicensePlate : String
  Status : Int
  CurrentOdometer : Int
  RegistrationExpiry : Time
  InsuranceExpiry : Time
  CreatedAt : Time
  UpdatedAt : Time
  DeletedAt : Option Time
  deriving DecidableEq, Repr

structure Driver where
  ID : UUID
  TenantID : UUID
  UserID : Option Int
  FirstName : String
  LastName : String
  LicenseNumber : String
  LicenseExpiry : Time
  Phone : Option String
  Email : Option String
  Status : Int
  CreatedAt : Time
  UpdatedAt : Time
  DeletedAt : Option Time
  deriving DecidableEq, Repr

structure Trip where
  ID : UUID
  TenantID : UUID
  VehicleID : UUID
  DriverID : UUID
  Origin : String
  Destination : String
  Purpose : Option String
  StartTime : Time
  EndTime : Option Time
  StartOdometer : Int
  EndOdometer : Option Int
  Status : Int
  CreatedAt : Time
  UpdatedAt : Time
  DeletedAt : Option Time
  deriving DecidableEq, Repr

end models

structure DB where
  fleet_vehicles : List models.Vehicle
  fleet_drivers : List models.Driver
  fleet_trips : List models.Trip
  faults : List (Option Err)
  deriving DecidableEq, Repr

/-- One call on the connection: its scripted outcome, and the rest of the script. -/
def DB.poolCall (db : DB) : Option Err × DB :=
  match db.faults with
  | [] => (none, db)
  | f :: rest => (f, { db with faults := rest })

def ErrVehicleNotFound : Err := .msg "vehicle not found"

def ErrDriverNotFound : Err := .msg "driver not found"

def ErrTripNotFound : Err := .msg "trip not found"

/-- The row scan of `queryVehicles`: one selected row to a vehicle aggregate. -/
def scanVehicle (r : models.Vehicle) : Vehicle :=
  { id := r.ID
    tenantID := r.TenantID
    make := r.Make
    model := r.Model
    year := r.Year
    vin := r.VIN
    licensePlate := r.LicensePlate
    status := r.Status
    currentOdometer := r.CurrentOdometer
    registrationExpiry := r.RegistrationExpiry
    insuranceExpiry := r.InsuranceExpiry
    createdAt := r.CreatedAt
    updatedAt := r.UpdatedAt }

/-- The row scan of `queryDrivers`; a NULL phone or email reads as the empty string. -/
def scanDriver (r : models.Driver) : Driver :=
  { id := r.ID
    tenantID := r.TenantID
    userID := r.UserID
    firstName := r.FirstName
    lastName := r.LastName
    licenseNumber := r.LicenseNumber
    licenseExpiry := r.LicenseExpiry
    phone := r.Phone.getD ""
    email := r.Email.getD ""
    status := r.Status
    createdAt := r.CreatedAt
    updatedAt := r.UpdatedAt }

/-- The row scan of `queryTrips`; a NULL purpose reads as the empty string. -/
def scanTrip (r : models.Trip) : Trip :=
  { id := r.ID
    tenantID := r.TenantID
    vehicleID := r.VehicleID
    driverID := r.DriverID
    origin := r.Origin
    destination := r.Destination
    purpose := r.Purpose.getD ""
    startTime := r.StartTime
    endTime := r.EndTime
    startOdometer := r.StartOdometer
    endOdometer := r.EndOdometer
    status := r.Status
    createdAt := r.CreatedAt
    updatedAt := r.UpdatedAt }

/-- Go `queryVehicles` for a query whose WHERE clause is `sel`. -/
def queryVehicles (ctx : Ctx) (sel : models.Vehicle → Bool) (db : DB) :
    Except Err (List Vehicle) × DB :=
  match ctx.useTx with
  | some err => (.error err, db)
  | none =>
    match db.poolCall with
    | (some err, db1) => (.error err, db1)
    | (none, db1) => (.ok ((db1.fleet_vehicles.filter sel).map scanVehicle), db1)

/-- Go `queryDrivers` for a query whose WHERE clause is `sel`. -/
def queryDrivers (ctx : Ctx) (sel : models.Driver → Bool) (db : DB) :
    Except Err (List Driver) × DB :=
  match ctx.useTx with
  | some err => (.error err, db)
  | none =>
    match db.poolCall with
    | (some err, db1) => (.error err, db1)
    | (none, db1) => (.ok ((db1.fleet_drivers.filter sel).map scanDriver), db1)

/-- Go `queryTrips` for a query whose WHERE clause is `sel`. -/
def queryTrips (ctx : Ctx) (sel : models.Trip → Bool) (db : DB) :
    Except Err (List Trip) × DB :=
  match ctx.useTx with
  | some err => (.error err, db)
  | none =>
    match db.poolCall with
    | (some err, db1) => (.error err, db1)
    | (none, db1) => (.ok ((db1.fleet_trips.filter sel).map scanTrip), db1)

namespace VehicleRepository

/-- `WHERE id = $1 AND tenant_id = $2 AND deleted_at IS NULL`. -/
def GetByID (ctx : Ctx) (id : UUID) (db : DB) : Except Err Vehicle × DB :=
  match ctx.useTenantID with
  | .error err => (.error err, db)
  | .ok tenantID =>
    match queryVehicles ctx
        (fun r => decide (r.ID = id) && decide (r.TenantID = tenantID) && r.DeletedAt.isNone) db with
    | (.error err, db1) => (.error err, db1)
    | (.ok [], db1) => (.error ErrVehicleNotFound, db1)
    | (.ok (v :: _), db1) => (.ok v, db1)

/-- `UPDATE fleet_vehicles SET ... WHERE id = $11 AND tenant_id = $12`, then `GetByID`. -/
def Update (ctx : Ctx) (v : Vehicle) (db : DB) : Except Err Vehicle × DB :=
  match ctx.useTx with
  | some err => (.error err, db)
  | none =>
    match db.poolCall with
    | (some err, db1) => (.error err, db1)
    | (none, db1) =>
      let db2 : DB :=
        { db1 with
          fleet_vehicles := db1.fleet_vehicles.map (fun r =>
            if r.ID = v.id ∧ r.TenantID = v.tenantID then
              { r with
                Make := v.make
                Model := v.model
                Year := v.year
                VIN := v.vin
                LicensePlate := v.licensePlate
                Status := v.status
                CurrentOdometer := v.currentOdometer
                RegistrationExpiry := v.registrationExpiry
                InsuranceExpiry := v.insuranceExpiry
                UpdatedAt := ctx.now }
            else r) }
      GetByID ctx v.id db2

end VehicleRepository

namespace DriverRepository

/-- `WHERE id = $1 AND tenant_id = $2 AND deleted_at IS NULL`. -/
def GetByID (ctx : Ctx) (id : UUID) (db : DB) : Except Err Driver × DB :=
  match ctx.useTenantID with
  | .error err => (.error err, db)
  | .ok tenantID =>
    match queryDrivers ctx
        (fun r => decide (r.ID = id) && decide (r.TenantID = tenantID) && r.DeletedAt.isNone) db with
    | (.error err, db1) => (.error err, db1)
    | (.ok [], db1) => (.error ErrDriverNotFound, db1)
    | (.ok (d :: _), db1) => (.ok d, db1)

end DriverRepository

namespace TripRepository

/-- `WHERE id = $1 AND tenant_id = $2 AND deleted_at IS NULL`. -/
def GetByID (ctx : Ctx) (id : UUID) (db : DB) : Except Err Trip × DB :=
  match ctx.useTenantID with
  | .error err => (.error err, db)
  | .ok tenantID =>
    match queryTrips ctx
        (fun r => decide (r.ID = id) && decide (r.TenantID = tenantID) && r.DeletedAt.isNone) db with
    | (.error err, db1) => (.error err, db1)
    | (.ok [], db1) => (.error ErrTripNotFound, db1)
    | (.ok (t :: _), db1) => (.ok t, db1)

/-- SQL `end_time IS NULL OR end_time >= x`. -/
def endNullOrGe (endTime : Option Time) (x : Time) : Bool :=
  match endTime with
  | none => true
  | some b => decide (b ≥ x)

/-- The three-clause time condition of the `CheckConflict` query, `$5` being
`startTime` and `$6` being `endTime`. -/
def timeClause (r : models.Trip) (startTime endTime : Time) : Bool :=
  (decide (r.StartTime ≤ startTime) && endNullOrGe r.EndTime startTime)
    || (decide (r.StartTime ≤ endTime) && endNullOrGe r.EndTime endTime)
    || (decide (r.StartTime ≥ startTime) && decide (r.StartTime ≤ endTime))

/-- The WHERE clause of the `CheckConflict` query, with ` AND id != $7` when an
id to leave out is given. -/
def conflictRow (vehicleID tenantID : UUID) (startTime endTime : Time)
    (excludeTripID : Option UUID) (r : models.Trip) : Bool :=
  decide (r.VehicleID = vehicleID)
    && decide (r.TenantID = tenantID)
    && r.DeletedAt.isNone
    && (decide (r.Status = TripStatusScheduled) || decide (r.Status = TripStatusInProgress))
    && timeClause r startTime endTime
    && (match excludeTripID with
        | none => true
        | some x => decide (r.ID ≠ x))

/-- `SELECT EXISTS(SELECT 1 FROM fleet_trips WHERE ...)`. -/
def CheckConflict (ctx : Ctx) (vehicleID : UUID) (startTime endTime : Time)
    (excludeTripID : Option UUID) (db : DB) : Except Err Bool × DB :=
  match ctx.useTx with
  | some err => (.error err, db)
  | none =>
    match ctx.useTenantID with
    | .error err => (.error err, db)
    | .ok tenantID =>
      match db.poolCall with
      | (some err, db1) => (.error err, db1)
      | (none, db1) =>
        (.ok (db1.fleet_trips.any (conflictRow vehicleID tenantID startTime endTime excludeTripID)),
          db1)

/-- A Go string stored as NULL when empty (`var purpose interface{}` left nil). -/
def nullIfEmpty (s : String) : Option String :=
  if s ≠ "" then some s else none

/-- `INSERT INTO fleet_trips (...)`, then `GetByID`. -/
def Create (ctx : Ctx) (t : Trip) (db : DB) : Except Err Trip × DB :=
  match ctx.useTx with
  | some err => (.error err, db)
  | none =>
    match db.poolCall with
    | (some err, db1) => (.error err, db1)
    | (none, db1) =>
      let row : models.Trip :=
        { ID := t.id
          TenantID := t.tenantID
          VehicleID := t.vehicleID
          DriverID := t.driverID
          Origin := t.origin
          Destination := t.destination
          Purpose := nullIfEmpty t.purpose
          StartTime := t.startTime
          EndTime := t.endTime
          StartOdometer := t.startOdometer
          EndOdometer := t.endOdometer
          Status := t.status
          CreatedAt := t.createdAt
          UpdatedAt := t.updatedAt
          DeletedAt := none }
      GetByID ctx t.id { db1 with fleet_trips := db1.fleet_trips ++ [row] }

/-- `UPDATE fleet_trips SET ... WHERE id = $12 AND tenant_id = $13`, then `GetByID`. -/
def Update (ctx : Ctx) (t : Trip) (db : DB) : Except Err Trip × DB :=
  match ctx.useTx with
  | some err => (.error err, db)
  | none =>
    match db.poolCall with
    | (some err, db1) => (.error err, db1)
    | (none, db1) =>
      let db2 : DB :=
        { db1 with
          fleet_trips := db1.fleet_trips.map (fun r =>
            if r.ID = t.id ∧ r.TenantID = t.tenantID then
              { r with
                VehicleID := t.vehicleID
                DriverID := t.driverID
                Origin := t.origin
                Destination := t.destination
                Purpose := nullIfEmpty t.purpose
                StartTime := t.startTime
                EndTime := t.endTime
                StartOdometer := t.startOdometer
                EndOdometer := t.endOdometer
                Status := t.status
                UpdatedAt := ctx.now }
            else r) }
      GetByID ctx t.id db2

end TripRepository

/-- Go `NewVehicleRepository()`. -/
def NewVehicleRepository : vehicle.Repository DB :=
  { GetByID := VehicleRepository.GetByID
    Update := VehicleRepository.Update }

/-- Go `NewDriverRepository()`. -/
def NewDriverRepository : driver.Repository DB :=
  { GetByID := DriverRepository.GetByID }

/-- Go `NewTripRepository()`. -/
def NewTripRepository : trip.Repository DB :=
  { GetByID := TripRepository.GetByID
    CheckConflict := TripRepository.CheckConflict
    Create := TripRepository.Create
    Update := TripRepository.Update }

/-- Go `NewTripService(...)` over the SQL repositories, as `module.go` wires it. -/
def sqlTripService : TripService DB :=
  { tripRepo := NewTripRepository
    vehicleRepo := NewVehicleRepository
    driverRepo := NewDriverRepository }

/-- Go `NewVehicleService(...)` over the SQL repository. -/
def sqlVehicleService : VehicleService DB :=
  { repo := NewVehicleRepository }

/-! ## The effective window of the specification -/

/-- The end of a stored trip's active window as the specification defines it
(section 3): `endTime ?? startTime + 24h`. -/
def specEffectiveEnd (r : models.Trip) : Time :=
  match r.EndTime with
  | some b => b
  | none => r.StartTime + 24 * Hour

/-- The overlap test of the specification (section 4.2) on two windows
`[s1, e1]` and `[s2, e2]`: `s1 <= e2 AND s2 <= e1`. -/
def specOverlap (s1 e1 s2 e2 : Time) : Prop :=
  s1 ≤ e2 ∧ s2 ≤ e1

/-! ## Sample data for the concrete evaluations -/

/-- 2025-01-01T00:00:00Z. -/
def t20250101 : Time := 1735689600 * 1000000000

/-- 2025-01-10T08:00:00Z. -/
def t20250110_0800 : Time := 1736496000 * 1000000000

/-- 2025-01-10T10:00:00Z. -/
def t20250110_1000 : Time := 1736503200 * 1000000000

/-- 2025-01-10T12:00:00Z. -/
def t20250110_1200 : Time := 1736510400 * 1000000000

/-- 2026-01-01T00:00:00Z. -/
def t20260101 : Time := 1767225600 * 1000000000

/-- A request context of tenant 1 in which every permission is granted, a
transaction, a user and a session are present, and the clock shows 2025-01-01. -/
def sampleCtx : Ctx :=
  { canUser := fun _ => none
    useTenantID := .ok 1
    useTx := none
    useUser := .ok 7
    useSession := .ok 9
    now := t20250101 }

/-- The same context without a session (`composables.UseSession` fails). -/
def sampleCtxNoSession : Ctx :=
  { sampleCtx with useSession := .error (.msg "no session found") }

/-- Vehicle 10 of tenant 1 with the given status. -/
def sampleVehicleRow (status : VehicleStatus) : models.Vehicle :=
  { ID := 10
    TenantID := 1
    Make := "Toyota"
    Model := "Hilux"
    Year := 2020
    VIN := "VIN10"
    LicensePlate := "01A001AA"
    Status := status
    CurrentOdometer := 50000
    RegistrationExpiry := t20260101
    InsuranceExpiry := t20260101
    CreatedAt := 0
    UpdatedAt := 0
    DeletedAt := none }

/-- Driver 20 of tenant 1, Active, licence valid until 2026-01-01. -/
def sampleDriverRow : models.Driver :=
  { ID := 20
    TenantID := 1
    UserID := none
    FirstName := "Ali"
    LastName := "Valiev"
    LicenseNumber := "AB123"
    LicenseExpiry := t20260101
    Phone := none
    Email := none
    Status := DriverStatusActive
    CreatedAt := 0
    UpdatedAt := 0
    DeletedAt := none }

/-- A request for trip 30 of vehicle 10 and driver 20, 2025-01-10 08:00 to 12:00. -/
def sampleTrip : Trip :=
  { id := 30
    tenantID := 1
    vehicleID := 10
    driverID := 20
    origin := "Depot"
    destination := "Airport"
    purpose := "Transfer"
    startTime := t20250110_0800
    endTime := some t20250110_1200
    startOdometer := 50000
    endOdometer := none
    status := TripStatusScheduled
    createdAt := t20250101
    updatedAt := t20250101 }

/-- The stored row of trip `id` of vehicle 10 with the given status and window. -/
def sampleTripRow (id : UUID) (status : TripStatus) (startTime : Time) (endTime : Option Time) :
    models.Trip :=
  { ID := id
    TenantID := 1
    VehicleID := 10
    DriverID := 20
    Origin := "Depot"
    Destination := "Airport"
    Purpose := some "Transfer"
    StartTime := startTime
    EndTime := endTime
    StartOdometer := 50000
    EndOdometer := none
    Status := status
    CreatedAt := t20250101
    UpdatedAt := t20250101
    DeletedAt := none }

/-- A database holding vehicle 10 with the given status, driver 20 and the given trips. -/
def sampleDB (status : VehicleStatus) (trips : List models.Trip) : DB :=
  { fleet_vehicles := [sampleVehicleRow status]
    fleet_drivers := [sampleDriverRow]
    fleet_trips := trips
    faults := [] }

/-- A world over `sampleDB` with an empty call log. -/
def sampleWorld (status : VehicleStatus) (trips : List models.Trip) : World DB :=
  { store := sampleDB status trips, log := [] }

/-- A world in which trip 30 of vehicle 10 is stored with the given status
(started 2025-01-10 08:00, no end yet) and the vehicle is InUse. -/
def sampleWorldWithTrip (status : TripStatus) : World DB :=
  sampleWorld VehicleStatusInUse [sampleTripRow 30 status t20250110_0800 none]

/-- 2025-01-10T14:00:00Z. -/
def t20250110_1400 : Time := 1736517600 * 1000000000

/-! ## Calendar arithmetic of Go's `time` package -/

/-- Nanoseconds in a day. -/
def nsPerDay : Int := 24 * Hour

/-- Days from 1970-01-01 to the date (`y`, `m`, `d`) of the proleptic Gregorian
calendar, `m` in 1..12. A day number past the end of the month counts on into
the following months, which is how Go's `time.Date` normalises it. -/
def daysFromCivil (y m d : Int) : Int :=
  let y1 := if m ≤ 2 then y - 1 else y
  let era := y1 / 400
  let yoe := y1 - era * 400
  let mp := (m + 9) % 12
  let doy := (153 * mp + 2) / 5 + d - 1
  let doe := yoe * 365 + yoe / 4 - yoe / 100 + doy
  era * 146097 + doe - 719468

/-- The date (year, month, day) of the day `z` days after 1970-01-01. -/
def civilFromDays (z : Int) : Int × Int × Int :=
  let z1 := z + 719468
  let era := z1 / 146097
  let doe := z1 - era * 146097
  let yoe := (doe - doe / 1460 + doe / 36524 - doe / 146096) / 365
  let doy := doe - (365 * yoe + yoe / 4 - yoe / 100)
  let mp := (5 * doy + 2) / 153
  let d := doy - (153 * mp + 2) / 5 + 1
  let m := if mp < 10 then mp + 3 else mp - 9
  let y := yoe + era * 400
  (if m ≤ 2 then y + 1 else y, m, d)

/-- Go `t.AddDate(years, months, days)` for a time whose Location is UTC (for
any Location see `ZonedTime.AddDate`): the date of `t` with
the three numbers added field by field, the month brought back into 1..12 by
carrying into the year, an overflowing day carried into the following months,
and the time of day kept. -/
def Time.AddDate (t : Time) (years months days : Int) : Time :=
  let date := civilFromDays (t / nsPerDay)
  let m0 := date.2.1 - 1 + months
  daysFromCivil (date.1 + years + m0 / 12) (m0 % 12 + 1) (date.2.2 + days) * nsPerDay
    + t % nsPerDay

/-- Go `*time.Location` as the time package reads it: the offset (seconds east
of UTC) in force before the first transition, and the transitions in ascending
order of their instant (`when`, Unix seconds), each with the offset in force
from then on. `time.UTC` and the fixed zones have no transition; for a zone
with a recurring rule the list holds the rule's transitions. -/
structure Location where
  name : String
  offset0 : Int
  tx : List (Int × Int)
  deriving DecidableEq, Repr

/-- Go `time.UTC`. -/
def Location.UTC : Location :=
  { name := "UTC", offset0 := 0, tx := [] }

/-- Go `time.FixedZone(name, offset)`. -/
def Location.FixedZone (name : String) (offset : Int) : Location :=
  { name := name, offset0 := offset, tx := [] }

/-- The scan of the transitions for `lookup`: `offset` is in force from `start`
(`none`: since ever) up to the first transition still ahead of `sec`. -/
def Location.lookupFrom (sec offset : Int) (start : Option Int) (tx : List (Int × Int)) :
    Int × Option Int × Option Int :=
  match tx with
  | [] => (offset, start, none)
  | (w, o) :: rest =>
    if sec < w then (offset, start, some w) else Location.lookupFrom sec o (some w) rest

/-- Go `l.lookup(sec)`: the offset in force at the instant `sec` (Unix seconds)
and the instants between which it is in force (`none` for no bound). -/
def Location.lookup (l : Location) (sec : Int) : Int × Option Int × Option Int :=
  Location.lookupFrom sec l.offset0 none l.tx

/-- The end of Go `time.Date` (the lines after "Look for zone offset for
expected time"): `unix` is the wall-clock reading as Unix seconds of UTC; the
offset in force at `unix` is taken off, or, when the result falls outside the
span of that offset, the offset in force at the result. -/
def Location.wallToUnix (l : Location) (unix : Int) : Int :=
  let found := l.lookup unix
  let offset := found.1
  if offset ≠ 0 then
    let utc := unix - offset
    let beforeStart :=
      match found.2.1 with
      | some start => decide (utc < start)
      | none => false
    let afterEnd :=
      match found.2.2 with
      | some e => decide (utc ≥ e)
      | none => false
    if beforeStart || afterEnd then unix - (l.lookup utc).1 else unix - offset
  else unix

/-- Go `time.Time` where its Location matters: the instant (nanoseconds since
1970-01-01 UTC) and the Location the value carries. -/
structure ZonedTime where
  instant : Time
  loc : Location
  deriving DecidableEq, Repr

/-- Go `t.AddDate(years, months, days)`: the date and the clock of `t` are read
in `t`'s Location, the three numbers are added to the date field by field and
normalised as in `Time.AddDate`, and `time.Date` turns the result, read in the
same Location, into an instant. -/
def ZonedTime.AddDate (t : ZonedTime) (years months days : Int) : ZonedTime :=
  let offset := (t.loc.lookup (t.instant / 1000000000)).1
  let wall := Time.AddDate (t.instant + offset * 1000000000) years months days
  { instant := t.loc.wallToUnix (wall / 1000000000) * 1000000000 + wall % 1000000000
    loc := t.loc }

/-- 2025-07-01T00:00:00Z. -/
def t20250701 : Time := 1751328000 * 1000000000

/-! ## enums/service_type.go -/

abbrev ServiceType := Int

def ServiceTypeOilChange : ServiceType := 0
def ServiceTypeTireRotation : ServiceType := 1
def ServiceTypeBrakeService : ServiceType := 2
def ServiceTypeInspection : ServiceType := 3
def ServiceTypeRepair : ServiceType := 4
def ServiceTypeOther : ServiceType := 5

def ServiceType.IsValid (s : ServiceType) : Bool :=
  decide (s ≥ ServiceTypeOilChange) && decide (s ≤ ServiceTypeOther)

/-! ## The `float64` arithmetic the fleet module uses

The services compute with Go `float64` values. The embedding does not fix a
representation: `F` is any type with the operations below, so that every
theorem holds for whatever these operations compute, IEEE 754 binary64
included. -/

class Float64 (F : Type) where
  /-- The literal `0`. -/
  zero : F
  /-- The literal `0.20`. -/
  lit020 : F
  /-- The conversion `float64(n)` of a Go `int`. -/
  ofInt : Int → F
  add : F → F → F
  sub : F → F → F
  div : F → F → F
  /-- Go `math.Abs`. -/
  abs : F → F
  /-- The comparison `a > b`. -/
  gt : F → F → Bool
  /-- The comparison `a == b`. -/
  eq : F → F → Bool

/-- The three sign facts used about `float64`: `0 > 0` is false, the
conversion of a positive integer is positive, and the quotient of two positive
values is not below zero. They hold for IEEE 754 binary64 (a positive `int`
converts to a value of at least 1; a quotient of positive values is a positive
value, `+0` or `+Inf`). -/
class LawfulFloat64 (F : Type) [Float64 F] : Prop where
  zero_not_gt_zero : Float64.gt (Float64.zero : F) Float64.zero = false
  ofInt_pos : ∀ n : Int, 0 < n → Float64.gt (Float64.ofInt n : F) Float64.zero = true
  div_pos_not_neg : ∀ a b : F, Float64.gt a Float64.zero = true →
    Float64.gt b Float64.zero = true → Float64.gt Float64.zero (Float64.div a b) = false

/-- Exact rational arithmetic as an instance of the `float64` operations, used
to evaluate the services on concrete inputs. -/
instance exactFloat64 : Float64 ℚ where
  zero := 0
  lit020 := 1 / 5
  ofInt := fun n => (n : ℚ)
  add := fun a b => a + b
  sub := fun a b => a - b
  div := fun a b => a / b
  abs := fun a => |a|
  gt := fun a b => decide (a > b)
  eq := fun a b => decide (a = b)

instance exactFloat64_lawful : LawfulFloat64 ℚ where
  zero_not_gt_zero := by simp [Float64.gt, Float64.zero]
  ofInt_pos := by
    intro n hn
    simp only [Float64.gt, Float64.ofInt, Float64.zero, gt_iff_lt, decide_eq_true_eq]
    exact_mod_cast hn
  div_pos_not_neg := by
    intro a b ha hb
    simp only [Float64.gt, Float64.zero, gt_iff_lt, decide_eq_true_eq, Float64.div,
      decide_eq_false_iff_not, not_lt] at ha hb ⊢
    exact le_of_lt (div_pos ha hb)

/-! ## Aggregate: maintenance -/

structure Maintenance (F : Type) where
  id : UUID
  tenantID : UUID
  vehicleID : UUID
  serviceType : ServiceType
  serviceDate : ZonedTime
  odometer : Int
  cost : F
  serviceProvider : String
  description : String
  nextServiceDue : Option ZonedTime
  nextServiceOdometer : Option Int
  createdAt : Time
  updatedAt : Time
  deriving DecidableEq, Repr

/-- Go `maintenance.UpdateNextService`; `now` is the reading of `time.Now()`. -/
def Maintenance.UpdateNextService {F : Type} (m : Maintenance F) (date : Option ZonedTime)
    (odometer : Option Int) (now : Time) : Maintenance F :=
  { id := m.id
    tenantID := m.tenantID
    vehicleID := m.vehicleID
    serviceType := m.serviceType
    serviceDate := m.serviceDate
    odometer := m.odometer
    cost := m.cost
    serviceProvider := m.serviceProvider
    description := m.description
    nextServiceDue := date
    nextServiceOdometer := odometer
    createdAt := m.createdAt
    updatedAt := now }

/-- Go `MaintenanceCreatedEvent`. -/
structure MaintenanceCreatedEvent (F : Type) where
  Sender : User
  Session : Session
  Data : Maintenance F
  Result : Option (Maintenance F)
  deriving DecidableEq, Repr

def NewMaintenanceCreatedEvent {F : Type} (ctx : Ctx) (data : Maintenance F) :
    Except Err (MaintenanceCreatedEvent F) :=
  match ctx.useUser with
  | .error err => .error err
  | .ok sender =>
    match ctx.useSession with
    | .error err => .error err
    | .ok sess => .ok { Sender := sender, Session := sess, Data := data, Result := none }

/-- The Go interface `maintenance.Repository` (the method `Create`). -/
structure maintenance.Repository (F σ : Type) where
  Create : Ctx → Maintenance F → σ → Except Err (Maintenance F) × σ

/-- A store together with the log of the calls made on it, for a service whose
calls are of type `κ`. -/
structure Logged (κ σ : Type) where
  store : σ
  log : List κ
  deriving DecidableEq, Repr

/-- Perform one repository call: run it on the store and append it to the log. -/
def Logged.call {κ σ α : Type} (w : Logged κ σ) (c : κ) (f : σ → Except Err α × σ) :
    Except Err α × Logged κ σ :=
  ((f w.store).1, { store := (f w.store).2, log := w.log ++ [c] })

/-- Append an entry that is not a repository call (a publish) to the log. -/
def Logged.note {κ σ : Type} (w : Logged κ σ) (c : κ) : Logged κ σ :=
  { store := w.store, log := w.log ++ [c] }

/-- One outgoing call of the maintenance service. -/
inductive MaintenanceCall (F : Type) where
  | VehicleGetByID (id : UUID)
  | MaintenanceCreate (m : Maintenance F)
  | Publish (e : MaintenanceCreatedEvent F)
  deriving DecidableEq, Repr

/-! ## services/maintenance_service.go -/

structure MaintenanceService (F σ : Type) where
  repo : maintenance.Repository F σ
  vehicleRepo : vehicle.Repository σ

/-- Go `calculateNextService`: the next-due date and the next-due odometer,
each `none` for a nil pointer. The vehicle is not used, as in the source. The
sums are `int` additions. -/
def MaintenanceService.calculateNextService {F : Type} (m : Maintenance F) (_v : Vehicle) :
    Option ZonedTime × Option Int :=
  if m.serviceType = ServiceTypeOilChange then
    (some (m.serviceDate.AddDate 0 6 0), some (wrapInt64 (m.odometer + 10000)))
  else if m.serviceType = ServiceTypeTireRotation then
    (some (m.serviceDate.AddDate 0 6 0), some (wrapInt64 (m.odometer + 12000)))
  else if m.serviceType = ServiceTypeBrakeService then
    (some (m.serviceDate.AddDate 1 0 0), some (wrapInt64 (m.odometer + 20000)))
  else if m.serviceType = ServiceTypeInspection then
    (some (m.serviceDate.AddDate 1 0 0), none)
  else if m.serviceType = ServiceTypeRepair then
    (none, none)
  else if m.serviceType = ServiceTypeOther then
    (none, none)
  else
    (none, none)

def MaintenanceService.Create {F σ : Type} (s : MaintenanceService F σ) (ctx : Ctx)
    (m : Maintenance F) (w : Logged (MaintenanceCall F) σ) :
    Except Err (Maintenance F) × Logged (MaintenanceCall F) σ :=
  match ctx.canUser Permission.MaintenanceCreate with
  | some err => (.error err, w)
  | none =>
    match w.call (.VehicleGetByID m.vehicleID) (s.vehicleRepo.GetByID ctx m.vehicleID) with
    | (.error err, w1) => (.error (.wrap "failed to get vehicle" err), w1)
    | (.ok v, w1) =>
      let next := MaintenanceService.calculateNextService m v
      let m1 :=
        if next.1 ≠ none ∨ next.2 ≠ none then m.UpdateNextService next.1 next.2 ctx.now else m
      match w1.call (.MaintenanceCreate m1) (s.repo.Create ctx m1) with
      | (.error err, w2) => (.error (.wrap "failed to create maintenance" err), w2)
      | (.ok created, w2) =>
        match NewMaintenanceCreatedEvent ctx created with
        | .error err => (.error (.wrap "failed to create event" err), w2)
        | .ok event => (.ok created, w2.note (.Publish { event with Result := some created }))

/-! ## enums/fuel_type.go -/

abbrev FuelType := Int

def FuelTypeGasoline : FuelType := 0
def FuelTypeDiesel : FuelType := 1
def FuelTypeElectric : FuelType := 2
def FuelTypeHybrid : FuelType := 3
def FuelTypeCNG : FuelType := 4

/-! ## Aggregate: fuel entry -/

structure FuelEntry (F : Type) where
  id : UUID
  tenantID : UUID
  vehicleID : UUID
  driverID : Option UUID
  date : Time
  quantity : F
  cost : F
  odometer : Int
  fuelType : FuelType
  location : String
  createdAt : Time
  updatedAt : Time
  deriving DecidableEq, Repr

/-- Go `fuelEntry.CalculateEfficiency(previousOdometer)`; the difference is an
`int` subtraction. -/
def FuelEntry.CalculateEfficiency {F : Type} [Float64 F] (f : FuelEntry F)
    (previousOdometer : Int) : F :=
  if previousOdometer ≥ f.odometer ∨ Float64.eq f.quantity Float64.zero = true then
    Float64.zero
  else
    Float64.div (Float64.ofInt (wrapInt64 (f.odometer - previousOdometer))) f.quantity

/-- The Go interface `fuel_entry.Repository` (the methods the anomaly detector calls). -/
structure fuel_entry.Repository (F σ : Type) where
  GetByVehicle : Ctx → UUID → σ → Except Err (List (FuelEntry F)) × σ
  GetLastEntry : Ctx → UUID → σ → Except Err (FuelEntry F) × σ

/-- One outgoing call of the fuel service. -/
inductive FuelCall where
  | GetByVehicle (vehicleID : UUID)
  | GetLastEntry (vehicleID : UUID)
  deriving DecidableEq, Repr

/-! ## services/fuel_service.go -/

structure FuelService (F σ : Type) where
  repo : fuel_entry.Repository F σ

/-- Go `FuelService.CalculateEfficiency`: a failing `GetLastEntry` gives `0, nil`. -/
def FuelService.CalculateEfficiency {F σ : Type} [Float64 F] (s : FuelService F σ) (ctx : Ctx)
    (f : FuelEntry F) (w : Logged FuelCall σ) : Except Err F × Logged FuelCall σ :=
  match w.call (.GetLastEntry f.vehicleID) (s.repo.GetLastEntry ctx f.vehicleID) with
  | (.error _, w1) => (.ok Float64.zero, w1)
  | (.ok lastEntry, w1) => (.ok (f.CalculateEfficiency lastEntry.odometer), w1)

/-- Go `average`. -/
def average {F : Type} [Float64 F] (values : List F) : F :=
  if values.length = 0 then
    Float64.zero
  else
    Float64.div (values.foldl Float64.add Float64.zero) (Float64.ofInt values.length)

/-- The values `entries[i].CalculateEfficiency(entries[i-1].Odometer())` for
`i = 1, ..., len(entries) - 1`, in this order (the loop of `DetectAnomaly`,
lines 149-150). -/
def FuelService.pairEfficiencies {F : Type} [Float64 F] : List (FuelEntry F) → List F
  | prev :: cur :: rest =>
    cur.CalculateEfficiency prev.odometer :: FuelService.pairEfficiencies (cur :: rest)
  | _ => []

/-- The slice `efficiencies` built by the loop of `DetectAnomaly` (lines
148-154): the pair efficiencies that are `> 0`. -/
def FuelService.positiveEfficiencies {F : Type} [Float64 F] (entries : List (FuelEntry F)) :
    List F :=
  (FuelService.pairEfficiencies entries).filter (fun eff => Float64.gt eff Float64.zero)

def FuelService.DetectAnomaly {F σ : Type} [Float64 F] (s : FuelService F σ) (ctx : Ctx)
    (f : FuelEntry F) (w : Logged FuelCall σ) : Except Err Bool × Logged FuelCall σ :=
  match w.call (.GetByVehicle f.vehicleID) (s.repo.GetByVehicle ctx f.vehicleID) with
  | (.error err, w1) => (.error (.wrap "failed to get fuel entries" err), w1)
  | (.ok entries, w1) =>
    if entries.length < 3 then
      (.ok false, w1)
    else
      let efficiencies := FuelService.positiveEfficiencies entries
      if efficiencies.length = 0 then
        (.ok false, w1)
      else
        let avgEfficiency := average efficiencies
        match s.CalculateEfficiency ctx f w1 with
        | (.error err, w2) => (.error err, w2)
        | (.ok currentEfficiency, w2) =>
          if Float64.eq currentEfficiency Float64.zero = true then
            (.ok false, w2)
          else
            let deviation :=
              Float64.div (Float64.abs (Float64.sub currentEfficiency avgEfficiency))
                avgEfficiency
            (.ok (Float64.gt deviation Float64.lit020), w2)

/-! ## infrastructure/persistence: maintenance and fuel entries -/

namespace models

structure Maintenance (F : Type) where
  ID : UUID
  TenantID : UUID
  VehicleID : UUID
  ServiceType : Int
  ServiceDate : Time
  Odometer : Int
  Cost : F
  ServiceProvider : Option String
  Description : Option String
  NextServiceDue : Option Time
  NextServiceOdometer : Option Int
  CreatedAt : Time
  UpdatedAt : Time
  DeletedAt : Option Time
  deriving DecidableEq, Repr

structure FuelEntry (F : Type) where
  ID : UUID
  TenantID : UUID
  VehicleID : UUID
  DriverID : Option UUID
  Date : Time
  Quantity : F
  Cost : F
  Odometer : Int
  FuelType : Int
  Location : Option String
  CreatedAt : Time
  UpdatedAt : Time
  DeletedAt : Option Time
  deriving DecidableEq, Repr

end models

/-- The database with the maintenance and fuel tables next to the tables of
`DB`; the connection and its fault script are those of `core`. A time column
holds an instant; `timeLocation` is the Location the driver gives to the
`time.Time` values it scans. -/
structure FleetDB (F : Type) where
  core : DB
  fleet_maintenance : List (models.Maintenance F)
  fleet_fuel_entries : List (models.FuelEntry F)
  timeLocation : Location
  deriving DecidableEq, Repr

/-- One call on the connection. -/
def FleetDB.poolCall {F : Type} (db : FleetDB F) : Option Err × FleetDB F :=
  (db.core.poolCall.1, { db with core := db.core.poolCall.2 })

/-- A repository method on the tables of `DB`, run on the whole database. -/
def FleetDB.onCore {F α : Type} (f : DB → α × DB) (db : FleetDB F) : α × FleetDB F :=
  ((f db.core).1, { db with core := (f db.core).2 })

def ErrMaintenanceNotFound : Err := .msg "maintenance not found"

def ErrFuelEntryNotFound : Err := .msg "fuel entry not found"

/-- The row scan of `queryMaintenance`; NULL strings read as empty, and the
service date and the next-due date are read in the Location `loc` of the driver. -/
def scanMaintenance {F : Type} (loc : Location) (r : models.Maintenance F) : Maintenance F :=
  { id := r.ID
    tenantID := r.TenantID
    vehicleID := r.VehicleID
    serviceType := r.ServiceType
    serviceDate := { instant := r.ServiceDate, loc := loc }
    odometer := r.Odometer
    cost := r.Cost
    serviceProvider := r.ServiceProvider.getD ""
    description := r.Description.getD ""
    nextServiceDue := r.NextServiceDue.map (fun t => { instant := t, loc := loc })
    nextServiceOdometer := r.NextServiceOdometer
    createdAt := r.CreatedAt
    updatedAt := r.UpdatedAt }

/-- The row scan of `queryFuelEntries`; a NULL location reads as empty. -/
def scanFuelEntry {F : Type} (r : models.FuelEntry F) : FuelEntry F :=
  { id := r.ID
    tenantID := r.TenantID
    vehicleID := r.VehicleID
    driverID := r.DriverID
    date := r.Date
    quantity := r.Quantity
    cost := r.Cost
    odometer := r.Odometer
    fuelType := r.FuelType
    location := r.Location.getD ""
    createdAt := r.CreatedAt
    updatedAt := r.UpdatedAt }

/-- Go `queryMaintenance` for a query whose WHERE clause is `sel`. -/
def queryMaintenance {F : Type} (ctx : Ctx) (sel : models.Maintenance F → Bool)
    (db : FleetDB F) : Except Err (List (Maintenance F)) × FleetDB F :=
  match ctx.useTx with
  | some err => (.error err, db)
  | none =>
    match db.poolCall with
    | (some err, db1) => (.error err, db1)
    | (none, db1) =>
      (.ok ((db1.fleet_maintenance.filter sel).map (scanMaintenance db1.timeLocation)), db1)

/-- Go `queryFuelEntries` for a query whose WHERE clause is `sel` and whose
ORDER BY clause sorts the selected rows with `order` (rows that the clause
does not tell apart keep their table order). -/
def queryFuelEntries {F : Type} (ctx : Ctx) (sel : models.FuelEntry F → Bool)
    (order : List (models.FuelEntry F) → List (models.FuelEntry F)) (db : FleetDB F) :
    Except Err (List (FuelEntry F)) × FleetDB F :=
  match ctx.useTx with
  | some err => (.error err, db)
  | none =>
    match db.poolCall with
    | (some err, db1) => (.error err, db1)
    | (none, db1) => (.ok ((order (db1.fleet_fuel_entries.filter sel)).map scanFuelEntry), db1)

namespace MaintenanceRepository

/-- `WHERE id = $1 AND tenant_id = $2 AND deleted_at IS NULL`. -/
def GetByID {F : Type} (ctx : Ctx) (id : UUID) (db : FleetDB F) :
    Except Err (Maintenance F) × FleetDB F :=
  match ctx.useTenantID with
  | .error err => (.error err, db)
  | .ok tenantID =>
    match queryMaintenance ctx
        (fun r => decide (r.ID = id) && decide (r.TenantID = tenantID) && r.DeletedAt.isNone) db with
    | (.error err, db1) => (.error err, db1)
    | (.ok [], db1) => (.error ErrMaintenanceNotFound, db1)
    | (.ok (m :: _), db1) => (.ok m, db1)

/-- `INSERT INTO fleet_maintenance (...)`, then `GetByID`. -/
def Create {F : Type} (ctx : Ctx) (m : Maintenance F) (db : FleetDB F) :
    Except Err (Maintenance F) × FleetDB F :=
  match ctx.useTx with
  | some err => (.error err, db)
  | none =>
    match db.poolCall with
    | (some err, db1) => (.error err, db1)
    | (none, db1) =>
      let row : models.Maintenance F :=
        { ID := m.id
          TenantID := m.tenantID
          VehicleID := m.vehicleID
          ServiceType := m.serviceType
          ServiceDate := m.serviceDate.instant
          Odometer := m.odometer
          Cost := m.cost
          ServiceProvider := TripRepository.nullIfEmpty m.serviceProvider
          Description := TripRepository.nullIfEmpty m.description
          NextServiceDue := m.nextServiceDue.map (fun t => t.instant)
          NextServiceOdometer := m.nextServiceOdometer
          CreatedAt := m.createdAt
          UpdatedAt := m.updatedAt
          DeletedAt := none }
      GetByID ctx m.id { db1 with fleet_maintenance := db1.fleet_maintenance ++ [row] }

end MaintenanceRepository

namespace FuelEntryRepository

/-- `ORDER BY date DESC`. -/
def byDateDesc {F : Type} (rows : List (models.FuelEntry F)) : List (models.FuelEntry F) :=
  rows.insertionSort (fun a b => b.Date ≤ a.Date)

/-- `ORDER BY date DESC, odometer DESC`. -/
def byDateOdometerDesc {F : Type} (rows : List (models.FuelEntry F)) :
    List (models.FuelEntry F) :=
  rows.insertionSort (fun a b => b.Date < a.Date ∨ (b.Date = a.Date ∧ b.Odometer ≤ a.Odometer))

/-- `WHERE vehicle_id = $1 AND tenant_id = $2 AND deleted_at IS NULL ORDER BY date DESC`. -/
def GetByVehicle {F : Type} (ctx : Ctx) (vehicleID : UUID) (db : FleetDB F) :
    Except Err (List (FuelEntry F)) × FleetDB F :=
  match ctx.useTenantID with
  | .error err => (.error err, db)
  | .ok tenantID =>
    queryFuelEntries ctx
      (fun r => decide (r.VehicleID = vehicleID) && decide (r.TenantID = tenantID)
        && r.DeletedAt.isNone)
      byDateDesc db

/-- `WHERE vehicle_id = $1 AND tenant_id = $2 AND deleted_at IS NULL
ORDER BY date DESC, odometer DESC LIMIT 1`. -/
def GetLastEntry {F : Type} (ctx : Ctx) (vehicleID : UUID) (db : FleetDB F) :
    Except Err (FuelEntry F) × FleetDB F :=
  match ctx.useTenantID with
  | .error err => (.error err, db)
  | .ok tenantID =>
    match queryFuelEntries ctx
        (fun r => decide (r.VehicleID = vehicleID) && decide (r.TenantID = tenantID)
          && r.DeletedAt.isNone)
        (fun rows => (byDateOdometerDesc rows).take 1) db with
    | (.error err, db1) => (.error err, db1)
    | (.ok [], db1) => (.error ErrFuelEntryNotFound, db1)
    | (.ok (f :: _), db1) => (.ok f, db1)

end FuelEntryRepository

/-- Go `NewMaintenanceRepository()`. -/
def NewMaintenanceRepository {F : Type} : maintenance.Repository F (FleetDB F) :=
  { Create := MaintenanceRepository.Create }

/-- Go `NewFuelEntryRepository()`. -/
def NewFuelEntryRepository {F : Type} : fuel_entry.Repository F (FleetDB F) :=
  { GetByVehicle := FuelEntryRepository.GetByVehicle
    GetLastEntry := FuelEntryRepository.GetLastEntry }

/-- The vehicle repository of `NewVehicleRepository()` on the whole database. -/
def NewVehicleRepositoryOn {F : Type} : vehicle.Repository (FleetDB F) :=
  { GetByID := fun ctx id => FleetDB.onCore (VehicleRepository.GetByID ctx id)
    Update := fun ctx v => FleetDB.onCore (VehicleRepository.Update ctx v) }

/-- Go `NewMaintenanceService(...)` over the SQL repositories. -/
def sqlMaintenanceService {F : Type} : MaintenanceService F (FleetDB F) :=
  { repo := NewMaintenanceRepository
    vehicleRepo := NewVehicleRepositoryOn }

/-- Go `NewFuelService(...)` over the SQL repository. -/
def sqlFuelService {F : Type} : FuelService F (FleetDB F) :=
  { repo := NewFuelEntryRepository }

/-! ## Sample data: maintenance and fuel entries -/

/-- 2025-12-31T00:00:00Z. -/
def t20251231 : Time := 1767139200 * 1000000000

/-- A maintenance record of vehicle 10, serviced on 2025-01-01 at odometer
50000, with the given service type and the given next-due values. -/
def sampleMaintenance (serviceType : ServiceType) (due : Option Time) (dueOdometer : Option Int) :
    Maintenance ℚ :=
  { id := 40
    tenantID := 1
    vehicleID := 10
    serviceType := serviceType
    serviceDate := { instant := t20250101, loc := Location.UTC }
    odometer := 50000
    cost := 120
    serviceProvider := "Garage"
    description := ""
    nextServiceDue := due.map (fun t => { instant := t, loc := Location.UTC })
    nextServiceOdometer := dueOdometer
    createdAt := t20250101
    updatedAt := t20250101 }

/-- The database with vehicle 10 (Available), driver 20 and the given fuel entries. -/
def sampleFleetDB (entries : List (models.FuelEntry ℚ)) : FleetDB ℚ :=
  { core := sampleDB VehicleStatusAvailable []
    fleet_maintenance := []
    fleet_fuel_entries := entries
    timeLocation := Location.UTC }

/-! ## The efficiency of the specification -/

/-- The efficiencies of a history as the specification defines them (section
3), the history being listed in chronological order: for every entry but the
first, (its odometer minus the odometer of the entry before it) divided by its
quantity. -/
def specEfficiencies {F : Type} [Float64 F] : List (FuelEntry F) → List F
  | before :: entry :: rest =>
    Float64.div (Float64.ofInt (entry.odometer - before.odometer)) entry.quantity
      :: specEfficiencies (entry :: rest)
  | _ => []

/-! ## Sample data: fuel entries -/

/-- 2025-01-08T00:00:00Z. -/
def t20250108 : Time := 1736294400 * 1000000000

/-- 2025-01-15T00:00:00Z. -/
def t20250115 : Time := 1736899200 * 1000000000

/-- 2025-01-22T00:00:00Z. -/
def t20250122 : Time := 1737504000 * 1000000000

/-- The stored fuel entry `id` of vehicle 10: 50 units taken on `date` at `odometer`. -/
def sampleFuelRow (id : UUID) (date : Time) (odometer : Int) : models.FuelEntry ℚ :=
  { ID := id
    TenantID := 1
    VehicleID := 10
    DriverID := none
    Date := date
    Quantity := 50
    Cost := 600
    Odometer := odometer
    FuelType := FuelTypeDiesel
    Location := none
    CreatedAt := date
    UpdatedAt := date
    DeletedAt := none }

/-- A new fuel entry of vehicle 10, not stored yet: 50 units on 2025-01-22 at `odometer`. -/
def sampleFuelEntry (odometer : Int) : FuelEntry ℚ :=
  { id := 54
    tenantID := 1
    vehicleID := 10
    driverID := none
    date := t20250122
    quantity := 50
    cost := 600
    odometer := odometer
    fuelType := FuelTypeDiesel
    location := ""
    createdAt := t20250122
    updatedAt := t20250122 }

/-- A usual history, in table order: three fills a week apart, 500 distance
units driven between two fills. -/
def sampleHistory : List (models.FuelEntry ℚ) :=
  [sampleFuelRow 51 t20250101 1000, sampleFuelRow 52 t20250108 1500,
    sampleFuelRow 53 t20250115 2000]

/-- A history whose odometer readings fall as time goes on. -/
def sampleHistoryFalling : List (models.FuelEntry ℚ) :=
  [sampleFuelRow 51 t20250101 2000, sampleFuelRow 52 t20250108 1500,
    sampleFuelRow 53 t20250115 1000]

/-- A world over `sampleFleetDB` with an empty call log. -/
def sampleFuelWorld (entries : List (models.FuelEntry ℚ)) : Logged FuelCall (FleetDB ℚ) :=
  { store := sampleFleetDB entries, log := [] }

/-! ## services/scheduler_service.go

A job function works on the state `σ` of whatever it touches (stores,
notification sink) and returns `nil` (`none`) or an error. The context a job
receives is the scheduler's context with the value `tenant_id` set to the
tenant id passed next to it. A run records, besides that state, every
invocation of a job function and every line handed to the logger. -/

/-- Go `JobFunc`. -/
abbrev JobFunc (σ : Type) := UUID → σ → Option Err × σ

/-- Go `Job`; `Interval` is a `time.Duration` in nanoseconds. -/
structure Job (σ : Type) where
  Name : String
  Interval : Int
  Fn : JobFunc σ

/-- A line handed to the logger. -/
inductive LogLine where
  | Info (message : String) (job : Option String)
  | Error (message : String) (err : Err) (job : String) (tenantID : UUID)
  deriving DecidableEq, Repr

/-- The fields of Go `SchedulerService` that `RegisterJob`, `SetTenantIDs`,
`executeJob` and `RunOnce` read or write. -/
structure SchedulerService (σ : Type) where
  jobs : List (Job σ)
  tenantIDs : List UUID

/-- Go `NewSchedulerService`: no jobs, no tenants. -/
def NewSchedulerService {σ : Type} : SchedulerService σ :=
  { jobs := [], tenantIDs := [] }

def SchedulerService.RegisterJob {σ : Type} (s : SchedulerService σ) (job : Job σ) :
    SchedulerService σ :=
  { s with jobs := s.jobs ++ [job] }

def SchedulerService.SetTenantIDs {σ : Type} (s : SchedulerService σ) (tenantIDs : List UUID) :
    SchedulerService σ :=
  { s with tenantIDs := tenantIDs }

/-- What a run of jobs has done so far. -/
structure JobRun (σ : Type) where
  env : σ
  invoked : List (String × UUID)
  logged : List LogLine

/-- One pass of the loop body of `executeJob` (lines 123-130). -/
def SchedulerService.executeForTenant {σ : Type} (job : Job σ) (r : JobRun σ) (tenantID : UUID) :
    JobRun σ :=
  match job.Fn tenantID r.env with
  | (some err, env1) =>
    { env := env1
      invoked := r.invoked ++ [(job.Name, tenantID)]
      logged := r.logged ++ [LogLine.Error "Job execution failed" err job.Name tenantID] }
  | (none, env1) =>
    { env := env1
      invoked := r.invoked ++ [(job.Name, tenantID)]
      logged := r.logged }

def SchedulerService.executeJob {σ : Type} (s : SchedulerService σ) (job : Job σ)
    (r : JobRun σ) : JobRun σ :=
  s.tenantIDs.foldl (SchedulerService.executeForTenant job)
    { r with logged := r.logged ++ [LogLine.Info "Executing scheduled job" (some job.Name)] }

def SchedulerService.RunOnce {σ : Type} (s : SchedulerService σ) (r : JobRun σ) : JobRun σ :=
  s.jobs.foldl (fun run job => s.executeJob job run)
    { r with
      logged := r.logged ++ [LogLine.Info "Running all fleet notification jobs once" none] }

/-- A job over a counter: it adds `step` to the counter and fails for tenant `failsFor`. -/
def sampleJob (name : String) (step : Nat) (failsFor : UUID) : Job Nat :=
  { Name := name
    Interval := 24 * Hour
    Fn := fun tenantID n =>
      (if tenantID = failsFor then some (.msg "tenant unavailable") else none, n + step) }

/-- A scheduler with two registered jobs and the tenants 1, 2, 3. -/
def sampleScheduler : SchedulerService Nat :=
  ((NewSchedulerService.RegisterJob (sampleJob "first" 1 2)).RegisterJob
    (sampleJob "second" 10 1)).SetTenantIDs [1, 2, 3]

/-! ## The remaining mutators of the aggregates (vehicle.go, trip.go) -/

/-- Go `vehicle.UpdateDetails`. -/
def Vehicle.UpdateDetails (v : Vehicle) (make model : String) (year : Int) (now : Time) :
    Vehicle :=
  { id := v.id
    tenantID := v.tenantID
    make := make
    model := model
    year := year
    vin := v.vin
    licensePlate := v.licensePlate
    status := v.status
    currentOdometer := v.currentOdometer
    registrationExpiry := v.registrationExpiry
    insuranceExpiry := v.insuranceExpiry
    createdAt := v.createdAt
    updatedAt := now }

/-- Go `trip.UpdateRoute`. -/
def Trip.UpdateRoute (t : Trip) (origin destination : String) (now : Time) : Trip :=
  { id := t.id
    tenantID := t.tenantID
    vehicleID := t.vehicleID
    driverID := t.driverID
    origin := origin
    destination := destination
    purpose := t.purpose
    startTime := t.startTime
    endTime := t.endTime
    startOdometer := t.startOdometer
    endOdometer := t.endOdometer
    status := t.status
    createdAt := t.createdAt
    updatedAt := now }

/-! ## Pointer receivers

The aggregates are Go structs reached through pointers (`*vehicle`, `*trip`),
and every mutator is a method on the pointer whose body is one
`return &T{...}` whose fields are read from the receiver and the arguments.
To speak about what a call does to the receiver, the structs of one type
allocated so far form a heap, a pointer being the index of its struct. -/

structure Heap (α : Type) where
  objs : List α
  deriving DecidableEq, Repr

abbrev Ptr := Nat

/-- Go `&T{...}`: a new struct at the next free address. -/
def Heap.alloc {α : Type} (h : Heap α) (x : α) : Ptr × Heap α :=
  (h.objs.length, { objs := h.objs ++ [x] })

/-- A call `p.M(args)` of a method whose body is `return &T{...}`, `body` giving
the fields of the new struct from those of the receiver: the receiver is read,
the new struct is allocated and its address returned. A pointer that points at
nothing gives `none` (the nil dereference panics). -/
def Heap.callMutator {α : Type} (h : Heap α) (p : Ptr) (body : α → α) : Option (Ptr × Heap α) :=
  match h.objs[p]? with
  | none => none
  | some x => some (h.alloc (body x))

/-- The call returned the address of a new struct with the fields `x`: the
address is not the receiver's, and every struct that was on the heap before the
call, the receiver among them, is still there with the same fields. -/
def Heap.ReturnsNew {α : Type} (h : Heap α) (p : Ptr) (res : Option (Ptr × Heap α)) (x : α) :
    Prop :=
  ∃ q h1, res = some (q, h1) ∧ q ≠ p ∧ h1.objs[q]? = some x ∧
    ∀ (i : Ptr) (y : α), h.objs[i]? = some y → h1.objs[i]? = some y

/-- The call `v.UpdateStatus(status)` on the pointer `p`. -/
def Vehicle.UpdateStatusAt (h : Heap Vehicle) (p : Ptr) (status : VehicleStatus) (now : Time) :
    Option (Ptr × Heap Vehicle) :=
  h.callMutator p (fun v => v.UpdateStatus status now)

/-- The call `v.UpdateOdometer(reading)` on the pointer `p`. -/
def Vehicle.UpdateOdometerAt (h : Heap Vehicle) (p : Ptr) (reading : Int) (now : Time) :
    Option (Ptr × Heap Vehicle) :=
  h.callMutator p (fun v => v.UpdateOdometer reading now)

/-- The call `v.UpdateDetails(make, model, year)` on the pointer `p`. -/
def Vehicle.UpdateDetailsAt (h : Heap Vehicle) (p : Ptr) (make model : String) (year : Int)
    (now : Time) : Option (Ptr × Heap Vehicle) :=
  h.callMutator p (fun v => v.UpdateDetails make model year now)

/-- The call `t.Complete(endTime, endOdometer)` on the pointer `p`. -/
def Trip.CompleteAt (h : Heap Trip) (p : Ptr) (endTime : Time) (endOdometer : Int) (now : Time) :
    Option (Ptr × Heap Trip) :=
  h.callMutator p (fun t => t.Complete endTime endOdometer now)

/-- The call `t.Cancel(reason)` on the pointer `p`. -/
def Trip.CancelAt (h : Heap Trip) (p : Ptr) (reason : String) (now : Time) :
    Option (Ptr × Heap Trip) :=
  h.callMutator p (fun t => t.Cancel reason now)

/-- The call `t.UpdateRoute(origin, destination)` on the pointer `p`. -/
def Trip.UpdateRouteAt (h : Heap Trip) (p : Ptr) (origin destination : String) (now : Time) :
    Option (Ptr × Heap Trip) :=
  h.callMutator p (fun t => t.UpdateRoute origin destination now)

/-! ## enums: `String` and `Parse` (vehicle_status.go, driver_status.go,
trip_status.go, service_type.go, fuel_type.go) -/

def VehicleStatus.String (s : VehicleStatus) : String :=
  if s = VehicleStatusAvailable then "Available"
  else if s = VehicleStatusInUse then "InUse"
  else if s = VehicleStatusMaintenance then "Maintenance"
  else if s = VehicleStatusOutOfService then "OutOfService"
  else if s = VehicleStatusRetired then "Retired"
  else "Unknown"

def ParseVehicleStatus (s : String) : Except Err VehicleStatus :=
  if s = "Available" then .ok VehicleStatusAvailable
  else if s = "InUse" then .ok VehicleStatusInUse
  else if s = "Maintenance" then .ok VehicleStatusMaintenance
  else if s = "OutOfService" then .ok VehicleStatusOutOfService
  else if s = "Retired" then .ok VehicleStatusRetired
  else .error (.msg ("invalid vehicle status: " ++ s))

def DriverStatus.String (d : DriverStatus) : String :=
  if d = DriverStatusActive then "Active"
  else if d = DriverStatusInactive then "Inactive"
  else if d = DriverStatusOnLeave then "OnLeave"
  else if d = DriverStatusTerminated then "Terminated"
  else "Unknown"

def ParseDriverStatus (s : String) : Except Err DriverStatus :=
  if s = "Active" then .ok DriverStatusActive
  else if s = "Inactive" then .ok DriverStatusInactive
  else if s = "OnLeave" then .ok DriverStatusOnLeave
  else if s = "Terminated" then .ok DriverStatusTerminated
  else .error (.msg ("invalid driver status: " ++ s))

def TripStatus.String (t : TripStatus) : String :=
  if t = TripStatusScheduled then "Scheduled"
  else if t = TripStatusInProgress then "InProgress"
  else if t = TripStatusCompleted then "Completed"
  else if t = TripStatusCancelled then "Cancelled"
  else "Unknown"

def ParseTripStatus (s : String) : Except Err TripStatus :=
  if s = "Scheduled" then .ok TripStatusScheduled
  else if s = "InProgress" then .ok TripStatusInProgress
  else if s = "Completed" then .ok TripStatusCompleted
  else if s = "Cancelled" then .ok TripStatusCancelled
  else .error (.msg ("invalid trip status: " ++ s))

def ServiceType.String (s : ServiceType) : String :=
  if s = ServiceTypeOilChange then "OilChange"
  else if s = ServiceTypeTireRotation then "TireRotation"
  else if s = ServiceTypeBrakeService then "BrakeService"
  else if s = ServiceTypeInspection then "Inspection"
  else if s = ServiceTypeRepair then "Repair"
  else if s = ServiceTypeOther then "OtherService"
  else "Unknown"

def ParseServiceType (str : String) : Except Err ServiceType :=
  if str = "OilChange" then .ok ServiceTypeOilChange
  else if str = "TireRotation" then .ok ServiceTypeTireRotation
  else if str = "BrakeService" then .ok ServiceTypeBrakeService
  else if str = "Inspection" then .ok ServiceTypeInspection
  else if str = "Repair" then .ok ServiceTypeRepair
  else if str = "OtherService" ∨ str = "Other" then .ok ServiceTypeOther
  else .error (.msg ("invalid service type: " ++ str))

def FuelType.IsValid (f : FuelType) : Bool :=
  decide (f ≥ FuelTypeGasoline) && decide (f ≤ FuelTypeCNG)

def FuelType.String (f : FuelType) : String :=
  if f = FuelTypeGasoline then "Gasoline"
  else if f = FuelTypeDiesel then "Diesel"
  else if f = FuelTypeElectric then "Electric"
  else if f = FuelTypeHybrid then "Hybrid"
  else if f = FuelTypeCNG then "CNG"
  else "Unknown"

def ParseFuelType (s : String) : Except Err FuelType :=
  if s = "Gasoline" then .ok FuelTypeGasoline
  else if s = "Diesel" then .ok FuelTypeDiesel
  else if s = "Electric" then .ok FuelTypeElectric
  else if s = "Hybrid" then .ok FuelTypeHybrid
  else if s = "CNG" then .ok FuelTypeCNG
  else .error (.msg ("invalid fuel type: " ++ s))

/-! ## presentation/mappers/mappers.go: the trip detail view model -/

/-- The fields of Go `viewmodels.TripDetailViewModel` that `TripToDetailViewModel`
fills without formatting a time, an id or a float (those are left out). -/
structure TripDetailViewModel where
  VehicleName : String
  DriverName : String
  Origin : String
  Destination : String
  Purpose : String
  StartOdometer : Int
  EndOdometer : Int
  Status : String
  Distance : Int
  CanComplete : Bool
  CanCancel : Bool
  deriving DecidableEq, Repr

/-- Go `TripToDetailViewModel` on the fields of `TripDetailViewModel`. -/
def TripToDetailViewModel (t : Trip) (vehicleName driverName : String) : TripDetailViewModel :=
  let endOdometer : Int :=
    match t.endOdometer with
    | some x => x
    | none => 0
  let distance : Int :=
    match t.endOdometer with
    | some x => wrapInt64 (x - t.startOdometer)
    | none => 0
  let canComplete := decide (t.status = TripStatusInProgress)
  let canCancel :=
    decide (t.status = TripStatusScheduled) || decide (t.status = TripStatusInProgress)
  { VehicleName := vehicleName
    DriverName := driverName
    Origin := t.origin
    Destination := t.destination
    Purpose := t.purpose
    StartOdometer := t.startOdometer
    EndOdometer := endOdometer
    Status := TripStatus.String t.status
    Distance := distance
    CanComplete := canComplete
    CanCancel := canCancel }

/-! ## Capability checks and store errors: what the theorems below need -/

/-- Go `FuelService.GetByVehicle`. -/
def FuelService.GetByVehicle {F σ : Type} (s : FuelService F σ) (ctx : Ctx) (vehicleID : UUID)
    (w : Logged FuelCall σ) : Except Err (List (FuelEntry F)) × Logged FuelCall σ :=
  match ctx.canUser Permission.FuelEntryRead with
  | some err => (.error err, w)
  | none => w.call (.GetByVehicle vehicleID) (s.repo.GetByVehicle ctx vehicleID)

/-- The context of `sampleCtx` for a user who holds no permission:
`composables.CanUser` fails for every permission. -/
def sampleCtxDenied : Ctx :=
  { sampleCtx with canUser := fun _ => some (.msg "permission denied") }

/-- Go `errors.Unwrap` on the errors of the model: the `%w` operand of a
`fmt.Errorf`, nothing for an error made without one. -/
def Err.Unwrap (e : Err) : Option Err :=
  match e with
  | .wrap _ cause => some cause
  | .msg _ => none

/-- A store call on a store that also keeps the errors its calls have returned. -/
def recordError {σ α : Type} (f : σ → Except Err α × σ) (x : σ × List Err) :
    Except Err α × (σ × List Err) :=
  match f x.1 with
  | (.error e, y) => (.error e, (y, x.2 ++ [e]))
  | (.ok a, y) => (.ok a, (y, x.2))

/-- The trip service whose repositories are those of `s`, every call keeping
the error it returns. -/
def TripService.recorded {σ : Type} (s : TripService σ) : TripService (σ × List Err) :=
  { tripRepo :=
      { GetByID := fun ctx id => recordError (s.tripRepo.GetByID ctx id)
        CheckConflict := fun ctx vehicleID startTime endTime excludeTripID =>
          recordError (s.tripRepo.CheckConflict ctx vehicleID startTime endTime excludeTripID)
        Create := fun ctx t => recordError (s.tripRepo.Create ctx t)
        Update := fun ctx t => recordError (s.tripRepo.Update ctx t) }
    vehicleRepo :=
      { GetByID := fun ctx id => recordError (s.vehicleRepo.GetByID ctx id)
        Update := fun ctx v => recordError (s.vehicleRepo.Update ctx v) }
    driverRepo :=
      { GetByID := fun ctx id => recordError (s.driverRepo.GetByID ctx id) } }

/-- The database of `sampleFleetDB` whose connection fails as `faults` says. -/
def sampleFleetDBFaulty (entries : List (models.FuelEntry ℚ)) (faults : List (Option Err)) :
    FleetDB ℚ :=
  { core := { sampleDB VehicleStatusAvailable [] with faults := faults }
    fleet_maintenance := []
    fleet_fuel_entries := entries
    timeLocation := Location.UTC }

/-! ## services/scheduler_service.go: `Start`, `Stop` and the job loops

The four built-in jobs call methods of the notification service; what these do
to the state `σ` is left open, a `NotificationService σ` being any four such
methods. -/

/-- The methods of Go `NotificationService` that the built-in jobs call, with
the arguments the jobs pass (tenant id and, for the expiry checks, the number of
days). -/
structure NotificationService (σ : Type) where
  CheckExpiringLicenses : UUID → Int → σ → Option Err × σ
  CheckExpiringRegistrations : UUID → Int → σ → Option Err × σ
  CheckExpiringInsurance : UUID → Int → σ → Option Err × σ
  CheckDueMaintenance : UUID → σ → Option Err × σ

/-- What Go `Start` does to the field `jobs` (lines 56-86): the four
`RegisterJob` calls; `notificationSvc` is the field `s.notificationSvc`, set
by `NewSchedulerService` and never changed. The goroutines that `Start`
launches (lines 88-91) are in `SchedulerState.Start`. -/
def SchedulerService.Start {σ : Type} (s : SchedulerService σ)
    (notificationSvc : NotificationService σ) : SchedulerService σ :=
  (((s.RegisterJob
      { Name := "check_expiring_licenses"
        Interval := 24 * Hour
        Fn := fun tenantID => notificationSvc.CheckExpiringLicenses tenantID 30 }).RegisterJob
      { Name := "check_expiring_registrations"
        Interval := 24 * Hour
        Fn := fun tenantID => notificationSvc.CheckExpiringRegistrations tenantID 30 }).RegisterJob
      { Name := "check_expiring_insurance"
        Interval := 24 * Hour
        Fn := fun tenantID => notificationSvc.CheckExpiringInsurance tenantID 30 }).RegisterJob
      { Name := "check_due_maintenance"
        Interval := 24 * Hour
        Fn := fun tenantID => notificationSvc.CheckDueMaintenance tenantID }

/-- The names of the jobs that `Start` registers. -/
def builtinJobNames : List String :=
  ["check_expiring_licenses", "check_expiring_registrations", "check_expiring_insurance",
    "check_due_maintenance"]

/-- A call that changes the registered jobs. -/
inductive SchedulerCall (σ : Type) where
  | RegisterJob (job : Job σ)
  | Start

/-- The scheduler after one call. -/
def SchedulerService.perform {σ : Type} (notificationSvc : NotificationService σ)
    (s : SchedulerService σ) (c : SchedulerCall σ) : SchedulerService σ :=
  match c with
  | .RegisterJob job => s.RegisterJob job
  | .Start => s.Start notificationSvc

/-- The scheduler after a sequence of calls, first call first. -/
def SchedulerService.performAll {σ : Type} (notificationSvc : NotificationService σ)
    (s : SchedulerService σ) (calls : List (SchedulerCall σ)) : SchedulerService σ :=
  calls.foldl (SchedulerService.perform notificationSvc) s

/-- The names of the registered jobs, in the order of registration. -/
def SchedulerService.jobNames {σ : Type} (s : SchedulerService σ) : List String :=
  s.jobs.map (fun job => job.Name)

/-- The names passed to `RegisterJob` in a sequence of calls. -/
def SchedulerCall.registeredNames {σ : Type} (calls : List (SchedulerCall σ)) : List String :=
  calls.filterMap (fun c =>
    match c with
    | .RegisterJob job => some job.Name
    | .Start => none)

/-- The number of `Start` calls in a sequence of calls. -/
def SchedulerCall.starts {σ : Type} (calls : List (SchedulerCall σ)) : Nat :=
  calls.countP (fun c =>
    match c with
    | .RegisterJob _ => false
    | .Start => true)

/-- A notification service over a counter: every check adds one and succeeds. -/
def sampleNotificationService : NotificationService Nat :=
  { CheckExpiringLicenses := fun _ _ n => (none, n + 1)
    CheckExpiringRegistrations := fun _ _ n => (none, n + 1)
    CheckExpiringInsurance := fun _ _ n => (none, n + 1)
    CheckDueMaintenance := fun _ n => (none, n + 1) }

/-! ### The goroutines

`Start` launches one goroutine per registered job, each running `runJob`;
`Stop` runs on the caller's goroutine. They share the context `s.ctx` (cancelled
or not), the counter of the wait group `s.wg`, and whatever the jobs work on.
An execution is an interleaving of the steps below; a whole `executeJob` is one
step, and so is each of the two halves of `Stop` (`s.cancel()`, then the return
of `s.wg.Wait()`). -/

/-- Where a goroutine running `runJob` is: before its first `executeJob`
(line 106), at the `select` of its loop (line 109), or returned; it returns
only from the case `<-s.ctx.Done()` (lines 110-112). -/
inductive LoopPhase where
  | starting
  | selecting
  | exited
  deriving DecidableEq, Repr

/-- A goroutine launched by `go s.runJob(job)`. -/
structure JobLoop (σ : Type) where
  job : Job σ
  phase : LoopPhase

/-- Where a call of `Stop` is: not made, past `s.cancel()` and blocked in
`s.wg.Wait()`, or returned. -/
inductive StopPhase where
  | notCalled
  | waiting
  | returned
  deriving DecidableEq, Repr

/-- The scheduler with its goroutines: the fields `jobs` and `tenantIDs`
(`svc`), the goroutines launched so far, the counter of `s.wg`, whether
`s.ctx` is cancelled, the call of `Stop`, and what the jobs have done. -/
structure SchedulerState (σ : Type) where
  svc : SchedulerService σ
  loops : List (JobLoop σ)
  wg : Nat
  done : Bool
  stop : StopPhase
  run : JobRun σ

/-- A scheduler on which neither `Start` nor `Stop` has been called. -/
def SchedulerState.idle {σ : Type} (s : SchedulerService σ) (r : JobRun σ) : SchedulerState σ :=
  { svc := s, loops := [], wg := 0, done := false, stop := .notCalled, run := r }

/-- Go `Start`: the log line, the four registrations, and for every job now
registered `s.wg.Add(1)` and `go s.runJob(job)`. -/
def SchedulerState.Start {σ : Type} (x : SchedulerState σ)
    (notificationSvc : NotificationService σ) : SchedulerState σ :=
  { svc := x.svc.Start notificationSvc
    loops := x.loops ++ (x.svc.Start notificationSvc).jobs.map (fun job =>
      { job := job, phase := LoopPhase.starting })
    wg := x.wg + (x.svc.Start notificationSvc).jobs.length
    done := x.done
    stop := x.stop
    run :=
      { env := x.run.env
        invoked := x.run.invoked
        logged := x.run.logged ++ [LogLine.Info "Starting fleet notification scheduler" none] } }

/-- One step of an execution. -/
inductive SchedulerStep where
  /-- Goroutine `i` creates its ticker and runs its first `executeJob` (lines 103-106). -/
  | first (i : Nat)
  /-- Goroutine `i` receives from `ticker.C` and runs `executeJob` (lines 113-114). -/
  | tick (i : Nat)
  /-- Goroutine `i` receives from `s.ctx.Done()`, logs and returns; the deferred
  `s.wg.Done()` runs (lines 110-112, 101). -/
  | observeDone (i : Nat)
  /-- `Stop` logs and calls `s.cancel()` (lines 95-96). -/
  | stopCancel
  /-- `s.wg.Wait()` returns, and with it `Stop` (line 97). -/
  | stopReturn
  deriving DecidableEq, Repr

/-- The state after one step; `none` when the step cannot be taken in this
state (a goroutine that is elsewhere, a receive from `s.ctx.Done()` before the
cancellation, a `Wait` while the counter is not zero) or when the program
ends in a panic (`time.NewTicker` with an interval that is not positive, a
wait-group counter below zero). -/
def SchedulerState.step {σ : Type} (x : SchedulerState σ) (a : SchedulerStep) :
    Option (SchedulerState σ) :=
  match a with
  | .first i =>
    match x.loops[i]? with
    | none => none
    | some l =>
      if l.phase = LoopPhase.starting ∧ 0 < l.job.Interval then
        some { x with
          loops := x.loops.set i { job := l.job, phase := LoopPhase.selecting }
          run := x.svc.executeJob l.job x.run }
      else none
  | .tick i =>
    match x.loops[i]? with
    | none => none
    | some l =>
      if l.phase = LoopPhase.selecting then
        some { x with run := x.svc.executeJob l.job x.run }
      else none
  | .observeDone i =>
    match x.loops[i]? with
    | none => none
    | some l =>
      if l.phase = LoopPhase.selecting ∧ x.done = true ∧ 0 < x.wg then
        some { x with
          loops := x.loops.set i { job := l.job, phase := LoopPhase.exited }
          wg := x.wg - 1
          run :=
            { env := x.run.env
              invoked := x.run.invoked
              logged := x.run.logged ++ [LogLine.Info "Job stopped" (some l.job.Name)] } }
      else none
  | .stopCancel =>
    if x.stop = StopPhase.notCalled then
      some { x with
        done := true
        stop := StopPhase.waiting
        run :=
          { env := x.run.env
            invoked := x.run.invoked
            logged := x.run.logged ++ [LogLine.Info "Stopping fleet notification scheduler" none] } }
    else none
  | .stopReturn =>
    if x.stop = StopPhase.waiting ∧ x.wg = 0 then
      some { x with stop := StopPhase.returned }
    else none

/-- The state after a sequence of steps, first step first. -/
def SchedulerState.steps {σ : Type} (x : SchedulerState σ) (as : List SchedulerStep) :
    Option (SchedulerState σ) :=
  match as with
  | [] => some x
  | a :: rest =>
    match x.step a with
    | none => none
    | some y => y.steps rest

/-- The bookkeeping of the wait group and of the context: the counter of `s.wg`
is the number of goroutines that have not returned, `Stop` has returned only
with the counter at zero, and the context is cancelled once `Stop` was called. -/
def SchedulerState.Accounted {σ : Type} (x : SchedulerState σ) : Prop :=
  x.wg = x.loops.countP (fun l => decide (l.phase ≠ LoopPhase.exited)) ∧
    (x.stop = StopPhase.returned → x.wg = 0) ∧
    (x.stop ≠ StopPhase.notCalled → x.done = true)

/-- The names of the jobs of the goroutines, in the order of launching. -/
def SchedulerState.loopNames {σ : Type} (x : SchedulerState σ) : List String :=
  x.loops.map (fun l => l.job.Name)

/-- The sample scheduler right after `Start`: six goroutines, none of which has
run yet; the counter the jobs work on is 0. -/
def sampleStarted : SchedulerState Nat :=
  (SchedulerState.idle sampleScheduler { env := 0, invoked := [], logged := [] }).Start
    sampleNotificationService

/-- An execution of the sample scheduler: `Stop` cancels; every goroutine runs
its first `executeJob` (the second one also a tick), then receives the
cancellation and returns; then `Wait` returns. -/
def sampleStopSteps : List SchedulerStep :=
  [SchedulerStep.stopCancel, SchedulerStep.first 0, SchedulerStep.observeDone 0,
    SchedulerStep.first 1, SchedulerStep.tick 1, SchedulerStep.observeDone 1,
    SchedulerStep.first 2, SchedulerStep.observeDone 2, SchedulerStep.first 3,
    SchedulerStep.observeDone 3, SchedulerStep.first 4, SchedulerStep.observeDone 4,
    SchedulerStep.first 5, SchedulerStep.observeDone 5, SchedulerStep.stopReturn]

/-! ### One run of all jobs, as the specification describes it -/

/-- The line reports a failed job execution. -/
def LogLine.isError (l : LogLine) : Bool :=
  match l with
  | .Error _ _ _ _ => true
  | .Info _ _ => false

/-- The invocations of one run as the specification lists them: for each
registered job in registration order, for each tenant id of the tenant list in
list order, that job with that tenant id. -/
def SchedulerService.specInvocations {σ : Type} (s : SchedulerService σ) : List (Job σ × UUID) :=
  s.jobs.flatMap (fun job => s.tenantIDs.map (fun tenantID => (job, tenantID)))

/-- One invocation as the specification describes it: the job's function is
called once, with the tenant id, on the state the invocation before it left;
if it returns an error, the failure is reported with the job's name and the
tenant id, and the run goes on. The pair is the state the jobs work on and the
failures reported so far. -/
def SchedulerService.specInvoke {σ : Type} (acc : σ × List LogLine) (p : Job σ × UUID) :
    σ × List LogLine :=
  match p.1.Fn p.2 acc.1 with
  | (some err, env1) =>
    (env1, acc.2 ++ [LogLine.Error "Job execution failed" err p.1.Name p.2])
  | (none, env1) => (env1, acc.2)

/-! ## Theorems: status model -/

theorem VehicleStatus.isValid_iff (s : VehicleStatus) :
    VehicleStatus.IsValid s = true ↔ 0 ≤ s ∧ s ≤ 4 := by
  simp [VehicleStatus.IsValid, VehicleStatusAvailable, VehicleStatusRetired]

theorem VehicleStatus.valid_cases (s : VehicleStatus) (h : VehicleStatus.IsValid s = true) :
    s = VehicleStatusAvailable ∨ s = VehicleStatusInUse ∨ s = VehicleStatusMaintenance ∨
      s = VehicleStatusOutOfService ∨ s = VehicleStatusRetired := by
  rw [VehicleStatus.isValid_iff] at h
  have key : ∀ x : Int, 0 ≤ x → x ≤ 4 → x = 0 ∨ x = 1 ∨ x = 2 ∨ x = 3 ∨ x = 4 := by
    intro x hx0 hx4
    omega
  exact key s h.1 h.2

/-- C2: for distinct valid statuses `s`, `t`, `CanTransitionTo s t` holds exactly
when `t` is listed for `s` in the transition table of the specification; from
Retired nothing other than Retired is reachable; and the result is false as
soon as one of the two statuses is outside the five defined values. -/
theorem C2_canTransitionTo_matches_table (s t : VehicleStatus) :
    (VehicleStatus.IsValid s = true → VehicleStatus.IsValid t = true → s ≠ t →
        (VehicleStatus.CanTransitionTo s t = true ↔ t ∈ specTransitionTable s))
      ∧ (t ≠ VehicleStatusRetired →
        VehicleStatus.CanTransitionTo VehicleStatusRetired t = false)
      ∧ (VehicleStatus.IsValid s = false ∨ VehicleStatus.IsValid t = false →
        VehicleStatus.CanTransitionTo s t = false) := by
  refine ⟨?_, ?_, ?_⟩
  · intro hs ht _
    rcases VehicleStatus.valid_cases s hs with h | h | h | h | h <;>
      rcases VehicleStatus.valid_cases t ht with h2 | h2 | h2 | h2 | h2 <;>
      subst h <;> subst h2 <;> decide
  · intro _
    by_cases ht : VehicleStatus.IsValid t = true
    · simp [VehicleStatus.CanTransitionTo, ht, VehicleStatusRetired, VehicleStatusAvailable,
        VehicleStatusInUse, VehicleStatusMaintenance, VehicleStatusOutOfService]
    · simp [VehicleStatus.CanTransitionTo, ht]
  · intro h
    rcases h with h | h <;> simp [VehicleStatus.CanTransitionTo, h]

/-- Witness of C2: the pair (InUse, Available) is valid, distinct and listed. -/
theorem C2_canTransitionTo_matches_table_witness :
    (VehicleStatus.CanTransitionTo VehicleStatusInUse VehicleStatusAvailable = true ↔
        VehicleStatusAvailable ∈ specTransitionTable VehicleStatusInUse)
      ∧ VehicleStatus.CanTransitionTo VehicleStatusRetired VehicleStatusAvailable = false
      ∧ VehicleStatus.CanTransitionTo 7 VehicleStatusAvailable = false :=
  ⟨(C2_canTransitionTo_matches_table VehicleStatusInUse VehicleStatusAvailable).1
      (by decide) (by decide) (by decide),
    (C2_canTransitionTo_matches_table VehicleStatusInUse VehicleStatusAvailable).2.1 (by decide),
    (C2_canTransitionTo_matches_table 7 VehicleStatusAvailable).2.2 (Or.inl (by decide))⟩

/-- C3, as stated, fails: Available is a valid status and
`Available.CanTransitionTo(Available)` is false. -/
theorem C3_identity_counterexample :
    VehicleStatus.IsValid VehicleStatusAvailable = true ∧
      VehicleStatus.CanTransitionTo VehicleStatusAvailable VehicleStatusAvailable = false := by
  decide

/-- C3, amended: `CanTransitionTo s s` is false for every status `s` (the
function is the strict table, which lists no status for itself); a same-state
request is let through one level up, by `validateStatusTransition`, which
returns no error when the old and the new status are equal. -/
theorem C3_identity_amended (s : VehicleStatus) :
    VehicleStatus.CanTransitionTo s s = false ∧
      VehicleService.validateStatusTransition s s = none := by
  constructor
  · by_cases hs : VehicleStatus.IsValid s = true
    · rcases VehicleStatus.valid_cases s hs with h | h | h | h | h <;> subst h <;> decide
    · simp [VehicleStatus.CanTransitionTo, hs]
  · simp [VehicleService.validateStatusTransition]

/-! ## Theorems: TripService.Create -/

/-- The calls that neither write a trip or a vehicle nor publish. -/
theorem Call.quiet_of_isLoad (c : Call) (h : c.isLoad = true) :
    c.isCheckConflict = false ∧ c.isTripWrite = false ∧ c.isVehicleWrite = false ∧
      c.isPublish = false := by
  cases c <;> simp_all [Call.isLoad, Call.isCheckConflict, Call.isTripWrite,
    Call.isVehicleWrite, Call.isPublish]

/-- When the conflict check, run after the two loads, does not answer "no
conflict", `Create` fails, having made only loads and the conflict check. -/
theorem TripService.create_stops_at_conflict {σ : Type} (s : TripService σ) (ctx : Ctx)
    (t : Trip) (w : World σ)
    (hcc : (s.tripRepo.CheckConflict ctx t.vehicleID t.startTime (TripService.effectiveEnd t) none
      (s.driverRepo.GetByID ctx t.driverID
        (s.vehicleRepo.GetByID ctx t.vehicleID w.store).2).2).1 ≠ .ok false) :
    isError (s.Create ctx t w).1 = true ∧
      ((s.Create ctx t w).2.store = w.store ∨
        (s.Create ctx t w).2.store = (s.vehicleRepo.GetByID ctx t.vehicleID w.store).2 ∨
        (s.Create ctx t w).2.store = (s.driverRepo.GetByID ctx t.driverID
          (s.vehicleRepo.GetByID ctx t.vehicleID w.store).2).2 ∨
        (s.Create ctx t w).2.store =
          (s.tripRepo.CheckConflict ctx t.vehicleID t.startTime (TripService.effectiveEnd t) none
            (s.driverRepo.GetByID ctx t.driverID
              (s.vehicleRepo.GetByID ctx t.vehicleID w.store).2).2).2) ∧
      ∃ extra, (s.Create ctx t w).2.log = w.log ++ extra ∧
        ∀ c ∈ extra, c.isLoad = true ∨ c.isCheckConflict = true := by
  unfold TripService.Create
  simp only [World.call]
  cases hp : ctx.canUser Permission.TripCreate with
  | some err => exact ⟨rfl, Or.inl rfl, [], by simp, by simp⟩
  | none =>
    rcases hv : s.vehicleRepo.GetByID ctx t.vehicleID w.store with ⟨r1, st1⟩
    rw [hv] at hcc
    cases r1 with
    | error e1 =>
      exact ⟨rfl, Or.inr (Or.inl rfl), [Call.VehicleGetByID t.vehicleID], rfl,
        by simp [Call.isLoad]⟩
    | ok v =>
      simp only []
      split
      · exact ⟨rfl, Or.inr (Or.inl rfl), [Call.VehicleGetByID t.vehicleID], rfl,
          by simp [Call.isLoad]⟩
      · rcases hd : s.driverRepo.GetByID ctx t.driverID st1 with ⟨r2, st2⟩
        rw [hd] at hcc
        cases r2 with
        | error e2 =>
          exact ⟨rfl, Or.inr (Or.inr (Or.inl rfl)),
            [Call.VehicleGetByID t.vehicleID, Call.DriverGetByID t.driverID], by simp,
            by simp [Call.isLoad]⟩
        | ok d =>
          simp only []
          split
          · exact ⟨rfl, Or.inr (Or.inr (Or.inl rfl)),
              [Call.VehicleGetByID t.vehicleID, Call.DriverGetByID t.driverID], by simp,
              by simp [Call.isLoad]⟩
          · split
            · exact ⟨rfl, Or.inr (Or.inr (Or.inl rfl)),
                [Call.VehicleGetByID t.vehicleID, Call.DriverGetByID t.driverID], by simp,
                by simp [Call.isLoad]⟩
            · rcases hc : s.tripRepo.CheckConflict ctx t.vehicleID t.startTime
                (TripService.effectiveEnd t) none st2 with ⟨r3, st3⟩
              rw [hc] at hcc
              cases r3 with
              | error e3 =>
                exact ⟨rfl, Or.inr (Or.inr (Or.inr rfl)),
                  [Call.VehicleGetByID t.vehicleID, Call.DriverGetByID t.driverID,
                    Call.TripCheckConflict t.vehicleID t.startTime (TripService.effectiveEnd t)
                      none], by simp, by simp [Call.isLoad, Call.isCheckConflict]⟩
              | ok b =>
                cases b with
                | true =>
                  exact ⟨rfl, Or.inr (Or.inr (Or.inr rfl)),
                    [Call.VehicleGetByID t.vehicleID, Call.DriverGetByID t.driverID,
                      Call.TripCheckConflict t.vehicleID t.startTime (TripService.effectiveEnd t)
                        none], by simp, by simp [Call.isLoad, Call.isCheckConflict]⟩
                | false => exact absurd rfl hcc

/-! ## Theorems: the SQL repositories leave the tables alone when they only read -/

theorem DB.poolCall_tables (db : DB) :
    db.poolCall.2.fleet_vehicles = db.fleet_vehicles ∧
      db.poolCall.2.fleet_drivers = db.fleet_drivers ∧
      db.poolCall.2.fleet_trips = db.fleet_trips := by
  unfold DB.poolCall
  cases db.faults <;> simp

theorem VehicleRepository.vehicleGetByID_tables (ctx : Ctx) (id : UUID) (db : DB) :
    (VehicleRepository.GetByID ctx id db).2.fleet_vehicles = db.fleet_vehicles ∧
      (VehicleRepository.GetByID ctx id db).2.fleet_drivers = db.fleet_drivers ∧
      (VehicleRepository.GetByID ctx id db).2.fleet_trips = db.fleet_trips := by
  have hp := DB.poolCall_tables db
  unfold VehicleRepository.GetByID queryVehicles
  cases ctx.useTenantID with
  | error e => simp
  | ok tenantID =>
    cases ctx.useTx with
    | some e => simp
    | none =>
      rcases hq : db.poolCall with ⟨f, db1⟩
      rw [hq] at hp
      cases f with
      | some e => simpa using hp
      | none =>
        simp only []
        split <;> simp_all

theorem DriverRepository.driverGetByID_tables (ctx : Ctx) (id : UUID) (db : DB) :
    (DriverRepository.GetByID ctx id db).2.fleet_vehicles = db.fleet_vehicles ∧
      (DriverRepository.GetByID ctx id db).2.fleet_drivers = db.fleet_drivers ∧
      (DriverRepository.GetByID ctx id db).2.fleet_trips = db.fleet_trips := by
  have hp := DB.poolCall_tables db
  unfold DriverRepository.GetByID queryDrivers
  cases ctx.useTenantID with
  | error e => simp
  | ok tenantID =>
    cases ctx.useTx with
    | some e => simp
    | none =>
      rcases hq : db.poolCall with ⟨f, db1⟩
      rw [hq] at hp
      cases f with
      | some e => simpa using hp
      | none =>
        simp only []
        split <;> simp_all

theorem TripRepository.checkConflict_tables (ctx : Ctx) (vehicleID : UUID)
    (startTime endTime : Time) (excludeTripID : Option UUID) (db : DB) :
    (TripRepository.CheckConflict ctx vehicleID startTime endTime excludeTripID
        db).2.fleet_vehicles = db.fleet_vehicles ∧
      (TripRepository.CheckConflict ctx vehicleID startTime endTime excludeTripID
        db).2.fleet_drivers = db.fleet_drivers ∧
      (TripRepository.CheckConflict ctx vehicleID startTime endTime excludeTripID
        db).2.fleet_trips = db.fleet_trips := by
  have hp := DB.poolCall_tables db
  unfold TripRepository.CheckConflict
  cases ctx.useTx with
  | some e => simp
  | none =>
    cases ctx.useTenantID with
    | error e => simp
    | ok tenantID =>
      rcases hq : db.poolCall with ⟨f, db1⟩
      rw [hq] at hp
      cases f with
      | some e => simpa using hp
      | none => simpa using hp

/-! ## Theorems: the conflict check sees every overlapping active trip -/

/-- The overlap test of the specification against a row's effective window
implies the three-clause condition of the query. -/
theorem TripRepository.timeClause_of_specOverlap (r : models.Trip) (startTime endTime : Time)
    (h : specOverlap r.StartTime (specEffectiveEnd r) startTime endTime) :
    TripRepository.timeClause r startTime endTime = true := by
  obtain ⟨h1, h2⟩ := h
  unfold TripRepository.timeClause TripRepository.endNullOrGe
  unfold specEffectiveEnd at h2
  by_cases hs : r.StartTime ≤ startTime
  · cases he : r.EndTime with
    | none => simp [hs]
    | some b =>
      rw [he] at h2
      simp only [] at h2
      simp [hs, h2]
  · have hs2 : r.StartTime ≥ startTime := le_of_lt (not_le.mp hs)
    simp [hs2, h1]

theorem TripRepository.checkConflict_detects (ctx : Ctx) (vehicleID tenantID : UUID)
    (startTime endTime : Time) (db : DB) (r : models.Trip)
    (hmem : r ∈ db.fleet_trips) (hten : ctx.useTenantID = .ok tenantID)
    (hrow : TripRepository.conflictRow vehicleID tenantID startTime endTime none r = true) :
    (TripRepository.CheckConflict ctx vehicleID startTime endTime none db).1 ≠ .ok false := by
  have hp := DB.poolCall_tables db
  unfold TripRepository.CheckConflict
  rw [hten]
  cases ctx.useTx with
  | some e => simp
  | none =>
    rcases hq : db.poolCall with ⟨f, db1⟩
    rw [hq] at hp
    cases f with
    | some e => simp
    | none =>
      simp only [ne_eq, Except.ok.injEq, Bool.not_eq_false, List.any_eq_true]
      exact ⟨r, by rw [hp.2.2]; exact hmem, hrow⟩

/-- C1: no double-booking. Let `t1` be a stored, non-deleted trip row of the
caller's tenant with status Scheduled or InProgress, and `t2` a candidate trip
on the same vehicle whose effective window `[start, end or start + 24h]`
overlaps the effective window of `t1` (overlap test of the specification).
Then `TripService.Create(t2)` over the SQL repositories returns an error,
leaves the trip and vehicle tables as they were, and makes no trip write, no
vehicle write and no publish - whatever the vehicle, the driver, the
permissions and the outcomes of the database calls are. -/
theorem C1_no_double_booking (ctx : Ctx) (db : DB) (log : List Call) (t1 : models.Trip)
    (t2 : Trip)
    (hmem : t1 ∈ db.fleet_trips)
    (hdel : t1.DeletedAt = none)
    (hst : t1.Status = TripStatusScheduled ∨ t1.Status = TripStatusInProgress)
    (hveh : t1.VehicleID = t2.vehicleID)
    (hten : ctx.useTenantID = .ok t1.TenantID)
    (hover : specOverlap t1.StartTime (specEffectiveEnd t1) t2.startTime
      (TripService.effectiveEnd t2)) :
    isError (sqlTripService.Create ctx t2 { store := db, log := log }).1 = true ∧
      (sqlTripService.Create ctx t2 { store := db, log := log }).2.store.fleet_trips
        = db.fleet_trips ∧
      (sqlTripService.Create ctx t2 { store := db, log := log }).2.store.fleet_vehicles
        = db.fleet_vehicles ∧
      ∃ extra, (sqlTripService.Create ctx t2 { store := db, log := log }).2.log = log ++ extra ∧
        ∀ c ∈ extra, c.isTripWrite = false ∧ c.isVehicleWrite = false ∧ c.isPublish = false := by
  have hv := VehicleRepository.vehicleGetByID_tables ctx t2.vehicleID db
  have hd := DriverRepository.driverGetByID_tables ctx t2.driverID
    (VehicleRepository.GetByID ctx t2.vehicleID db).2
  have hc := TripRepository.checkConflict_tables ctx t2.vehicleID t2.startTime
    (TripService.effectiveEnd t2) none
    (DriverRepository.GetByID ctx t2.driverID
      (VehicleRepository.GetByID ctx t2.vehicleID db).2).2
  have hrow : TripRepository.conflictRow t2.vehicleID t1.TenantID t2.startTime
      (TripService.effectiveEnd t2) none t1 = true := by
    have htc := TripRepository.timeClause_of_specOverlap t1 t2.startTime
      (TripService.effectiveEnd t2) hover
    unfold TripRepository.conflictRow
    simp [hveh, hdel, htc]
    exact hst
  have hmem2 : t1 ∈ (DriverRepository.GetByID ctx t2.driverID
      (VehicleRepository.GetByID ctx t2.vehicleID db).2).2.fleet_trips := by
    rw [hd.2.2, hv.2.2]
    exact hmem
  have hdet := TripRepository.checkConflict_detects ctx t2.vehicleID t1.TenantID t2.startTime
    (TripService.effectiveEnd t2) _ t1 hmem2 hten hrow
  obtain ⟨herr, hstore, extra, hlog, hextra⟩ :=
    TripService.create_stops_at_conflict sqlTripService ctx t2 { store := db, log := log } hdet
  refine ⟨herr, ?_, ?_, extra, hlog, ?_⟩
  · rcases hstore with h | h | h | h
    · rw [h]
    · rw [h]; exact hv.2.2
    · rw [h]; exact hd.2.2.trans hv.2.2
    · rw [h]; exact hc.2.2.trans (hd.2.2.trans hv.2.2)
  · rcases hstore with h | h | h | h
    · rw [h]
    · rw [h]; exact hv.1
    · rw [h]; exact hd.1.trans hv.1
    · rw [h]; exact hc.1.trans (hd.1.trans hv.1)
  · intro c hcmem
    rcases hextra c hcmem with h | h
    · exact ⟨(Call.quiet_of_isLoad c h).2.1, (Call.quiet_of_isLoad c h).2.2.1,
        (Call.quiet_of_isLoad c h).2.2.2⟩
    · cases c <;> simp_all [Call.isCheckConflict, Call.isTripWrite, Call.isVehicleWrite,
        Call.isPublish]

/-- Witness of C1: trip 31 of vehicle 10 is in progress since 2025-01-10 10:00
with no end time; the request for 08:00-12:00 on the same vehicle is refused. -/
theorem C1_no_double_booking_witness :
    isError (sqlTripService.Create sampleCtx sampleTrip
        { store := sampleDB VehicleStatusInUse
            [sampleTripRow 31 TripStatusInProgress t20250110_1000 none],
          log := [] }).1 = true ∧
      (sqlTripService.Create sampleCtx sampleTrip
        { store := sampleDB VehicleStatusInUse
            [sampleTripRow 31 TripStatusInProgress t20250110_1000 none],
          log := [] }).2.store.fleet_trips
        = (sampleDB VehicleStatusInUse
            [sampleTripRow 31 TripStatusInProgress t20250110_1000 none]).fleet_trips ∧
      (sqlTripService.Create sampleCtx sampleTrip
        { store := sampleDB VehicleStatusInUse
            [sampleTripRow 31 TripStatusInProgress t20250110_1000 none],
          log := [] }).2.store.fleet_vehicles
        = (sampleDB VehicleStatusInUse
            [sampleTripRow 31 TripStatusInProgress t20250110_1000 none]).fleet_vehicles ∧
      ∃ extra, (sqlTripService.Create sampleCtx sampleTrip
        { store := sampleDB VehicleStatusInUse
            [sampleTripRow 31 TripStatusInProgress t20250110_1000 none],
          log := [] }).2.log = [] ++ extra ∧
        ∀ c ∈ extra, c.isTripWrite = false ∧ c.isVehicleWrite = false ∧ c.isPublish = false :=
  C1_no_double_booking sampleCtx
    (sampleDB VehicleStatusInUse [sampleTripRow 31 TripStatusInProgress t20250110_1000 none]) []
    (sampleTripRow 31 TripStatusInProgress t20250110_1000 none) sampleTrip
    (by simp [sampleDB]) rfl (Or.inr rfl) rfl rfl ⟨by decide, by decide⟩

/-! ## Theorems: VehicleService.UpdateStatus -/

/-- The transitions `validateStatusTransition` turns away: `UpdateStatus`
fails, and nothing is written or published. -/
theorem VehicleService.updateStatus_rejects {σ : Type} (s : VehicleService σ) (ctx : Ctx)
    (id : UUID) (newStatus : VehicleStatus) (w : World σ) (v : Vehicle) (st1 : σ)
    (hv : s.repo.GetByID ctx id w.store = (.ok v, st1))
    (hne : v.status ≠ newStatus)
    (hbad : v.status = VehicleStatusRetired ∨
      (newStatus = VehicleStatusInUse ∧
        (v.status = VehicleStatusOutOfService ∨ v.status = VehicleStatusMaintenance))) :
    isError (s.UpdateStatus ctx id newStatus w).1 = true ∧
      ∃ extra, (s.UpdateStatus ctx id newStatus w).2.log = w.log ++ extra ∧
        ∀ c ∈ extra, c.isLoad = true := by
  unfold VehicleService.UpdateStatus
  simp only [World.call]
  cases hp : ctx.canUser Permission.VehicleUpdate with
  | some err => exact ⟨rfl, [], by simp, by simp⟩
  | none =>
    rw [hv]
    have hval : ∃ e, VehicleService.validateStatusTransition v.status newStatus = some e := by
      unfold VehicleService.validateStatusTransition
      rcases hbad with h | ⟨h1, h | h⟩
      · rw [h] at hne
        simp [hne, h]
      · rw [h] at hne
        simp [hne, h, h1, VehicleStatusOutOfService, VehicleStatusRetired, VehicleStatusInUse]
      · rw [h] at hne
        simp [hne, h, h1, VehicleStatusOutOfService, VehicleStatusRetired, VehicleStatusInUse,
          VehicleStatusMaintenance]
    obtain ⟨e, he⟩ := hval
    simp only [he]
    exact ⟨rfl, [Call.VehicleGetByID id], rfl, by simp [Call.isLoad]⟩

/-- C4, the code at the failing input: the table (`CanTransitionTo`) does not
list InUse -> Retired, yet `validateStatusTransition` returns no error for it,
and `UpdateStatus` on the stored InUse vehicle 10 with target Retired succeeds,
writes the vehicle as Retired and publishes the status-changed event. -/
theorem C4_inUse_to_retired_is_accepted :
    VehicleStatus.CanTransitionTo VehicleStatusInUse VehicleStatusRetired = false ∧
      VehicleService.validateStatusTransition VehicleStatusInUse VehicleStatusRetired = none ∧
      isError (sqlVehicleService.UpdateStatus sampleCtx 10 VehicleStatusRetired
        (sampleWorld VehicleStatusInUse [])).1 = false ∧
      ((sqlVehicleService.UpdateStatus sampleCtx 10 VehicleStatusRetired
        (sampleWorld VehicleStatusInUse [])).2.store.fleet_vehicles.map (fun r => r.Status))
        = [VehicleStatusRetired] ∧
      (sqlVehicleService.UpdateStatus sampleCtx 10 VehicleStatusRetired
        (sampleWorld VehicleStatusInUse [])).2.log
        = [Call.VehicleGetByID 10,
            Call.VehicleUpdate ((scanVehicle (sampleVehicleRow VehicleStatusInUse)).UpdateStatus
              VehicleStatusRetired t20250101),
            Call.Publish (Event.VehicleStatusChanged 7 9
              ((scanVehicle (sampleVehicleRow VehicleStatusInUse)).UpdateStatus
                VehicleStatusRetired t20250101)
              VehicleStatusInUse VehicleStatusRetired)] := by
  decide

/-! ## Theorems: vehicle status changes written by the trip service -/

/-- From every valid status other than Maintenance, OutOfService and Retired,
the change to InUse that `Create` writes is the identity or is in the table. -/
theorem VehicleStatus.toInUse_allowed (s : VehicleStatus) (hs : VehicleStatus.IsValid s = true)
    (h1 : s ≠ VehicleStatusMaintenance) (h2 : s ≠ VehicleStatusOutOfService)
    (h3 : s ≠ VehicleStatusRetired) :
    s = VehicleStatusInUse ∨ VehicleStatus.CanTransitionTo s VehicleStatusInUse = true := by
  rcases VehicleStatus.valid_cases s hs with h | h | h | h | h <;> subst h <;>
    first | exact Or.inl rfl | exact Or.inr (by decide) | exact absurd rfl h1 |
      exact absurd rfl h2 | exact absurd rfl h3

/-- From every valid status other than Retired, the change to Available that
`Complete` and `Cancel` write is the identity or is in the table. -/
theorem VehicleStatus.toAvailable_allowed (s : VehicleStatus)
    (hs : VehicleStatus.IsValid s = true) (h3 : s ≠ VehicleStatusRetired) :
    s = VehicleStatusAvailable ∨
      VehicleStatus.CanTransitionTo s VehicleStatusAvailable = true := by
  rcases VehicleStatus.valid_cases s hs with h | h | h | h | h <;> subst h <;>
    first | exact Or.inl rfl | exact Or.inr (by decide) | exact absurd rfl h3

/-- C5, the code at the failing input: vehicle 10 is stored as Retired; the
table has no transition from Retired (and `validateStatusTransition` refuses
one), yet `TripService.Create` of a trip on that vehicle succeeds and writes the
vehicle with status InUse. -/
theorem C5_create_moves_retired_vehicle :
    VehicleStatus.CanTransitionTo VehicleStatusRetired VehicleStatusInUse = false ∧
      VehicleStatusRetired ≠ VehicleStatusInUse ∧
      VehicleService.validateStatusTransition VehicleStatusRetired VehicleStatusInUse
        = some (.msg "cannot change status of retired vehicle") ∧
      (sqlTripService.Create sampleCtx sampleTrip (sampleWorld VehicleStatusRetired [])).1
        = .ok sampleTrip ∧
      ((sqlTripService.Create sampleCtx sampleTrip
        (sampleWorld VehicleStatusRetired [])).2.store.fleet_vehicles.map (fun r => r.Status))
        = [VehicleStatusInUse] ∧
      Call.VehicleUpdate ((scanVehicle (sampleVehicleRow VehicleStatusRetired)).UpdateStatus
          VehicleStatusInUse t20250101)
        ∈ (sqlTripService.Create sampleCtx sampleTrip
          (sampleWorld VehicleStatusRetired [])).2.log := by
  decide

/-- C6: whenever the loaded vehicle is in Maintenance or OutOfService, or the
loaded driver is not Active, or the driver's licence expiry is before the
current time, `Create` returns an error and has made only entity loads: no
conflict check, no trip write, no vehicle write, no publish. -/
theorem C6_create_rejects_ineligible {σ : Type} (s : TripService σ) (ctx : Ctx) (t : Trip)
    (w : World σ) (v : Vehicle) (st1 : σ)
    (hv : s.vehicleRepo.GetByID ctx t.vehicleID w.store = (.ok v, st1))
    (hbad : (v.status = VehicleStatusMaintenance ∨ v.status = VehicleStatusOutOfService) ∨
      ∃ d st2, s.driverRepo.GetByID ctx t.driverID st1 = (.ok d, st2) ∧
        (d.status ≠ DriverStatusActive ∨ d.licenseExpiry < ctx.now)) :
    isError (s.Create ctx t w).1 = true ∧
      ∃ extra, (s.Create ctx t w).2.log = w.log ++ extra ∧
        ∀ c ∈ extra, c.isLoad = true ∧ c.isCheckConflict = false ∧ c.isTripWrite = false ∧
          c.isVehicleWrite = false ∧ c.isPublish = false := by
  unfold TripService.Create
  simp only [World.call]
  cases hp : ctx.canUser Permission.TripCreate with
  | some err => exact ⟨rfl, [], by simp, by simp⟩
  | none =>
    rw [hv]
    simp only []
    split
    · exact ⟨rfl, [Call.VehicleGetByID t.vehicleID], rfl,
        by simp [Call.isLoad, Call.isCheckConflict, Call.isTripWrite, Call.isVehicleWrite,
          Call.isPublish]⟩
    · rename_i hvok
      rcases hbad with h | ⟨d, st2, hd, hdbad⟩
      · exact absurd h hvok
      · rw [hd]
        simp only []
        split
        · exact ⟨rfl, [Call.VehicleGetByID t.vehicleID, Call.DriverGetByID t.driverID],
            by simp, by simp [Call.isLoad, Call.isCheckConflict, Call.isTripWrite,
              Call.isVehicleWrite, Call.isPublish]⟩
        · rename_i hact
          split
          · exact ⟨rfl, [Call.VehicleGetByID t.vehicleID, Call.DriverGetByID t.driverID],
              by simp, by simp [Call.isLoad, Call.isCheckConflict, Call.isTripWrite,
                Call.isVehicleWrite, Call.isPublish]⟩
          · rename_i hlic
            rcases hdbad with h | h
            · exact absurd h hact
            · exact absurd h hlic

/-- Witness of C6: vehicle 10 is in Maintenance. -/
theorem C6_create_rejects_ineligible_witness :
    isError (sqlTripService.Create sampleCtx sampleTrip
        (sampleWorld VehicleStatusMaintenance [])).1 = true ∧
      ∃ extra, (sqlTripService.Create sampleCtx sampleTrip
          (sampleWorld VehicleStatusMaintenance [])).2.log
          = (sampleWorld VehicleStatusMaintenance []).log ++ extra ∧
        ∀ c ∈ extra, c.isLoad = true ∧ c.isCheckConflict = false ∧ c.isTripWrite = false ∧
          c.isVehicleWrite = false ∧ c.isPublish = false :=
  C6_create_rejects_ineligible sqlTripService sampleCtx sampleTrip
    (sampleWorld VehicleStatusMaintenance [])
    (scanVehicle (sampleVehicleRow VehicleStatusMaintenance))
    (sampleDB VehicleStatusMaintenance []) (by decide) (Or.inl (Or.inl (by decide)))

/-- C7, as stated, fails: the permission check passes, vehicle 10 is Available,
driver 20 is Active with a licence valid until 2026, no trip conflicts and
every store call succeeds (the log shows the trip insert and the vehicle
update, and the tables hold their results), but the context carries no
session, so the created-event cannot be built and `Create` returns an error. -/
theorem C7_create_counterexample :
    sampleCtxNoSession.canUser Permission.TripCreate = none ∧
      (sqlTripService.Create sampleCtxNoSession sampleTrip
        (sampleWorld VehicleStatusAvailable [])).1
        = .error (.wrap "failed to create event" (.msg "no session found")) ∧
      (sqlTripService.Create sampleCtxNoSession sampleTrip
        (sampleWorld VehicleStatusAvailable [])).2.log
        = [Call.VehicleGetByID 10, Call.DriverGetByID 20,
            Call.TripCheckConflict 10 t20250110_0800 t20250110_1200 none,
            Call.TripCreate sampleTrip,
            Call.VehicleUpdate ((scanVehicle (sampleVehicleRow VehicleStatusAvailable)).UpdateStatus
              VehicleStatusInUse t20250101)] ∧
      ((sqlTripService.Create sampleCtxNoSession sampleTrip
        (sampleWorld VehicleStatusAvailable [])).2.store.fleet_trips.map scanTrip)
        = [sampleTrip] ∧
      ((sqlTripService.Create sampleCtxNoSession sampleTrip
        (sampleWorld VehicleStatusAvailable [])).2.store.fleet_vehicles.map (fun r => r.Status))
        = [VehicleStatusInUse] := by
  decide

/-- C7, amended: when the permission check passes, the vehicle is Available,
the driver is Active with a licence expiry in the future, the conflict check
reports no conflict, every store call succeeds and the
created-event can be built (user and session are present in the context),
`Create` succeeds and returns the persisted trip. Its calls are, in order: the
two loads, `CheckConflict` with end = the trip's end time if set and start + 24h
otherwise and with no excluded id, the trip insert, the vehicle update, the
publish. The vehicle it writes has status InUse and agrees with the loaded
vehicle on every field other than the status and the update timestamp. -/
theorem C7_create_succeeds {σ : Type} (s : TripService σ) (ctx : Ctx) (t : Trip)
    (w : World σ) (v v2 : Vehicle) (d : Driver) (created : Trip) (st1 st2 st3 st4 st5 : σ)
    (sender : User) (sess : Session)
    (hperm : ctx.canUser Permission.TripCreate = none)
    (hv : s.vehicleRepo.GetByID ctx t.vehicleID w.store = (.ok v, st1))
    (hvs : v.status = VehicleStatusAvailable)
    (hd : s.driverRepo.GetByID ctx t.driverID st1 = (.ok d, st2))
    (hds : d.status = DriverStatusActive)
    (hlic : ctx.now < d.licenseExpiry)
    (hcc : s.tripRepo.CheckConflict ctx t.vehicleID t.startTime
      (match t.endTime with
        | some e => e
        | none => t.startTime + 24 * Hour) none st2 = (.ok false, st3))
    (hcr : s.tripRepo.Create ctx t st3 = (.ok created, st4))
    (hup : s.vehicleRepo.Update ctx (v.UpdateStatus VehicleStatusInUse ctx.now) st4
      = (.ok v2, st5))
    (hu : ctx.useUser = .ok sender) (hs : ctx.useSession = .ok sess) :
    s.Create ctx t w
        = (.ok created,
            { store := st5,
              log := w.log ++
                [Call.VehicleGetByID t.vehicleID, Call.DriverGetByID t.driverID,
                  Call.TripCheckConflict t.vehicleID t.startTime
                    (match t.endTime with
                      | some e => e
                      | none => t.startTime + 24 * Hour) none,
                  Call.TripCreate t,
                  Call.VehicleUpdate (v.UpdateStatus VehicleStatusInUse ctx.now),
                  Call.Publish (Event.TripCreated sender sess created (some created))] }) ∧
      (v.UpdateStatus VehicleStatusInUse ctx.now).status = VehicleStatusInUse ∧
      { v.UpdateStatus VehicleStatusInUse ctx.now with
          status := v.status, updatedAt := v.updatedAt } = v := by
  have hend : TripService.effectiveEnd t = (match t.endTime with
      | some e => e
      | none => t.startTime + 24 * Hour) := rfl
  refine ⟨?_, rfl, rfl⟩
  unfold TripService.Create
  simp only [World.call, hperm, hv, hd, hend, hcc, hcr, hup]
  have h1 : ¬ (v.status = VehicleStatusMaintenance ∨ v.status = VehicleStatusOutOfService) := by
    rw [hvs]; decide
  have h2 : ¬ (d.status ≠ DriverStatusActive) := by simp [hds]
  have h3 : ¬ (d.licenseExpiry < ctx.now) := not_lt.mpr (le_of_lt hlic)
  simp [h1, h2, h3, NewTripCreatedEvent, hu, hs, Event.setResult, World.publish]

/-- Witness of C7: the request of the specification (start 2025-01-10T08:00,
end 2025-01-10T12:00) on the Available vehicle 10 with the Active driver 20. -/
theorem C7_create_succeeds_witness :
    (sqlTripService.Create sampleCtx sampleTrip (sampleWorld VehicleStatusAvailable [])).1
        = .ok sampleTrip ∧
      (sqlTripService.Create sampleCtx sampleTrip (sampleWorld VehicleStatusAvailable [])).2.log
        = [Call.VehicleGetByID 10, Call.DriverGetByID 20,
            Call.TripCheckConflict 10 t20250110_0800 t20250110_1200 none,
            Call.TripCreate sampleTrip,
            Call.VehicleUpdate ((scanVehicle (sampleVehicleRow VehicleStatusAvailable)).UpdateStatus
              VehicleStatusInUse t20250101),
            Call.Publish (Event.TripCreated 7 9 sampleTrip (some sampleTrip))] := by
  have h := (C7_create_succeeds sqlTripService sampleCtx sampleTrip
    (sampleWorld VehicleStatusAvailable [])
    (scanVehicle (sampleVehicleRow VehicleStatusAvailable))
    (scanVehicle { sampleVehicleRow VehicleStatusInUse with UpdatedAt := t20250101 })
    (scanDriver sampleDriverRow) sampleTrip
    (sampleDB VehicleStatusAvailable []) (sampleDB VehicleStatusAvailable [])
    (sampleDB VehicleStatusAvailable [])
    (sampleDB VehicleStatusAvailable
      [sampleTripRow 30 TripStatusScheduled t20250110_0800 (some t20250110_1200)])
    { sampleDB VehicleStatusAvailable
        [sampleTripRow 30 TripStatusScheduled t20250110_0800 (some t20250110_1200)] with
      fleet_vehicles := [{ sampleVehicleRow VehicleStatusInUse with UpdatedAt := t20250101 }] }
    7 9 (by decide) (by decide) (by decide) (by decide) (by decide) (by decide) (by decide)
    (by decide) (by decide) (by decide) (by decide)).1
  rw [h]
  exact ⟨rfl, rfl⟩

/-! ## Theorems: TripService.Complete and TripService.Cancel -/

/-- C8: for a stored trip in status Scheduled or InProgress, `Complete` with an
end odometer below the trip's start odometer returns an error, makes no trip
write and no vehicle write, and leaves the store as the trip load left it.
Otherwise (end odometer at or above the start
odometer, permission granted, store calls succeeding) the trip handed to the
store is the loaded trip with status Completed, exactly the given end time and
end odometer and all its other fields kept, and the vehicle handed to the store
has status Available and current odometer equal to the end odometer; after
these four calls only the publish of the completed-event may follow. -/
theorem C8_complete_odometer {σ : Type} (s : TripService σ) (ctx : Ctx) (id : UUID)
    (endTime : Time) (endOdometer : Int) (w : World σ) (t : Trip) (st1 : σ)
    (hg : s.tripRepo.GetByID ctx id w.store = (.ok t, st1))
    (hst : t.status = TripStatusScheduled ∨ t.status = TripStatusInProgress) :
    (endOdometer < t.startOdometer →
        isError (s.Complete ctx id endTime endOdometer w).1 = true ∧
        ((s.Complete ctx id endTime endOdometer w).2.store = w.store ∨
          (s.Complete ctx id endTime endOdometer w).2.store = st1) ∧
        ∃ extra, (s.Complete ctx id endTime endOdometer w).2.log = w.log ++ extra ∧
          ∀ c ∈ extra, c.isTripWrite = false ∧ c.isVehicleWrite = false)
      ∧ (t.startOdometer ≤ endOdometer → ctx.canUser Permission.TripUpdate = none →
        ∀ (updated : Trip) (v v2 : Vehicle) (st2 st3 st4 : σ),
          s.tripRepo.Update ctx (t.Complete endTime endOdometer ctx.now) st1
            = (.ok updated, st2) →
          s.vehicleRepo.GetByID ctx t.vehicleID st2 = (.ok v, st3) →
          s.vehicleRepo.Update ctx
            ((v.UpdateStatus VehicleStatusAvailable ctx.now).UpdateOdometer endOdometer ctx.now)
            st3 = (.ok v2, st4) →
          ∃ (tw : Trip) (vw : Vehicle) (tail : List Call),
            (s.Complete ctx id endTime endOdometer w).2.log
              = w.log ++ [Call.TripGetByID id, Call.TripUpdate tw,
                  Call.VehicleGetByID t.vehicleID, Call.VehicleUpdate vw] ++ tail ∧
            (s.Complete ctx id endTime endOdometer w).2.store = st4 ∧
            (∀ c ∈ tail, c.isPublish = true) ∧
            tw.status = TripStatusCompleted ∧ tw.endTime = some endTime ∧
            tw.endOdometer = some endOdometer ∧
            { tw with
                endTime := t.endTime, endOdometer := t.endOdometer, status := t.status,
                updatedAt := t.updatedAt } = t ∧
            vw.status = VehicleStatusAvailable ∧ vw.currentOdometer = endOdometer ∧
            { vw with
                status := v.status, currentOdometer := v.currentOdometer,
                updatedAt := v.updatedAt } = v) := by
  have hrej : TripService.completeRejects t.status = false := by
    rcases hst with h | h <;> rw [h] <;> decide
  constructor
  · intro hlt
    unfold TripService.Complete
    simp only [World.call]
    cases hp : ctx.canUser Permission.TripUpdate with
    | some err => exact ⟨rfl, Or.inl rfl, [], by simp, by simp⟩
    | none =>
      rw [hg]
      simp only [hrej, hlt]
      exact ⟨rfl, Or.inr rfl, [Call.TripGetByID id], rfl,
        by simp [Call.isTripWrite, Call.isVehicleWrite]⟩
  · intro hge hperm updated v v2 st2 st3 st4 hup hvg hvu
    have hnlt : ¬ (endOdometer < t.startOdometer) := not_lt.mpr hge
    refine ⟨t.Complete endTime endOdometer ctx.now,
      (v.UpdateStatus VehicleStatusAvailable ctx.now).UpdateOdometer endOdometer ctx.now,
      (match NewTripCompletedEvent ctx updated with
        | .error _ => []
        | .ok event => [Call.Publish event]), ?_, ?_, ?_, rfl, rfl, rfl, rfl, rfl, rfl, rfl⟩
    · unfold TripService.Complete
      simp only [World.call, hperm, hg, hrej, hnlt, hup, hvg, hvu]
      cases NewTripCompletedEvent ctx updated <;> simp [World.publish]
    · unfold TripService.Complete
      simp only [World.call, hperm, hg, hrej, hnlt, hup, hvg, hvu]
      cases NewTripCompletedEvent ctx updated <;> simp [World.publish]
    · intro c hc
      cases hev : NewTripCompletedEvent ctx updated with
      | error e => rw [hev] at hc; simp at hc
      | ok event =>
        rw [hev] at hc
        simp only [List.mem_singleton] at hc
        rw [hc]
        rfl

/-- Witness of C8: trip 30 is in progress with start odometer 50000; completing
it at 49000 fails without a write, completing it at 50100 hands the store the
completed trip and the Available vehicle with odometer 50100. -/
theorem C8_complete_odometer_witness :
    (isError (sqlTripService.Complete sampleCtx 30 t20250110_1200 49000
          (sampleWorldWithTrip TripStatusInProgress)).1 = true ∧
        ((sqlTripService.Complete sampleCtx 30 t20250110_1200 49000
            (sampleWorldWithTrip TripStatusInProgress)).2.store
            = (sampleWorldWithTrip TripStatusInProgress).store ∨
          (sqlTripService.Complete sampleCtx 30 t20250110_1200 49000
            (sampleWorldWithTrip TripStatusInProgress)).2.store
            = (sampleWorldWithTrip TripStatusInProgress).store) ∧
        ∃ extra, (sqlTripService.Complete sampleCtx 30 t20250110_1200 49000
            (sampleWorldWithTrip TripStatusInProgress)).2.log
            = (sampleWorldWithTrip TripStatusInProgress).log ++ extra ∧
          ∀ c ∈ extra, c.isTripWrite = false ∧ c.isVehicleWrite = false)
      ∧ ∃ (tw : Trip) (vw : Vehicle) (tail : List Call),
          (sqlTripService.Complete sampleCtx 30 t20250110_1200 50100
              (sampleWorldWithTrip TripStatusInProgress)).2.log
            = (sampleWorldWithTrip TripStatusInProgress).log ++
                [Call.TripGetByID 30, Call.TripUpdate tw, Call.VehicleGetByID 10,
                  Call.VehicleUpdate vw] ++ tail ∧
          (∀ c ∈ tail, c.isPublish = true) ∧
          tw.status = TripStatusCompleted ∧ tw.endTime = some t20250110_1200 ∧
          tw.endOdometer = some 50100 ∧
          vw.status = VehicleStatusAvailable ∧ vw.currentOdometer = 50100 := by
  refine ⟨(C8_complete_odometer sqlTripService sampleCtx 30 t20250110_1200 49000
      (sampleWorldWithTrip TripStatusInProgress)
      (scanTrip (sampleTripRow 30 TripStatusInProgress t20250110_0800 none))
      (sampleWorldWithTrip TripStatusInProgress).store (by decide) (Or.inr (by decide))).1
      (by decide), ?_⟩
  obtain ⟨tw, vw, tail, h1, _, h3, h4, h5, h6, _, h8, h9, _⟩ :=
    (C8_complete_odometer sqlTripService sampleCtx 30 t20250110_1200 50100
      (sampleWorldWithTrip TripStatusInProgress)
      (scanTrip (sampleTripRow 30 TripStatusInProgress t20250110_0800 none))
      (sampleWorldWithTrip TripStatusInProgress).store (by decide) (Or.inr (by decide))).2
      (by decide) (by decide) _ _ _ _ _ _ rfl rfl rfl
  exact ⟨tw, vw, tail, h1, h3, h4, h5, h6, h8, h9⟩

/-- C9: Completed and Cancelled are terminal. For a stored trip whose status is
Completed or Cancelled, `Complete` and `Cancel` both return an error, make no
call other than the load of the trip (no trip write, no vehicle write) and
leave the store as that load left it.
`Complete` passes its status check exactly when the status is Scheduled or
InProgress; so does `Cancel` on the four defined trip statuses. -/
theorem C9_terminal_statuses {σ : Type} (s : TripService σ) (ctx : Ctx) (id : UUID)
    (w : World σ) (t : Trip) (st1 : σ)
    (hg : s.tripRepo.GetByID ctx id w.store = (.ok t, st1)) :
    (t.status = TripStatusCompleted ∨ t.status = TripStatusCancelled →
        ∀ (endTime : Time) (endOdometer : Int) (reason : String),
          (isError (s.Complete ctx id endTime endOdometer w).1 = true ∧
            ((s.Complete ctx id endTime endOdometer w).2.store = w.store ∨
              (s.Complete ctx id endTime endOdometer w).2.store = st1) ∧
            ∃ extra, (s.Complete ctx id endTime endOdometer w).2.log = w.log ++ extra ∧
              ∀ c ∈ extra, c.isLoad = true) ∧
          (isError (s.Cancel ctx id reason w).1 = true ∧
            ((s.Cancel ctx id reason w).2.store = w.store ∨
              (s.Cancel ctx id reason w).2.store = st1) ∧
            ∃ extra, (s.Cancel ctx id reason w).2.log = w.log ++ extra ∧
              ∀ c ∈ extra, c.isLoad = true))
      ∧ (TripService.completeRejects t.status = false ↔
          (t.status = TripStatusScheduled ∨ t.status = TripStatusInProgress))
      ∧ (TripStatus.IsValid t.status = true →
          (TripService.cancelRejects t.status = false ↔
            (t.status = TripStatusScheduled ∨ t.status = TripStatusInProgress))) := by
  refine ⟨?_, ?_, ?_⟩
  · intro hterm endTime endOdometer reason
    have h1 : TripService.completeRejects t.status = true := by
      rcases hterm with h | h <;> rw [h] <;> decide
    have h2 : TripService.cancelRejects t.status = true := by
      rcases hterm with h | h <;> rw [h] <;> decide
    constructor
    · unfold TripService.Complete
      simp only [World.call]
      cases hp : ctx.canUser Permission.TripUpdate with
      | some err => exact ⟨rfl, Or.inl rfl, [], by simp, by simp⟩
      | none =>
        rw [hg]
        simp only [h1]
        exact ⟨rfl, Or.inr rfl, [Call.TripGetByID id], rfl, by simp [Call.isLoad]⟩
    · unfold TripService.Cancel
      simp only [World.call]
      cases hp : ctx.canUser Permission.TripUpdate with
      | some err => exact ⟨rfl, Or.inl rfl, [], by simp, by simp⟩
      | none =>
        rw [hg]
        simp only [h2]
        exact ⟨rfl, Or.inr rfl, [Call.TripGetByID id], rfl, by simp [Call.isLoad]⟩
  · simp only [TripService.completeRejects, Bool.and_eq_false_imp, decide_eq_true_eq,
      decide_eq_false_iff_not, not_not, ne_eq]
    tauto
  · intro hvalid
    have key : ∀ x : Int, 0 ≤ x → x ≤ 3 → ((¬ x = 2 ∧ ¬ x = 3) ↔ (x = 0 ∨ x = 1)) := by
      intro x h0 h3
      omega
    have hb : (0 : Int) ≤ t.status ∧ t.status ≤ 3 := by
      simpa [TripStatus.IsValid, TripStatusScheduled, TripStatusCancelled] using hvalid
    simpa [TripService.cancelRejects, TripStatusCompleted, TripStatusCancelled,
      TripStatusScheduled, TripStatusInProgress] using key t.status hb.1 hb.2

/-- Witness of C9: trip 30 is stored as Completed. -/
theorem C9_terminal_statuses_witness :
    ((isError (sqlTripService.Complete sampleCtx 30 t20250110_1200 50100
            (sampleWorldWithTrip TripStatusCompleted)).1 = true ∧
          ((sqlTripService.Complete sampleCtx 30 t20250110_1200 50100
              (sampleWorldWithTrip TripStatusCompleted)).2.store
              = (sampleWorldWithTrip TripStatusCompleted).store ∨
            (sqlTripService.Complete sampleCtx 30 t20250110_1200 50100
              (sampleWorldWithTrip TripStatusCompleted)).2.store
              = (sampleWorldWithTrip TripStatusCompleted).store) ∧
          ∃ extra, (sqlTripService.Complete sampleCtx 30 t20250110_1200 50100
              (sampleWorldWithTrip TripStatusCompleted)).2.log
              = (sampleWorldWithTrip TripStatusCompleted).log ++ extra ∧
            ∀ c ∈ extra, c.isLoad = true) ∧
        (isError (sqlTripService.Cancel sampleCtx 30 "weather"
            (sampleWorldWithTrip TripStatusCompleted)).1 = true ∧
          ((sqlTripService.Cancel sampleCtx 30 "weather"
              (sampleWorldWithTrip TripStatusCompleted)).2.store
              = (sampleWorldWithTrip TripStatusCompleted).store ∨
            (sqlTripService.Cancel sampleCtx 30 "weather"
              (sampleWorldWithTrip TripStatusCompleted)).2.store
              = (sampleWorldWithTrip TripStatusCompleted).store) ∧
          ∃ extra, (sqlTripService.Cancel sampleCtx 30 "weather"
              (sampleWorldWithTrip TripStatusCompleted)).2.log
              = (sampleWorldWithTrip TripStatusCompleted).log ++ extra ∧
            ∀ c ∈ extra, c.isLoad = true))
      ∧ (TripService.cancelRejects
            (scanTrip (sampleTripRow 30 TripStatusCompleted t20250110_0800 none)).status = false ↔
          ((scanTrip (sampleTripRow 30 TripStatusCompleted t20250110_0800 none)).status
              = TripStatusScheduled ∨
            (scanTrip (sampleTripRow 30 TripStatusCompleted t20250110_0800 none)).status
              = TripStatusInProgress)) :=
  ⟨(C9_terminal_statuses sqlTripService sampleCtx 30 (sampleWorldWithTrip TripStatusCompleted)
      (scanTrip (sampleTripRow 30 TripStatusCompleted t20250110_0800 none))
      (sampleWorldWithTrip TripStatusCompleted).store (by decide)).1 (Or.inl (by decide))
      t20250110_1200 50100 "weather",
    (C9_terminal_statuses sqlTripService sampleCtx 30 (sampleWorldWithTrip TripStatusCompleted)
      (scanTrip (sampleTripRow 30 TripStatusCompleted t20250110_0800 none))
      (sampleWorldWithTrip TripStatusCompleted).store (by decide)).2.2 (by decide)⟩

/-- What a successful `Cancel` has done, for every repository: the trip update
returned the trip that `Cancel` returns and the event could be built; for an
InProgress trip the vehicle was loaded from the store the trip update left,
written with status Available, and the store `Cancel` leaves is the one that
write left; for any other trip `Cancel` leaves the store the trip update left
and has made no vehicle call. Result, store and call log are given in full. -/
theorem TripService.cancel_succeeds {σ : Type} (s : TripService σ) (ctx : Ctx) (id : UUID)
    (reason : String) (w : World σ) (t r : Trip) (st1 : σ)
    (hg : s.tripRepo.GetByID ctx id w.store = (.ok t, st1))
    (hok : (s.Cancel ctx id reason w).1 = .ok r) :
    TripService.cancelRejects t.status = false ∧
      ∃ (st2 : σ) (ev : Event),
        s.tripRepo.Update ctx (t.Cancel reason ctx.now) st1 = (.ok r, st2) ∧
        NewTripCancelledEvent ctx r reason = .ok ev ∧
        (t.status = TripStatusInProgress →
          ∃ (v v2 : Vehicle) (st3 st4 : σ),
            s.vehicleRepo.GetByID ctx t.vehicleID st2 = (.ok v, st3) ∧
            s.vehicleRepo.Update ctx (v.UpdateStatus VehicleStatusAvailable ctx.now) st3
              = (.ok v2, st4) ∧
            s.Cancel ctx id reason w
              = (.ok r,
                  { store := st4
                    log := w.log ++ [Call.TripGetByID id,
                      Call.TripUpdate (t.Cancel reason ctx.now),
                      Call.VehicleGetByID t.vehicleID,
                      Call.VehicleUpdate (v.UpdateStatus VehicleStatusAvailable ctx.now),
                      Call.Publish ev] })) ∧
        (t.status ≠ TripStatusInProgress →
          s.Cancel ctx id reason w
            = (.ok r,
                { store := st2
                  log := w.log ++ [Call.TripGetByID id,
                    Call.TripUpdate (t.Cancel reason ctx.now), Call.Publish ev] })) := by
  unfold TripService.Cancel at hok ⊢
  simp only [World.call] at hok ⊢
  cases hp : ctx.canUser Permission.TripUpdate with
  | some err => simp [hp] at hok
  | none =>
    simp only [hp, hg] at hok ⊢
    by_cases hrej : TripService.cancelRejects t.status = true
    · simp [hrej] at hok
    · have hrej2 : TripService.cancelRejects t.status = false := by
        simpa using hrej
      simp only [hrej2, Bool.false_eq_true, if_false] at hok ⊢
      rcases hu : s.tripRepo.Update ctx (t.Cancel reason ctx.now) st1 with ⟨r1, st2⟩
      simp only [hu] at hok ⊢
      cases r1 with
      | error e => simp at hok
      | ok updated =>
        simp only [] at hok ⊢
        by_cases hip : t.status = TripStatusInProgress
        · simp only [hip, if_true] at hok ⊢
          rcases hvg : s.vehicleRepo.GetByID ctx t.vehicleID st2 with ⟨r2, st3⟩
          simp only [hvg] at hok ⊢
          cases r2 with
          | error e => simp at hok
          | ok v =>
            simp only [] at hok ⊢
            rcases hvu : s.vehicleRepo.Update ctx
                (v.UpdateStatus VehicleStatusAvailable ctx.now) st3 with ⟨r3, st4⟩
            simp only [hvu] at hok ⊢
            cases r3 with
            | error e => simp at hok
            | ok v2 =>
              simp only [] at hok ⊢
              cases hev : NewTripCancelledEvent ctx updated reason with
              | error e => simp [hev] at hok
              | ok ev =>
                simp only [hev] at hok ⊢
                simp at hok
                subst hok
                refine ⟨trivial, st2, ev, rfl, hev, fun _ => ⟨v, v2, st3, st4, hvg, hvu, ?_⟩,
                  fun h => absurd rfl h⟩
                simp [World.publish]
        · simp only [hip, if_false] at hok ⊢
          cases hev : NewTripCancelledEvent ctx updated reason with
          | error e => simp [hev] at hok
          | ok ev =>
            simp only [hev] at hok ⊢
            simp at hok
            subst hok
            refine ⟨trivial, st2, ev, rfl, hev, fun h => False.elim h, fun _ => ?_⟩
            simp [World.publish]

/-- C10: a successful `Cancel(id, reason)` of a stored trip has handed the store the loaded trip with status
Cancelled, purpose = reason and every other field (update timestamp aside)
kept, and returns what that update returned. If the trip was InProgress, the
vehicle was then loaded from the store the trip update left and written with
status Available, all its other fields (update timestamp aside) kept, and
`Cancel` leaves the store that this write left. If the trip was Scheduled,
`Cancel` leaves the store the trip update left and its calls are the trip
load, the trip update and the publish only: no vehicle is written. In both
cases the result, the store left and the call log are given in full. -/
theorem C10_cancel_effects {σ : Type} (s : TripService σ) (ctx : Ctx) (id : UUID)
    (reason : String) (w : World σ) (t r : Trip) (st1 : σ)
    (hg : s.tripRepo.GetByID ctx id w.store = (.ok t, st1))
    (hok : (s.Cancel ctx id reason w).1 = .ok r) :
    t.Cancel reason ctx.now
        = { t with purpose := reason, status := TripStatusCancelled, updatedAt := ctx.now } ∧
      ∃ (st2 : σ) (ev : Event),
        s.tripRepo.Update ctx (t.Cancel reason ctx.now) st1 = (.ok r, st2) ∧
        NewTripCancelledEvent ctx r reason = .ok ev ∧
        (t.status = TripStatusInProgress →
          ∃ (v v2 : Vehicle) (st3 st4 : σ),
            s.vehicleRepo.GetByID ctx t.vehicleID st2 = (.ok v, st3) ∧
            s.vehicleRepo.Update ctx
                { v with status := VehicleStatusAvailable, updatedAt := ctx.now } st3
              = (.ok v2, st4) ∧
            s.Cancel ctx id reason w
              = (.ok r,
                  { store := st4
                    log := w.log ++ [Call.TripGetByID id,
                      Call.TripUpdate (t.Cancel reason ctx.now),
                      Call.VehicleGetByID t.vehicleID,
                      Call.VehicleUpdate
                        { v with status := VehicleStatusAvailable, updatedAt := ctx.now },
                      Call.Publish ev] })) ∧
        (t.status = TripStatusScheduled →
          s.Cancel ctx id reason w
            = (.ok r,
                { store := st2
                  log := w.log ++ [Call.TripGetByID id,
                    Call.TripUpdate (t.Cancel reason ctx.now), Call.Publish ev] })) := by
  obtain ⟨_, st2, ev, hu, hev, hin, hout⟩ :=
    TripService.cancel_succeeds s ctx id reason w t r st1 hg hok
  refine ⟨rfl, st2, ev, hu, hev, ?_, ?_⟩
  · intro hip
    obtain ⟨v, v2, st3, st4, h1, h2, h3⟩ := hin hip
    exact ⟨v, v2, st3, st4, h1, h2, h3⟩
  · intro hsch
    exact hout (by rw [hsch]; decide)

/-- C10 on the stored trip 30 of vehicle 10 (stored as InUse). Cancelling it
while InProgress stores the trip as Cancelled with purpose "weather" and the
vehicle as Available; cancelling it while Scheduled stores the trip likewise,
leaves the vehicle row as it was and makes the trip load, the trip update and
the publish only. -/
theorem C10_cancel_effects_witness :
    ((sqlTripService.Cancel sampleCtx 30 "weather"
          (sampleWorldWithTrip TripStatusInProgress)).2.store.fleet_trips.map
          (fun row => (row.Status, row.Purpose)) = [(TripStatusCancelled, some "weather")] ∧
        (sqlTripService.Cancel sampleCtx 30 "weather"
          (sampleWorldWithTrip TripStatusInProgress)).2.store.fleet_vehicles.map
          (fun row => row.Status) = [VehicleStatusAvailable] ∧
        (sqlTripService.Cancel sampleCtx 30 "weather"
          (sampleWorldWithTrip TripStatusScheduled)).2.store.fleet_trips.map
          (fun row => (row.Status, row.Purpose)) = [(TripStatusCancelled, some "weather")] ∧
        (sqlTripService.Cancel sampleCtx 30 "weather"
          (sampleWorldWithTrip TripStatusScheduled)).2.store.fleet_vehicles
          = (sampleWorldWithTrip TripStatusScheduled).store.fleet_vehicles) ∧
      (∃ (st2 : DB) (ev : Event),
        sqlTripService.tripRepo.Update sampleCtx
            ((scanTrip (sampleTripRow 30 TripStatusScheduled t20250110_0800 none)).Cancel
              "weather" sampleCtx.now)
            (sampleWorldWithTrip TripStatusScheduled).store
          = (.ok ((scanTrip (sampleTripRow 30 TripStatusScheduled t20250110_0800 none)).Cancel
              "weather" sampleCtx.now), st2) ∧
        sqlTripService.Cancel sampleCtx 30 "weather" (sampleWorldWithTrip TripStatusScheduled)
          = (.ok ((scanTrip (sampleTripRow 30 TripStatusScheduled t20250110_0800 none)).Cancel
                "weather" sampleCtx.now),
              { store := st2
                log := (sampleWorldWithTrip TripStatusScheduled).log ++
                  [Call.TripGetByID 30,
                    Call.TripUpdate
                      ((scanTrip (sampleTripRow 30 TripStatusScheduled t20250110_0800
                        none)).Cancel "weather" sampleCtx.now),
                    Call.Publish ev] })) ∧
      (∃ (v : Vehicle) (st4 : DB) (ev : Event),
        sqlTripService.Cancel sampleCtx 30 "weather" (sampleWorldWithTrip TripStatusInProgress)
          = (.ok ((scanTrip (sampleTripRow 30 TripStatusInProgress t20250110_0800 none)).Cancel
                "weather" sampleCtx.now),
              { store := st4
                log := (sampleWorldWithTrip TripStatusInProgress).log ++
                  [Call.TripGetByID 30,
                    Call.TripUpdate
                      ((scanTrip (sampleTripRow 30 TripStatusInProgress t20250110_0800
                        none)).Cancel "weather" sampleCtx.now),
                    Call.VehicleGetByID 10,
                    Call.VehicleUpdate
                      { v with status := VehicleStatusAvailable, updatedAt := sampleCtx.now },
                    Call.Publish ev] })) := by
  refine ⟨by decide, ?_, ?_⟩
  · obtain ⟨_, st2, ev, hu, _, _, hsch⟩ :=
      C10_cancel_effects sqlTripService sampleCtx 30 "weather"
        (sampleWorldWithTrip TripStatusScheduled)
        (scanTrip (sampleTripRow 30 TripStatusScheduled t20250110_0800 none))
        ((scanTrip (sampleTripRow 30 TripStatusScheduled t20250110_0800 none)).Cancel
          "weather" sampleCtx.now)
        (sampleWorldWithTrip TripStatusScheduled).store
        (by decide) (by decide)
    exact ⟨st2, ev, hu, hsch (by decide)⟩
  · obtain ⟨_, st2, ev, _, _, hip, _⟩ :=
      C10_cancel_effects sqlTripService sampleCtx 30 "weather"
        (sampleWorldWithTrip TripStatusInProgress)
        (scanTrip (sampleTripRow 30 TripStatusInProgress t20250110_0800 none))
        ((scanTrip (sampleTripRow 30 TripStatusInProgress t20250110_0800 none)).Cancel
          "weather" sampleCtx.now)
        (sampleWorldWithTrip TripStatusInProgress).store
        (by decide) (by decide)
    obtain ⟨v, v2, st3, st4, _, _, h3⟩ := hip (by decide)
    exact ⟨v, st4, ev, h3⟩

/-! ## Theorems: TripRepository.CheckConflict -/

/-- For a window with `startTime ≤ endTime` and a row whose end, when set, is
not before its start, the three-clause condition of the query says: the row
starts no later than the window ends, and the row's end, when set, is not
before the window's start. -/
theorem TripRepository.timeClause_iff (r : models.Trip) (startTime endTime : Time)
    (hse : startTime ≤ endTime) (hrow : ∀ b, r.EndTime = some b → r.StartTime ≤ b) :
    TripRepository.timeClause r startTime endTime = true ↔
      (r.StartTime ≤ endTime ∧ ∀ b, r.EndTime = some b → startTime ≤ b) := by
  unfold TripRepository.timeClause TripRepository.endNullOrGe
  cases he : r.EndTime with
  | none =>
    simp only [Bool.and_true, Bool.or_eq_true, Bool.and_eq_true, decide_eq_true_eq]
    constructor
    · intro h
      refine ⟨?_, by simp⟩
      rcases h with (h | h) | h
      · exact le_trans h hse
      · exact h
      · exact h.2
    · intro h
      exact Or.inl (Or.inr h.1)
  | some b =>
    have hab : r.StartTime ≤ b := hrow b he
    simp only [Bool.or_eq_true, Bool.and_eq_true, decide_eq_true_eq, Option.some.injEq,
      forall_eq', ge_iff_le]
    constructor
    · intro h
      rcases h with (h | h) | h
      · exact ⟨le_trans h.1 hse, h.2⟩
      · exact ⟨h.1, le_trans hse h.2⟩
      · exact ⟨h.2, le_trans h.1 hab⟩
    · intro h
      by_cases hs : r.StartTime ≤ startTime
      · exact Or.inl (Or.inl ⟨hs, h.2⟩)
      · exact Or.inr ⟨le_of_lt (not_le.mp hs), h.1⟩

/-- The WHERE clause of the conflict query, read as a proposition. -/
theorem TripRepository.conflictRow_iff (vehicleID tenantID : UUID) (startTime endTime : Time)
    (excludeTripID : Option UUID) (r : models.Trip) :
    TripRepository.conflictRow vehicleID tenantID startTime endTime excludeTripID r = true ↔
      (r.VehicleID = vehicleID ∧ r.TenantID = tenantID ∧ r.DeletedAt = none ∧
        (r.Status = TripStatusScheduled ∨ r.Status = TripStatusInProgress) ∧
        (∀ x, excludeTripID = some x → r.ID ≠ x) ∧
        TripRepository.timeClause r startTime endTime = true) := by
  unfold TripRepository.conflictRow
  cases excludeTripID with
  | none =>
    simp only [Bool.and_true, Bool.and_eq_true, decide_eq_true_eq, Bool.or_eq_true,
      Option.isNone_iff_eq_none]
    constructor
    · rintro ⟨⟨⟨⟨h1, h2⟩, h3⟩, h4⟩, h5⟩
      exact ⟨h1, h2, h3, h4, by simp, h5⟩
    · rintro ⟨h1, h2, h3, h4, _, h5⟩
      exact ⟨⟨⟨⟨h1, h2⟩, h3⟩, h4⟩, h5⟩
  | some x =>
    simp only [Bool.and_eq_true, decide_eq_true_eq, Bool.or_eq_true,
      Option.isNone_iff_eq_none, Option.some.injEq, forall_eq', ne_eq]
    constructor
    · rintro ⟨⟨⟨⟨⟨h1, h2⟩, h3⟩, h4⟩, h5⟩, h6⟩
      exact ⟨h1, h2, h3, h4, h6, h5⟩
    · rintro ⟨h1, h2, h3, h4, h6, h5⟩
      exact ⟨⟨⟨⟨⟨h1, h2⟩, h3⟩, h4⟩, h5⟩, h6⟩

/-- The answer of `CheckConflict` when the transaction, the tenant id and the
query are available: whether some row passes the WHERE clause. -/
theorem TripRepository.checkConflict_ok (ctx : Ctx) (vehicleID tenantID : UUID)
    (startTime endTime : Time) (excludeTripID : Option UUID) (db : DB)
    (htx : ctx.useTx = none) (hten : ctx.useTenantID = .ok tenantID)
    (hpool : db.poolCall.1 = none) :
    (TripRepository.CheckConflict ctx vehicleID startTime endTime excludeTripID db).1
      = .ok (db.fleet_trips.any
          (TripRepository.conflictRow vehicleID tenantID startTime endTime excludeTripID)) := by
  have hp := DB.poolCall_tables db
  unfold TripRepository.CheckConflict
  rw [htx, hten]
  rcases hq : db.poolCall with ⟨f, db1⟩
  rw [hq] at hp hpool
  simp only [] at hpool
  subst hpool
  have hp3 : db1.fleet_trips = db.fleet_trips := hp.2.2
  simp only [hp3]

/-- C11, as stated, fails: trip 31 of vehicle 10 is in progress since
2025-01-01 with no end time, so its effective window of the specification
ends on 2025-01-02; for the window 2025-01-10 08:00-12:00 no row satisfies the
stated condition, yet `CheckConflict` answers true. -/
theorem C11_checkConflict_counterexample :
    (TripRepository.CheckConflict sampleCtx 10 t20250110_0800 t20250110_1200 none
        (sampleDB VehicleStatusInUse
          [sampleTripRow 31 TripStatusInProgress t20250101 none])).1 = .ok true ∧
      ¬ ∃ r ∈ (sampleDB VehicleStatusInUse
          [sampleTripRow 31 TripStatusInProgress t20250101 none]).fleet_trips,
        r.VehicleID = 10 ∧ r.TenantID = 1 ∧ r.DeletedAt = none ∧
          (r.Status = TripStatusScheduled ∨ r.Status = TripStatusInProgress) ∧
          r.StartTime ≤ t20250110_1200 ∧ t20250110_0800 ≤ specEffectiveEnd r := by
  constructor
  · decide
  · rintro ⟨r, hr, _, _, _, _, _, h⟩
    simp only [sampleDB, List.mem_singleton] at hr
    subst hr
    revert h
    decide

/-- C11, amended: for a window with `s ≤ e`, a table whose rows have their end
time, when set, not before their start time, and a query that succeeds,
`CheckConflict(vehicleID, s, e, exclude)` returns true exactly when there
exists a trip row of that vehicle and tenant that is not soft-deleted, has
status Scheduled or InProgress, is not the excluded id (when one is given),
starts no later than `e`, and whose end time is not before `s` or is NULL: a
row with no end time is open-ended, not limited to start + 24h. -/
theorem C11_checkConflict_amended (ctx : Ctx) (vehicleID tenantID : UUID) (s e : Time)
    (exclude : Option UUID) (db : DB)
    (htx : ctx.useTx = none) (hten : ctx.useTenantID = .ok tenantID)
    (hpool : db.poolCall.1 = none)
    (hse : s ≤ e)
    (hrows : ∀ r ∈ db.fleet_trips, ∀ b, r.EndTime = some b → r.StartTime ≤ b) :
    ∃ answer : Bool,
      (TripRepository.CheckConflict ctx vehicleID s e exclude db).1 = .ok answer ∧
      (answer = true ↔
        ∃ r ∈ db.fleet_trips,
          r.VehicleID = vehicleID ∧ r.TenantID = tenantID ∧ r.DeletedAt = none ∧
          (r.Status = TripStatusScheduled ∨ r.Status = TripStatusInProgress) ∧
          (∀ x, exclude = some x → r.ID ≠ x) ∧
          r.StartTime ≤ e ∧ (∀ b, r.EndTime = some b → s ≤ b)) := by
  refine ⟨_, TripRepository.checkConflict_ok ctx vehicleID tenantID s e exclude db htx hten hpool,
    ?_⟩
  rw [List.any_eq_true]
  constructor
  · rintro ⟨r, hr, hrow⟩
    rw [TripRepository.conflictRow_iff] at hrow
    obtain ⟨h1, h2, h3, h4, h5, h6⟩ := hrow
    rw [TripRepository.timeClause_iff r s e hse (hrows r hr)] at h6
    exact ⟨r, hr, h1, h2, h3, h4, h5, h6.1, h6.2⟩
  · rintro ⟨r, hr, h1, h2, h3, h4, h5, h6, h7⟩
    refine ⟨r, hr, ?_⟩
    rw [TripRepository.conflictRow_iff]
    refine ⟨h1, h2, h3, h4, h5, ?_⟩
    rw [TripRepository.timeClause_iff r s e hse (hrows r hr)]
    exact ⟨h6, h7⟩

/-- Witness of C11: the table holds the open-ended trip 31 started 2025-01-01. -/
theorem C11_checkConflict_amended_witness :
    ∃ answer : Bool,
      (TripRepository.CheckConflict sampleCtx 10 t20250110_0800 t20250110_1200 none
        (sampleDB VehicleStatusInUse
          [sampleTripRow 31 TripStatusInProgress t20250101 none])).1 = .ok answer ∧
      (answer = true ↔
        ∃ r ∈ (sampleDB VehicleStatusInUse
            [sampleTripRow 31 TripStatusInProgress t20250101 none]).fleet_trips,
          r.VehicleID = 10 ∧ r.TenantID = 1 ∧ r.DeletedAt = none ∧
          (r.Status = TripStatusScheduled ∨ r.Status = TripStatusInProgress) ∧
          (∀ x, (none : Option UUID) = some x → r.ID ≠ x) ∧
          r.StartTime ≤ t20250110_1200 ∧ (∀ b, r.EndTime = some b → t20250110_0800 ≤ b)) :=
  C11_checkConflict_amended sampleCtx 10 1 t20250110_0800 t20250110_1200 none
    (sampleDB VehicleStatusInUse [sampleTripRow 31 TripStatusInProgress t20250101 none])
    rfl rfl rfl (by decide)
    (by
      intro r hr b hb
      simp only [sampleDB, List.mem_singleton] at hr
      subst hr
      simp [sampleTripRow] at hb)

/-- C12, as stated, fails: trip 31 of vehicle 10 is scheduled 08:00-12:00; the
window 12:00-14:00 starts at the very instant the trip ends, so the half-open
intervals do not intersect, yet `CheckConflict` answers true. -/
theorem C12_half_open_counterexample :
    (TripRepository.CheckConflict sampleCtx 10 t20250110_1200 t20250110_1400 none
        (sampleDB VehicleStatusInUse
          [sampleTripRow 31 TripStatusScheduled t20250110_0800 (some t20250110_1200)])).1
        = .ok true ∧
      ¬ (t20250110_0800 < t20250110_1400 ∧ t20250110_1200 < t20250110_1200) := by
  decide

/-- C12, amended: conflict detection uses closed-interval semantics. For a
candidate window `[s, e]` with `s ≤ e` and an existing active trip with window
`[a, b]`, `a ≤ b`, as the only row of the table, `CheckConflict` reports a
conflict exactly when `a ≤ e` and `s ≤ b`; in particular a candidate that
starts at the very instant the existing trip ends (`s = b`), or ends at the
instant it starts (`e = a`), is a conflict. -/
theorem C12_closed_interval_amended (ctx : Ctx) (vehicleID tenantID : UUID) (s e a b : Time)
    (r : models.Trip) (db : DB)
    (htx : ctx.useTx = none) (hten : ctx.useTenantID = .ok tenantID)
    (hpool : db.poolCall.1 = none)
    (htable : db.fleet_trips = [r])
    (hveh : r.VehicleID = vehicleID) (htenant : r.TenantID = tenantID)
    (hdel : r.DeletedAt = none)
    (hst : r.Status = TripStatusScheduled ∨ r.Status = TripStatusInProgress)
    (ha : r.StartTime = a) (hb : r.EndTime = some b) (hab : a ≤ b) (hse : s ≤ e) :
    ((TripRepository.CheckConflict ctx vehicleID s e none db).1 = .ok true ↔ (a ≤ e ∧ s ≤ b)) ∧
      (s = b → (TripRepository.CheckConflict ctx vehicleID s e none db).1 = .ok true) ∧
      (e = a → (TripRepository.CheckConflict ctx vehicleID s e none db).1 = .ok true) := by
  have hrow : ∀ x, r.EndTime = some x → r.StartTime ≤ x := by
    intro x hx
    rw [hb] at hx
    simp only [Option.some.injEq] at hx
    rw [ha, ← hx]
    exact hab
  have hiff : (TripRepository.CheckConflict ctx vehicleID s e none db).1 = .ok true ↔
      (a ≤ e ∧ s ≤ b) := by
    rw [TripRepository.checkConflict_ok ctx vehicleID tenantID s e none db htx hten hpool,
      htable]
    simp only [List.any_cons, List.any_nil, Bool.or_false, Except.ok.injEq]
    rw [TripRepository.conflictRow_iff, TripRepository.timeClause_iff r s e hse hrow, ha, hb]
    simp only [Option.some.injEq, forall_eq']
    constructor
    · rintro ⟨_, _, _, _, _, h⟩
      exact h
    · intro h
      exact ⟨hveh, htenant, hdel, hst, by simp, h⟩
  refine ⟨hiff, ?_, ?_⟩
  · intro h
    rw [hiff, h]
    exact ⟨le_trans hab (by rw [← h]; exact hse), le_refl b⟩
  · intro h
    rw [hiff, h]
    exact ⟨le_refl a, le_trans (by rw [← h]; exact hse) hab⟩

/-- Witness of C12: the scheduled trip 08:00-12:00 and the window 12:00-14:00. -/
theorem C12_closed_interval_amended_witness :
    (TripRepository.CheckConflict sampleCtx 10 t20250110_1200 t20250110_1400 none
        (sampleDB VehicleStatusInUse
          [sampleTripRow 31 TripStatusScheduled t20250110_0800 (some t20250110_1200)])).1
      = .ok true :=
  (C12_closed_interval_amended sampleCtx 10 1 t20250110_1200 t20250110_1400 t20250110_0800
    t20250110_1200 (sampleTripRow 31 TripStatusScheduled t20250110_0800 (some t20250110_1200))
    (sampleDB VehicleStatusInUse
      [sampleTripRow 31 TripStatusScheduled t20250110_0800 (some t20250110_1200)])
    rfl rfl rfl rfl rfl rfl rfl (Or.inl rfl) rfl rfl (by decide) (by decide)).2.1 rfl

/-! ## Theorems: the end time of a completed trip -/

/-- C13, as stated, fails: trip 30 started on 2025-01-10 08:00; `Complete` with
end time 2025-01-01 and end odometer 50100 succeeds and the stored trip has an
end time before its start time. -/
theorem C13_end_time_counterexample :
    isError (sqlTripService.Complete sampleCtx 30 t20250101 50100
        (sampleWorldWithTrip TripStatusInProgress)).1 = false ∧
      ((sqlTripService.Complete sampleCtx 30 t20250101 50100
        (sampleWorldWithTrip TripStatusInProgress)).2.store.fleet_trips.map
          (fun r => (r.ID, r.Status, r.StartTime, r.EndTime)))
        = [(30, TripStatusCompleted, t20250110_0800, some t20250101)] ∧
      t20250101 < t20250110_0800 := by
  decide

/-- C13, amended: after a successful `Complete(id, endTime, endOdometer)` the
trip handed to the store keeps its start time and has end time exactly
`endTime`, so its end time is at or after its start time if and only if the
caller's `endTime` is (`Complete` does not compare the two); the odometer half
of the invariant does hold: the end odometer is at or above the start
odometer. -/
theorem C13_end_time_amended {σ : Type} (s : TripService σ) (ctx : Ctx) (id : UUID)
    (endTime : Time) (endOdometer : Int) (w : World σ) (t r : Trip) (st1 : σ)
    (hg : s.tripRepo.GetByID ctx id w.store = (.ok t, st1))
    (hok : (s.Complete ctx id endTime endOdometer w).1 = .ok r) :
    Call.TripUpdate (t.Complete endTime endOdometer ctx.now)
        ∈ (s.Complete ctx id endTime endOdometer w).2.log ∧
      (t.Complete endTime endOdometer ctx.now).startTime = t.startTime ∧
      (t.Complete endTime endOdometer ctx.now).endTime = some endTime ∧
      ((∀ x, (t.Complete endTime endOdometer ctx.now).endTime = some x →
          (t.Complete endTime endOdometer ctx.now).startTime ≤ x) ↔ t.startTime ≤ endTime) ∧
      (t.Complete endTime endOdometer ctx.now).endOdometer = some endOdometer ∧
      (t.Complete endTime endOdometer ctx.now).startOdometer ≤ endOdometer := by
  refine ⟨?_, rfl, rfl, by simp [Trip.Complete], rfl, ?_⟩
  · unfold TripService.Complete at hok ⊢
    simp only [World.call] at hok ⊢
    cases hp : ctx.canUser Permission.TripUpdate with
    | some err => simp [hp] at hok
    | none =>
      simp only [hp, hg] at hok ⊢
      split
      · rename_i h
        simp [h] at hok
      · split
        · rename_i h1 h2
          simp [h1, h2] at hok
        · rcases hu : s.tripRepo.Update ctx (t.Complete endTime endOdometer ctx.now) st1
            with ⟨r1, st2⟩
          cases r1 with
          | error e =>
            rename_i h1 h2
            simp [h1, h2, hu] at hok
          | ok updated =>
            simp only []
            rcases hvg : s.vehicleRepo.GetByID ctx t.vehicleID st2 with ⟨r2, st3⟩
            cases r2 with
            | error e => simp
            | ok v =>
              simp only []
              rcases hvu : s.vehicleRepo.Update ctx
                ((v.UpdateStatus VehicleStatusAvailable ctx.now).UpdateOdometer endOdometer
                  ctx.now) st3 with ⟨r3, st4⟩
              cases r3 with
              | error e => simp
              | ok v2 =>
                simp only []
                cases NewTripCompletedEvent ctx updated <;> simp [World.publish]
  · unfold TripService.Complete at hok
    simp only [World.call] at hok
    cases hp : ctx.canUser Permission.TripUpdate with
    | some err => simp [hp] at hok
    | none =>
      simp only [hp, hg] at hok
      by_cases h1 : TripService.completeRejects t.status = true
      · simp [h1] at hok
      · by_cases h2 : endOdometer < t.startOdometer
        · simp [h1, h2] at hok
        · exact not_lt.mp h2

/-- Witness of C13: trip 30, started 2025-01-10 08:00, completed at 12:00. -/
theorem C13_end_time_amended_witness :
    Call.TripUpdate ((scanTrip (sampleTripRow 30 TripStatusInProgress t20250110_0800
          none)).Complete t20250110_1200 50100 sampleCtx.now)
        ∈ (sqlTripService.Complete sampleCtx 30 t20250110_1200 50100
          (sampleWorldWithTrip TripStatusInProgress)).2.log ∧
      ((∀ x, ((scanTrip (sampleTripRow 30 TripStatusInProgress t20250110_0800
            none)).Complete t20250110_1200 50100 sampleCtx.now).endTime = some x →
          ((scanTrip (sampleTripRow 30 TripStatusInProgress t20250110_0800
            none)).Complete t20250110_1200 50100 sampleCtx.now).startTime ≤ x) ↔
        (scanTrip (sampleTripRow 30 TripStatusInProgress t20250110_0800 none)).startTime
          ≤ t20250110_1200) :=
  ⟨(C13_end_time_amended sqlTripService sampleCtx 30 t20250110_1200 50100
      (sampleWorldWithTrip TripStatusInProgress)
      (scanTrip (sampleTripRow 30 TripStatusInProgress t20250110_0800 none))
      ((scanTrip (sampleTripRow 30 TripStatusInProgress t20250110_0800 none)).Complete
        t20250110_1200 50100 sampleCtx.now)
      (sampleWorldWithTrip TripStatusInProgress).store (by decide) (by decide)).1,
    (C13_end_time_amended sqlTripService sampleCtx 30 t20250110_1200 50100
      (sampleWorldWithTrip TripStatusInProgress)
      (scanTrip (sampleTripRow 30 TripStatusInProgress t20250110_0800 none))
      ((scanTrip (sampleTripRow 30 TripStatusInProgress t20250110_0800 none)).Complete
        t20250110_1200 50100 sampleCtx.now)
      (sampleWorldWithTrip TripStatusInProgress).store (by decide) (by decide)).2.2.2.1⟩

/-! ## Theorems: the maintenance predictor -/

/-- Adding one year is adding twelve months. -/
theorem Time.addDate_year_eq_twelve_months (t : Time) :
    Time.AddDate t 1 0 0 = Time.AddDate t 0 12 0 := by
  unfold Time.AddDate
  have e1 : ∀ y m : Int, y + 1 + (m - 1 + 0) / 12 = y + 0 + (m - 1 + 12) / 12 := by
    intro y m
    omega
  have e2 : ∀ m : Int, (m - 1 + 0) % 12 + 1 = (m - 1 + 12) % 12 + 1 := by
    intro m
    omega
  simp only [e1, e2]

/-- Adding one year is adding twelve months, in every Location. -/
theorem ZonedTime.addDate_one_year_is_twelve_months (t : ZonedTime) :
    t.AddDate 1 0 0 = t.AddDate 0 12 0 := by
  simp only [ZonedTime.AddDate, Time.addDate_year_eq_twelve_months]

/-- An integer of the range of `int` is the `int` it wraps to. -/
theorem wrapInt64_of_fits (x : Int) (hmin : MinInt64 ≤ x) (hmax : x ≤ MaxInt64) :
    wrapInt64 x = x := by
  unfold wrapInt64
  unfold MinInt64 at hmin
  unfold MaxInt64 at hmax
  omega

/-- C14, as stated, fails: for an OilChange on 2025-01-01 at odometer
9223372036854770807 (`MaxInt64 - 5000`, an `int`), `o + 10000` is
9223372036854780807, but the `int` addition of `calculateNextService` wraps
around and the next-due odometer is the negative -9223372036854770809. -/
theorem C14_odometer_wraps_counterexample :
    MaintenanceService.calculateNextService
        { sampleMaintenance ServiceTypeOilChange none none with
          odometer := 9223372036854770807 }
        (scanVehicle (sampleVehicleRow VehicleStatusAvailable))
        = (some { instant := t20250701, loc := Location.UTC },
            some (-9223372036854770809)) ∧
      (9223372036854770807 : Int) = MaxInt64 - 5000 ∧
      (9223372036854770807 : Int) + 10000 = 9223372036854780807 := by
  decide

/-- C14, amended: `calculateNextService` maps (service type, service date `d`,
odometer `o`) to: OilChange -> (`d` + 6 months, `o` + 10000); TireRotation ->
(`d` + 6 months, `o` + 12000); BrakeService -> (`d` + 12 months, `o` + 20000),
each whenever the sum is at most `MaxInt64`; Inspection -> (`d` + 12 months,
none); Repair and Other -> (none, none). Here `d` + n months is Go's
`d.AddDate(0, n, 0)`, taken in the Location of `d`. Whatever the odometer, the
next-due odometer of the first three is the `int` sum, which wraps around when
the sum exceeds `MaxInt64`. -/
theorem C14_calculateNextService_amended {F : Type} (m : Maintenance F) (v : Vehicle)
    (hmin : MinInt64 ≤ m.odometer) :
    (m.serviceType = ServiceTypeOilChange → m.odometer + 10000 ≤ MaxInt64 →
        MaintenanceService.calculateNextService m v
          = (some (m.serviceDate.AddDate 0 6 0), some (m.odometer + 10000))) ∧
      (m.serviceType = ServiceTypeTireRotation → m.odometer + 12000 ≤ MaxInt64 →
        MaintenanceService.calculateNextService m v
          = (some (m.serviceDate.AddDate 0 6 0), some (m.odometer + 12000))) ∧
      (m.serviceType = ServiceTypeBrakeService → m.odometer + 20000 ≤ MaxInt64 →
        MaintenanceService.calculateNextService m v
          = (some (m.serviceDate.AddDate 0 12 0), some (m.odometer + 20000))) ∧
      (m.serviceType = ServiceTypeInspection →
        MaintenanceService.calculateNextService m v
          = (some (m.serviceDate.AddDate 0 12 0), none)) ∧
      (m.serviceType = ServiceTypeRepair ∨ m.serviceType = ServiceTypeOther →
        MaintenanceService.calculateNextService m v = (none, none)) ∧
      (m.serviceType = ServiceTypeOilChange →
        MaintenanceService.calculateNextService m v
          = (some (m.serviceDate.AddDate 0 6 0), some (wrapInt64 (m.odometer + 10000)))) ∧
      (m.serviceType = ServiceTypeTireRotation →
        MaintenanceService.calculateNextService m v
          = (some (m.serviceDate.AddDate 0 6 0), some (wrapInt64 (m.odometer + 12000)))) ∧
      (m.serviceType = ServiceTypeBrakeService →
        MaintenanceService.calculateNextService m v
          = (some (m.serviceDate.AddDate 0 12 0), some (wrapInt64 (m.odometer + 20000)))) := by
  have hoil : m.serviceType = ServiceTypeOilChange →
      MaintenanceService.calculateNextService m v
        = (some (m.serviceDate.AddDate 0 6 0), some (wrapInt64 (m.odometer + 10000))) := by
    intro h
    simp [MaintenanceService.calculateNextService, h]
  have htire : m.serviceType = ServiceTypeTireRotation →
      MaintenanceService.calculateNextService m v
        = (some (m.serviceDate.AddDate 0 6 0), some (wrapInt64 (m.odometer + 12000))) := by
    intro h
    simp [MaintenanceService.calculateNextService, h, ServiceTypeTireRotation,
      ServiceTypeOilChange]
  have hbrake : m.serviceType = ServiceTypeBrakeService →
      MaintenanceService.calculateNextService m v
        = (some (m.serviceDate.AddDate 0 12 0), some (wrapInt64 (m.odometer + 20000))) := by
    intro h
    simp [MaintenanceService.calculateNextService, h, ServiceTypeBrakeService,
      ServiceTypeTireRotation, ServiceTypeOilChange, ZonedTime.addDate_one_year_is_twelve_months]
  have hfit : ∀ k : Int, 0 ≤ k → m.odometer + k ≤ MaxInt64 →
      wrapInt64 (m.odometer + k) = m.odometer + k := by
    intro k hk hle
    exact wrapInt64_of_fits _ (le_trans hmin (by omega)) hle
  refine ⟨?_, ?_, ?_, ?_, ?_, hoil, htire, hbrake⟩
  · intro h hle
    rw [hoil h, hfit 10000 (by decide) hle]
  · intro h hle
    rw [htire h, hfit 12000 (by decide) hle]
  · intro h hle
    rw [hbrake h, hfit 20000 (by decide) hle]
  · intro h
    simp [MaintenanceService.calculateNextService, h, ServiceTypeInspection,
      ServiceTypeBrakeService, ServiceTypeTireRotation, ServiceTypeOilChange,
      ZonedTime.addDate_one_year_is_twelve_months]
  · intro h
    rcases h with h | h <;>
      simp [MaintenanceService.calculateNextService, h, ServiceTypeRepair, ServiceTypeOther,
        ServiceTypeInspection, ServiceTypeBrakeService, ServiceTypeTireRotation,
        ServiceTypeOilChange]

/-- C14, amended, at the example of the specification and off UTC: an OilChange
on 2025-01-01 (UTC) at odometer 50000 yields 2025-07-01 and 60000; a Repair
yields no follow-up; and a service date of 2025-08-31 23:00 in a zone five
hours west of UTC (the instant 2025-09-01 04:00 UTC) has its six months added
to the local date, which gives 2026-03-03 23:00 local time, the instant
2026-03-04 04:00 UTC. -/
theorem C14_calculateNextService_amended_witness :
    MaintenanceService.calculateNextService (sampleMaintenance ServiceTypeOilChange none none)
        (scanVehicle (sampleVehicleRow VehicleStatusAvailable))
        = (some { instant := t20250701, loc := Location.UTC }, some 60000) ∧
      MaintenanceService.calculateNextService (sampleMaintenance ServiceTypeRepair none none)
        (scanVehicle (sampleVehicleRow VehicleStatusAvailable)) = (none, none) ∧
      ZonedTime.AddDate
          { instant := 1756699200 * 1000000000, loc := Location.FixedZone "UTC-5" (-18000) } 0 6 0
        = { instant := 1772596800 * 1000000000, loc := Location.FixedZone "UTC-5" (-18000) } := by
  refine ⟨?_, (C14_calculateNextService_amended (sampleMaintenance ServiceTypeRepair none none)
    (scanVehicle (sampleVehicleRow VehicleStatusAvailable)) (by decide)).2.2.2.2.1 (Or.inl rfl),
    by decide⟩
  rw [(C14_calculateNextService_amended (sampleMaintenance ServiceTypeOilChange none none)
    (scanVehicle (sampleVehicleRow VehicleStatusAvailable)) (by decide)).1 rfl (by decide)]
  decide

/-! ## Theorems: MaintenanceService.Create -/

/-- C15, as stated, fails: a Repair record that carries a next-due date
(2025-12-31) and a next-due odometer (70000) is handed to the store, and
stored, with these values, although the predictor yields none for a Repair. -/
theorem C15_repair_keeps_values_counterexample :
    MaintenanceService.calculateNextService
        (sampleMaintenance ServiceTypeRepair (some t20251231) (some 70000))
        (scanVehicle (sampleVehicleRow VehicleStatusAvailable)) = (none, none) ∧
      (sqlMaintenanceService.Create sampleCtx
          (sampleMaintenance ServiceTypeRepair (some t20251231) (some 70000))
          { store := sampleFleetDB [], log := [] }).2.log.take 2
        = [MaintenanceCall.VehicleGetByID 10,
            MaintenanceCall.MaintenanceCreate
              (sampleMaintenance ServiceTypeRepair (some t20251231) (some 70000))] ∧
      ((sqlMaintenanceService.Create sampleCtx
          (sampleMaintenance ServiceTypeRepair (some t20251231) (some 70000))
          { store := sampleFleetDB [], log := [] }).2.store.fleet_maintenance.map
            (fun r => (r.ServiceType, r.NextServiceDue, r.NextServiceOdometer)))
        = [(ServiceTypeRepair, some t20251231, some 70000)] := by
  decide!

/-- C15, amended: for every maintenance record `m` passed to `Create`
(permission granted, vehicle found), whatever next-due values `m` carries, the
record handed to the store has next-due date and next-due odometer equal to
the predictor's output whenever the predictor yields at least one of them
(OilChange, TireRotation, BrakeService, Inspection), the other fields kept;
when the predictor yields none (Repair, Other) the record is handed to the
store unchanged, with the next-due values it already carries. -/
theorem C15_create_next_service_amended {F σ : Type} (s : MaintenanceService F σ) (ctx : Ctx)
    (m : Maintenance F) (w : Logged (MaintenanceCall F) σ) (v : Vehicle) (st1 : σ)
    (hperm : ctx.canUser Permission.MaintenanceCreate = none)
    (hv : s.vehicleRepo.GetByID ctx m.vehicleID w.store = (.ok v, st1)) :
    ∃ (m1 : Maintenance F) (rest : List (MaintenanceCall F)),
      (s.Create ctx m w).2.log
          = w.log ++ [MaintenanceCall.VehicleGetByID m.vehicleID,
              MaintenanceCall.MaintenanceCreate m1] ++ rest ∧
      (∀ c ∈ rest, ∃ e, c = MaintenanceCall.Publish e) ∧
      ((MaintenanceService.calculateNextService m v).1 ≠ none ∨
          (MaintenanceService.calculateNextService m v).2 ≠ none →
        m1.nextServiceDue = (MaintenanceService.calculateNextService m v).1 ∧
        m1.nextServiceOdometer = (MaintenanceService.calculateNextService m v).2 ∧
        { m1 with
            nextServiceDue := m.nextServiceDue, nextServiceOdometer := m.nextServiceOdometer,
            updatedAt := m.updatedAt } = m) ∧
      (MaintenanceService.calculateNextService m v = (none, none) → m1 = m) ∧
      (m.serviceType = ServiceTypeRepair ∨ m.serviceType = ServiceTypeOther → m1 = m) := by
  have hnone : MaintenanceService.calculateNextService m v = (none, none) →
      ¬ ((MaintenanceService.calculateNextService m v).1 ≠ none ∨
        (MaintenanceService.calculateNextService m v).2 ≠ none) := by
    intro h
    rw [h]
    simp
  have hrep : m.serviceType = ServiceTypeRepair ∨ m.serviceType = ServiceTypeOther →
      MaintenanceService.calculateNextService m v = (none, none) := by
    intro h
    rcases h with h | h <;>
      simp [MaintenanceService.calculateNextService, h, ServiceTypeRepair, ServiceTypeOther,
        ServiceTypeInspection, ServiceTypeBrakeService, ServiceTypeTireRotation,
        ServiceTypeOilChange]
  refine ⟨if (MaintenanceService.calculateNextService m v).1 ≠ none ∨
        (MaintenanceService.calculateNextService m v).2 ≠ none then
      m.UpdateNextService (MaintenanceService.calculateNextService m v).1
        (MaintenanceService.calculateNextService m v).2 ctx.now else m,
    (match s.repo.Create ctx
        (if (MaintenanceService.calculateNextService m v).1 ≠ none ∨
            (MaintenanceService.calculateNextService m v).2 ≠ none then
          m.UpdateNextService (MaintenanceService.calculateNextService m v).1
            (MaintenanceService.calculateNextService m v).2 ctx.now else m) st1 with
      | (.error _, _) => []
      | (.ok created, _) =>
        match NewMaintenanceCreatedEvent ctx created with
        | .error _ => []
        | .ok event => [MaintenanceCall.Publish { event with Result := some created }]),
    ?_, ?_, ?_, ?_, ?_⟩
  · unfold MaintenanceService.Create
    simp only [Logged.call, hperm, hv]
    rcases hc : s.repo.Create ctx
        (if (MaintenanceService.calculateNextService m v).1 ≠ none ∨
            (MaintenanceService.calculateNextService m v).2 ≠ none then
          m.UpdateNextService (MaintenanceService.calculateNextService m v).1
            (MaintenanceService.calculateNextService m v).2 ctx.now else m) st1
      with ⟨r1, st2⟩
    cases r1 with
    | error e => simp
    | ok created =>
      simp only []
      cases NewMaintenanceCreatedEvent ctx created <;> simp [Logged.note]
  · intro c hc
    rcases hcr : s.repo.Create ctx
        (if (MaintenanceService.calculateNextService m v).1 ≠ none ∨
            (MaintenanceService.calculateNextService m v).2 ≠ none then
          m.UpdateNextService (MaintenanceService.calculateNextService m v).1
            (MaintenanceService.calculateNextService m v).2 ctx.now else m) st1
      with ⟨r1, st2⟩
    rw [hcr] at hc
    cases r1 with
    | error e => simp at hc
    | ok created =>
      simp only [] at hc
      cases hev : NewMaintenanceCreatedEvent ctx created with
      | error e => rw [hev] at hc; simp at hc
      | ok event =>
        rw [hev] at hc
        simp only [List.mem_singleton] at hc
        exact ⟨_, hc⟩
  · intro h
    rw [if_pos h]
    exact ⟨rfl, rfl, rfl⟩
  · intro h
    rw [if_neg (hnone h)]
  · intro h
    rw [if_neg (hnone (hrep h))]

/-- Witness of C15: an OilChange record carrying next-due values of its own
(2025-12-31, 70000) is handed to the store with the predictor's values
(2025-07-01, 60000). -/
theorem C15_create_next_service_amended_witness :
    ∃ (m1 : Maintenance ℚ) (rest : List (MaintenanceCall ℚ)),
      (sqlMaintenanceService.Create sampleCtx
          (sampleMaintenance ServiceTypeOilChange (some t20251231) (some 70000))
          { store := sampleFleetDB [], log := [] }).2.log
          = [] ++ [MaintenanceCall.VehicleGetByID 10, MaintenanceCall.MaintenanceCreate m1]
              ++ rest ∧
      m1.nextServiceDue = some { instant := t20250701, loc := Location.UTC } ∧
      m1.nextServiceOdometer = some 60000 := by
  obtain ⟨m1, rest, h1, _, h3, _, _⟩ := C15_create_next_service_amended sqlMaintenanceService
    sampleCtx (sampleMaintenance ServiceTypeOilChange (some t20251231) (some 70000))
    { store := sampleFleetDB [], log := [] }
    (scanVehicle (sampleVehicleRow VehicleStatusAvailable)) (sampleFleetDB [])
    rfl (by decide!)
  have hcalc : MaintenanceService.calculateNextService
      (sampleMaintenance ServiceTypeOilChange (some t20251231) (some 70000))
      (scanVehicle (sampleVehicleRow VehicleStatusAvailable))
      = (some { instant := t20250701, loc := Location.UTC }, some 60000) := by decide
  rw [hcalc] at h3
  exact ⟨m1, rest, h1, (h3 (Or.inl (by simp))).1, (h3 (Or.inl (by simp))).2.1⟩

/-! ## Theorems: the fuel anomaly detector -/

/-- C16: when the store returns a history of fewer than 3 entries,
`DetectAnomaly` returns false with no error, whatever the odometers and
quantities are; its only call is the load of the history. -/
theorem C16_short_history_no_anomaly {F σ : Type} [Float64 F] (s : FuelService F σ) (ctx : Ctx)
    (f : FuelEntry F) (w : Logged FuelCall σ) (entries : List (FuelEntry F)) (st1 : σ)
    (hg : s.repo.GetByVehicle ctx f.vehicleID w.store = (.ok entries, st1))
    (hlen : entries.length < 3) :
    s.DetectAnomaly ctx f w
      = (.ok false, { store := st1, log := w.log ++ [FuelCall.GetByVehicle f.vehicleID] }) := by
  unfold FuelService.DetectAnomaly
  simp only [Logged.call, hg, hlen, if_true]

/-- Witness of C16: two stored entries and a new entry with a far-off odometer. -/
theorem C16_short_history_no_anomaly_witness :
    sqlFuelService.DetectAnomaly sampleCtx (sampleFuelEntry 900000)
        (sampleFuelWorld [sampleFuelRow 51 t20250101 1000, sampleFuelRow 52 t20250108 1500])
      = (.ok false,
          { store := sampleFleetDB
              [sampleFuelRow 51 t20250101 1000, sampleFuelRow 52 t20250108 1500],
            log := (sampleFuelWorld
              [sampleFuelRow 51 t20250101 1000, sampleFuelRow 52 t20250108 1500]).log
                ++ [FuelCall.GetByVehicle (sampleFuelEntry 900000).vehicleID] }) :=
  C16_short_history_no_anomaly sqlFuelService sampleCtx (sampleFuelEntry 900000)
    (sampleFuelWorld [sampleFuelRow 51 t20250101 1000, sampleFuelRow 52 t20250108 1500])
    [scanFuelEntry (sampleFuelRow 52 t20250108 1500),
      scanFuelEntry (sampleFuelRow 51 t20250101 1000)]
    (sampleFleetDB [sampleFuelRow 51 t20250101 1000, sampleFuelRow 52 t20250108 1500])
    (by decide!) (by decide)

/-- C18, the code at the failing input: vehicle 10 has three fills a week apart
at odometers 1000, 1500 and 2000, 50 units each, so the efficiencies of the
specification are 10 and 10. The store returns the history newest first; the
loop of `DetectAnomaly` measures every entry against the entry returned before
it, which is the chronologically following one, and obtains 0 and 0. No
historical efficiency is positive, and a new entry with efficiency 30 is not
reported. For the stored entry of 2025-01-08, `FuelService.CalculateEfficiency`
measures against the latest entry (odometer 2000) and returns 0 instead of 10. -/
theorem C18_efficiency_against_later_entry :
    (FuelEntryRepository.GetByVehicle sampleCtx 10 (sampleFleetDB sampleHistory)).1
        = .ok [scanFuelEntry (sampleFuelRow 53 t20250115 2000),
            scanFuelEntry (sampleFuelRow 52 t20250108 1500),
            scanFuelEntry (sampleFuelRow 51 t20250101 1000)] ∧
      specEfficiencies
          [scanFuelEntry (sampleFuelRow 51 t20250101 1000),
            scanFuelEntry (sampleFuelRow 52 t20250108 1500),
            scanFuelEntry (sampleFuelRow 53 t20250115 2000)] = [(10 : ℚ), 10] ∧
      FuelService.pairEfficiencies
          [scanFuelEntry (sampleFuelRow 53 t20250115 2000),
            scanFuelEntry (sampleFuelRow 52 t20250108 1500),
            scanFuelEntry (sampleFuelRow 51 t20250101 1000)] = [(0 : ℚ), 0] ∧
      (sqlFuelService.CalculateEfficiency sampleCtx (sampleFuelEntry 3500)
        (sampleFuelWorld sampleHistory)).1 = .ok (30 : ℚ) ∧
      (sqlFuelService.DetectAnomaly sampleCtx (sampleFuelEntry 3500)
        (sampleFuelWorld sampleHistory)).1 = .ok false ∧
      (sqlFuelService.CalculateEfficiency sampleCtx
        (scanFuelEntry (sampleFuelRow 52 t20250108 1500))
        (sampleFuelWorld sampleHistory)).1 = .ok (0 : ℚ) := by
  decide!

/-! ## Theorems: SchedulerService.RunOnce -/

theorem SchedulerService.executeForTenant_invoked {σ : Type} (job : Job σ) (r : JobRun σ)
    (tenantID : UUID) :
    (SchedulerService.executeForTenant job r tenantID).invoked
      = r.invoked ++ [(job.Name, tenantID)] := by
  unfold SchedulerService.executeForTenant
  split <;> rfl

theorem SchedulerService.foldl_executeForTenant_invoked {σ : Type} (job : Job σ)
    (tenantIDs : List UUID) (r : JobRun σ) :
    (tenantIDs.foldl (SchedulerService.executeForTenant job) r).invoked
      = r.invoked ++ tenantIDs.map (fun tenantID => (job.Name, tenantID)) := by
  induction tenantIDs generalizing r with
  | nil => simp
  | cons t rest ih =>
    rw [List.foldl_cons, ih, SchedulerService.executeForTenant_invoked]
    simp

theorem SchedulerService.executeJob_invoked {σ : Type} (s : SchedulerService σ) (job : Job σ)
    (r : JobRun σ) :
    (s.executeJob job r).invoked
      = r.invoked ++ s.tenantIDs.map (fun tenantID => (job.Name, tenantID)) := by
  unfold SchedulerService.executeJob
  rw [SchedulerService.foldl_executeForTenant_invoked]

theorem SchedulerService.foldl_executeJob_invoked {σ : Type} (s : SchedulerService σ)
    (jobs : List (Job σ)) (r : JobRun σ) :
    (jobs.foldl (fun run job => s.executeJob job run) r).invoked
      = r.invoked ++
          jobs.flatMap (fun job => s.tenantIDs.map (fun tenantID => (job.Name, tenantID))) := by
  induction jobs generalizing r with
  | nil => simp
  | cons job rest ih =>
    rw [List.foldl_cons, ih, SchedulerService.executeJob_invoked]
    simp

theorem SchedulerService.foldl_executeJob_no_tenants {σ : Type} (s : SchedulerService σ)
    (htenants : s.tenantIDs = []) (jobs : List (Job σ)) (r : JobRun σ) :
    (jobs.foldl (fun run job => s.executeJob job run) r).env = r.env := by
  induction jobs generalizing r with
  | nil => rfl
  | cons job rest ih =>
    rw [List.foldl_cons, ih]
    unfold SchedulerService.executeJob
    rw [htenants]
    rfl

/-- One pass of the loop body of `executeJob` is one invocation of the
specification: the job function is called on the current state, and a failure
is reported. -/
theorem SchedulerService.executeForTenant_spec {σ : Type} (job : Job σ) (r : JobRun σ)
    (tenantID : UUID) :
    ((SchedulerService.executeForTenant job r tenantID).env,
        (SchedulerService.executeForTenant job r tenantID).logged.filter LogLine.isError)
      = SchedulerService.specInvoke (r.env, r.logged.filter LogLine.isError) (job, tenantID) ∧
    (SchedulerService.executeForTenant job r tenantID).logged.filter (fun l => !l.isError)
      = r.logged.filter (fun l => !l.isError) := by
  unfold SchedulerService.executeForTenant SchedulerService.specInvoke
  rcases h : job.Fn tenantID r.env with ⟨o, env1⟩
  cases o <;> simp [h, List.filter_append, LogLine.isError]

theorem SchedulerService.foldl_executeForTenant_spec {σ : Type} (job : Job σ)
    (tenantIDs : List UUID) (r : JobRun σ) :
    ((tenantIDs.foldl (SchedulerService.executeForTenant job) r).env,
        (tenantIDs.foldl (SchedulerService.executeForTenant job) r).logged.filter
          LogLine.isError)
      = (tenantIDs.map (fun tenantID => (job, tenantID))).foldl SchedulerService.specInvoke
          (r.env, r.logged.filter LogLine.isError) ∧
    (tenantIDs.foldl (SchedulerService.executeForTenant job) r).logged.filter
        (fun l => !l.isError)
      = r.logged.filter (fun l => !l.isError) := by
  induction tenantIDs generalizing r with
  | nil => exact ⟨rfl, rfl⟩
  | cons t rest ih =>
    have h1 := SchedulerService.executeForTenant_spec job r t
    have h2 := ih (SchedulerService.executeForTenant job r t)
    simp only [List.foldl_cons, List.map_cons]
    exact ⟨by rw [h2.1, h1.1], by rw [h2.2, h1.2]⟩

theorem SchedulerService.executeJob_spec {σ : Type} (s : SchedulerService σ) (job : Job σ)
    (r : JobRun σ) :
    ((s.executeJob job r).env, (s.executeJob job r).logged.filter LogLine.isError)
      = (s.tenantIDs.map (fun tenantID => (job, tenantID))).foldl SchedulerService.specInvoke
          (r.env, r.logged.filter LogLine.isError) ∧
    (s.executeJob job r).logged.filter (fun l => !l.isError)
      = r.logged.filter (fun l => !l.isError)
          ++ [LogLine.Info "Executing scheduled job" (some job.Name)] := by
  unfold SchedulerService.executeJob
  have h := SchedulerService.foldl_executeForTenant_spec job s.tenantIDs
    { r with logged := r.logged ++ [LogLine.Info "Executing scheduled job" (some job.Name)] }
  refine ⟨?_, ?_⟩
  · rw [h.1]
    simp [List.filter_append, LogLine.isError]
  · rw [h.2]
    simp [List.filter_append, LogLine.isError]

theorem SchedulerService.foldl_executeJob_spec {σ : Type} (s : SchedulerService σ)
    (jobs : List (Job σ)) (r : JobRun σ) :
    ((jobs.foldl (fun run job => s.executeJob job run) r).env,
        (jobs.foldl (fun run job => s.executeJob job run) r).logged.filter LogLine.isError)
      = (jobs.flatMap (fun job => s.tenantIDs.map (fun tenantID => (job, tenantID)))).foldl
          SchedulerService.specInvoke (r.env, r.logged.filter LogLine.isError) ∧
    (jobs.foldl (fun run job => s.executeJob job run) r).logged.filter (fun l => !l.isError)
      = r.logged.filter (fun l => !l.isError)
          ++ jobs.map (fun job => LogLine.Info "Executing scheduled job" (some job.Name)) := by
  induction jobs generalizing r with
  | nil => simp
  | cons job rest ih =>
    have h1 := SchedulerService.executeJob_spec s job r
    have h2 := ih (s.executeJob job r)
    simp only [List.foldl_cons, List.flatMap_cons, List.foldl_append, List.map_cons]
    refine ⟨by rw [h2.1, h1.1], ?_⟩
    rw [h2.2, h1.2]
    simp

/-- C20: `RunOnce` performs, one after the other, exactly the invocations of the
specification: for each registered job in registration order and for each
tenant id of the tenant list in list order, the job's function is called once
with that tenant id on the state the call before it left. The state the jobs
work on after the run, and the failures reported, are those of that sequence of
calls: a call that returns an error is reported and the remaining tenants and
jobs are still served. Besides the failures, the log holds the opening line and
one line per job. Jobs are kept in the order `RegisterJob` received them. With
an empty tenant list no job function is called: the state is left as it was
and no failure is reported. -/
theorem C20_runOnce_invocations {σ : Type} (s : SchedulerService σ) (r : JobRun σ)
    (job : Job σ) :
    ((s.RunOnce r).env, (s.RunOnce r).logged.filter LogLine.isError)
        = s.specInvocations.foldl SchedulerService.specInvoke
            (r.env, r.logged.filter LogLine.isError) ∧
      (s.RunOnce r).invoked
        = r.invoked ++ s.specInvocations.map (fun p => (p.1.Name, p.2)) ∧
      (s.RunOnce r).logged.filter (fun l => !l.isError)
        = r.logged.filter (fun l => !l.isError)
            ++ LogLine.Info "Running all fleet notification jobs once" none
              :: s.jobs.map (fun j => LogLine.Info "Executing scheduled job" (some j.Name)) ∧
      (s.RegisterJob job).jobs = s.jobs ++ [job] ∧
      (s.tenantIDs = [] →
        (s.RunOnce r).env = r.env ∧ (s.RunOnce r).invoked = r.invoked ∧
          (s.RunOnce r).logged.filter LogLine.isError = r.logged.filter LogLine.isError) := by
  have hspec := SchedulerService.foldl_executeJob_spec s s.jobs
    { r with
      logged := r.logged ++ [LogLine.Info "Running all fleet notification jobs once" none] }
  have hview : ((s.RunOnce r).env, (s.RunOnce r).logged.filter LogLine.isError)
      = s.specInvocations.foldl SchedulerService.specInvoke
          (r.env, r.logged.filter LogLine.isError) := by
    unfold SchedulerService.RunOnce SchedulerService.specInvocations
    rw [hspec.1]
    simp [List.filter_append, LogLine.isError]
  have hinv : (s.RunOnce r).invoked
      = r.invoked ++ s.specInvocations.map (fun p => (p.1.Name, p.2)) := by
    unfold SchedulerService.RunOnce SchedulerService.specInvocations
    rw [SchedulerService.foldl_executeJob_invoked]
    simp [List.map_flatMap, Function.comp_def]
  refine ⟨hview, hinv, ?_, rfl, ?_⟩
  · unfold SchedulerService.RunOnce
    rw [hspec.2]
    simp [List.filter_append, LogLine.isError]
  · intro htenants
    have hnone : s.specInvocations = [] := by
      simp [SchedulerService.specInvocations, htenants]
    rw [hnone] at hview hinv
    simp only [List.foldl_nil, Prod.mk.injEq] at hview
    exact ⟨hview.1, by simpa using hinv, hview.2⟩

/-- C20 on concrete jobs, a counter being the state: "first" adds 1 and fails
for tenant 2, "second" adds 10 and fails for tenant 1. With the tenants 1, 2, 3
all six calls are made (the counter ends at 33) and the two failures are
reported; with no tenants the counter stays 0 and nothing is reported. -/
theorem C20_runOnce_invocations_witness :
    ((sampleScheduler.RunOnce { env := 0, invoked := [], logged := [] }).env,
        (sampleScheduler.RunOnce { env := 0, invoked := [], logged := [] }).logged.filter
          LogLine.isError)
        = (33, [LogLine.Error "Job execution failed" (.msg "tenant unavailable") "first" 2,
            LogLine.Error "Job execution failed" (.msg "tenant unavailable") "second" 1]) ∧
      (sampleScheduler.SetTenantIDs []).tenantIDs = [] ∧
      (((sampleScheduler.SetTenantIDs []).RunOnce { env := 0, invoked := [], logged := [] }).env
          = 0 ∧
        ((sampleScheduler.SetTenantIDs []).RunOnce
          { env := 0, invoked := [], logged := [] }).invoked = [] ∧
        ((sampleScheduler.SetTenantIDs []).RunOnce
          { env := 0, invoked := [], logged := [] }).logged.filter LogLine.isError = []) :=
  ⟨(C20_runOnce_invocations sampleScheduler { env := 0, invoked := [], logged := [] }
      (sampleJob "third" 100 3)).1.trans (by decide),
    rfl,
    (C20_runOnce_invocations (sampleScheduler.SetTenantIDs [])
      { env := 0, invoked := [], logged := [] } (sampleJob "third" 100 3)).2.2.2.2 rfl⟩

/-- A run of `RunOnce` on the sample jobs, in full: the invocations, the
counter, and the log line by line. -/
theorem SchedulerService.runOnce_sample :
    (sampleScheduler.RunOnce { env := 0, invoked := [], logged := [] }).invoked
        = [("first", 1), ("first", 2), ("first", 3), ("second", 1), ("second", 2),
            ("second", 3)] ∧
      (sampleScheduler.RunOnce { env := 0, invoked := [], logged := [] }).env = 33 ∧
      (sampleScheduler.RunOnce { env := 0, invoked := [], logged := [] }).logged
        = [LogLine.Info "Running all fleet notification jobs once" none,
            LogLine.Info "Executing scheduled job" (some "first"),
            LogLine.Error "Job execution failed" (.msg "tenant unavailable") "first" 2,
            LogLine.Info "Executing scheduled job" (some "second"),
            LogLine.Error "Job execution failed" (.msg "tenant unavailable") "second" 1] := by
  decide

/-! ## Theorems: the three-clause time condition against the closed-interval test -/

/-- C28: for a stored trip row whose end time `b` is set and not before its
start time `a`, and a candidate window with `s ≤ e`, the three-clause time
condition of the `CheckConflict` query holds exactly when the closed intervals
overlap, `a ≤ e` and `s ≤ b`. -/
theorem C28_three_clause_is_closed_overlap (r : models.Trip) (b s e : Time)
    (hend : r.EndTime = some b) (hab : r.StartTime ≤ b) (hse : s ≤ e) :
    TripRepository.timeClause r s e = true ↔ (r.StartTime ≤ e ∧ s ≤ b) := by
  unfold TripRepository.timeClause TripRepository.endNullOrGe
  rw [hend]
  simp only [Bool.or_eq_true, Bool.and_eq_true, decide_eq_true_eq, ge_iff_le]
  constructor
  · intro h
    rcases h with (h | h) | h
    · exact ⟨le_trans h.1 hse, h.2⟩
    · exact ⟨h.1, le_trans hse h.2⟩
    · exact ⟨h.2, le_trans h.1 hab⟩
  · intro h
    by_cases hs : r.StartTime ≤ s
    · exact Or.inl (Or.inl ⟨hs, h.2⟩)
    · exact Or.inr ⟨le_of_lt (not_le.mp hs), h.1⟩

/-- C28 at the stored trip 31 of vehicle 10, 08:00 to 12:00, and the window
12:00 to 14:00 of the same day: the windows share the instant 12:00, and the
condition of the query holds. -/
theorem C28_three_clause_is_closed_overlap_witness :
    (sampleTripRow 31 TripStatusScheduled t20250110_0800 (some t20250110_1200)).EndTime
        = some t20250110_1200 ∧
      TripRepository.timeClause
        (sampleTripRow 31 TripStatusScheduled t20250110_0800 (some t20250110_1200))
        t20250110_1200 t20250110_1400 = true :=
  ⟨rfl,
    (C28_three_clause_is_closed_overlap
      (sampleTripRow 31 TripStatusScheduled t20250110_0800 (some t20250110_1200))
      t20250110_1200 t20250110_1200 t20250110_1400 rfl (by decide) (by decide)).mpr
      ⟨by decide, by decide⟩⟩

/-! ## Theorems: the flags of the trip detail view model -/

/-- For a trip whose status is one of the four defined values, `CanCancel` is
true exactly when the status check of `TripService.Cancel` lets the trip
through, and, unless the trip is Scheduled, `CanComplete` is true exactly when
the status check of `TripService.Complete` lets it through. -/
theorem TripToDetailViewModel.flags_agree (t : Trip) (vehicleName driverName : String)
    (hst : TripStatus.IsValid t.status = true) :
    ((TripToDetailViewModel t vehicleName driverName).CanCancel
        = !TripService.cancelRejects t.status) ∧
      (t.status ≠ TripStatusScheduled →
        (TripToDetailViewModel t vehicleName driverName).CanComplete
          = !TripService.completeRejects t.status) := by
  have key : ∀ x : Int, 0 ≤ x → x ≤ 3 → x = 0 ∨ x = 1 ∨ x = 2 ∨ x = 3 := by
    intro x h0 h3
    omega
  have hv : (0 : Int) ≤ t.status ∧ t.status ≤ 3 := by
    simpa [TripStatus.IsValid, TripStatusScheduled, TripStatusCancelled] using hst
  rcases key t.status hv.1 hv.2 with h | h | h | h <;>
    simp [TripToDetailViewModel, TripService.cancelRejects, TripService.completeRejects, h,
      TripStatusScheduled, TripStatusInProgress, TripStatusCompleted, TripStatusCancelled]

/-- C29, the code at the failing input: for the Scheduled trip 30 the view model
says `CanComplete = false`, while the status check of `TripService.Complete`
lets a Scheduled trip through and `Complete` on the stored Scheduled trip 30
succeeds and stores it as Completed. (`CanCancel` is true and `Cancel` accepts.) -/
theorem C29_canComplete_false_for_scheduled :
    sampleTrip.status = TripStatusScheduled ∧
      (TripToDetailViewModel sampleTrip "Toyota Hilux" "Ali Valiev").CanComplete = false ∧
      TripService.completeRejects TripStatusScheduled = false ∧
      isError (sqlTripService.Complete sampleCtx 30 t20250110_1200 50100
        (sampleWorldWithTrip TripStatusScheduled)).1 = false ∧
      ((sqlTripService.Complete sampleCtx 30 t20250110_1200 50100
        (sampleWorldWithTrip TripStatusScheduled)).2.store.fleet_trips.map (fun r => r.Status))
        = [TripStatusCompleted] ∧
      (TripToDetailViewModel sampleTrip "Toyota Hilux" "Ali Valiev").CanCancel = true ∧
      TripService.cancelRejects TripStatusScheduled = false := by
  decide

/-! ## Theorems: parsing undoes `String` -/

/-- C30: for every valid value of each of the five enums, the `Parse` function
of the enum applied to the value's `String()` returns the value and no error. -/
theorem C30_parse_string_round_trip :
    (∀ s : VehicleStatus, VehicleStatus.IsValid s = true →
        ParseVehicleStatus (VehicleStatus.String s) = .ok s) ∧
      (∀ d : DriverStatus, DriverStatus.IsValid d = true →
        ParseDriverStatus (DriverStatus.String d) = .ok d) ∧
      (∀ t : TripStatus, TripStatus.IsValid t = true →
        ParseTripStatus (TripStatus.String t) = .ok t) ∧
      (∀ s : ServiceType, ServiceType.IsValid s = true →
        ParseServiceType (ServiceType.String s) = .ok s) ∧
      (∀ f : FuelType, FuelType.IsValid f = true →
        ParseFuelType (FuelType.String f) = .ok f) := by
  have k3 : ∀ x : Int, 0 ≤ x → x ≤ 3 → x = 0 ∨ x = 1 ∨ x = 2 ∨ x = 3 := by
    intro x h0 h3
    omega
  have k4 : ∀ x : Int, 0 ≤ x → x ≤ 4 → x = 0 ∨ x = 1 ∨ x = 2 ∨ x = 3 ∨ x = 4 := by
    intro x h0 h4
    omega
  have k5 : ∀ x : Int, 0 ≤ x → x ≤ 5 → x = 0 ∨ x = 1 ∨ x = 2 ∨ x = 3 ∨ x = 4 ∨ x = 5 := by
    intro x h0 h5
    omega
  refine ⟨?_, ?_, ?_, ?_, ?_⟩
  · intro s hs
    have hv : (0 : Int) ≤ s ∧ s ≤ 4 := by
      simpa [VehicleStatus.IsValid, VehicleStatusAvailable, VehicleStatusRetired] using hs
    rcases k4 s hv.1 hv.2 with h | h | h | h | h <;> subst h <;> decide
  · intro d hd
    have hv : (0 : Int) ≤ d ∧ d ≤ 3 := by
      simpa [DriverStatus.IsValid, DriverStatusActive, DriverStatusTerminated] using hd
    rcases k3 d hv.1 hv.2 with h | h | h | h <;> subst h <;> decide
  · intro t ht
    have hv : (0 : Int) ≤ t ∧ t ≤ 3 := by
      simpa [TripStatus.IsValid, TripStatusScheduled, TripStatusCancelled] using ht
    rcases k3 t hv.1 hv.2 with h | h | h | h <;> subst h <;> decide
  · intro s hs
    have hv : (0 : Int) ≤ s ∧ s ≤ 5 := by
      simpa [ServiceType.IsValid, ServiceTypeOilChange, ServiceTypeOther] using hs
    rcases k5 s hv.1 hv.2 with h | h | h | h | h | h <;> subst h <;> decide
  · intro f hf
    have hv : (0 : Int) ≤ f ∧ f ≤ 4 := by
      simpa [FuelType.IsValid, FuelTypeGasoline, FuelTypeCNG] using hf
    rcases k4 f hv.1 hv.2 with h | h | h | h | h <;> subst h <;> decide

/-- C30 at the values whose name and parse are least alike: ServiceTypeOther
prints as "OtherService", which `ParseServiceType` reads back as
ServiceTypeOther; OutOfService, OnLeave, Cancelled and CNG come back too. -/
theorem C30_parse_string_round_trip_witness :
    ServiceType.String ServiceTypeOther = "OtherService" ∧
      ParseVehicleStatus (VehicleStatus.String VehicleStatusOutOfService)
        = .ok VehicleStatusOutOfService ∧
      ParseDriverStatus (DriverStatus.String DriverStatusOnLeave) = .ok DriverStatusOnLeave ∧
      ParseTripStatus (TripStatus.String TripStatusCancelled) = .ok TripStatusCancelled ∧
      ParseServiceType (ServiceType.String ServiceTypeOther) = .ok ServiceTypeOther ∧
      ParseFuelType (FuelType.String FuelTypeCNG) = .ok FuelTypeCNG :=
  ⟨by decide,
    C30_parse_string_round_trip.1 VehicleStatusOutOfService (by decide),
    C30_parse_string_round_trip.2.1 DriverStatusOnLeave (by decide),
    C30_parse_string_round_trip.2.2.1 TripStatusCancelled (by decide),
    C30_parse_string_round_trip.2.2.2.1 ServiceTypeOther (by decide),
    C30_parse_string_round_trip.2.2.2.2 FuelTypeCNG (by decide)⟩

/-! ## Theorems: the mutators of Vehicle and Trip -/

/-- A call of a mutator on a pointer that points at `v` returns the address of
a new struct with the fields `body v` and leaves every struct on the heap as it
was. -/
theorem Heap.callMutator_returnsNew {α : Type} (h : Heap α) (p : Ptr) (v : α) (body : α → α)
    (hp : h.objs[p]? = some v) : h.ReturnsNew p (h.callMutator p body) (body v) := by
  have hlt : p < h.objs.length := (List.getElem?_eq_some.mp hp).1
  unfold Heap.ReturnsNew Heap.callMutator Heap.alloc
  rw [hp]
  refine ⟨h.objs.length, { objs := h.objs ++ [body v] }, rfl, ?_, ?_, ?_⟩
  · exact (Nat.ne_of_lt hlt).symm
  · simp
  · intro i y hi
    have hil : i < h.objs.length := (List.getElem?_eq_some.mp hi).1
    simp only [List.getElem?_append_left hil]
    exact hi

/-- C25: a call of a mutator of Vehicle (`UpdateStatus`, `UpdateOdometer`,
`UpdateDetails`) or of Trip (`Complete`, `Cancel`, `UpdateRoute`) returns the
address of a new struct and leaves the receiver, and every other struct,
with the fields it had; the new struct has the receiver's fields except those
the mutator names (status; current odometer; make, model and year; end time,
end odometer and status; purpose and status; origin and destination) and
`updatedAt`, which is the current time. -/
theorem C25_mutators_return_new_values (hv : Heap Vehicle) (ht : Heap Trip) (p q : Ptr)
    (v : Vehicle) (t : Trip) (hp : hv.objs[p]? = some v) (hq : ht.objs[q]? = some t)
    (status : VehicleStatus) (reading : Int) (make model : String) (year : Int)
    (endTime : Time) (endOdometer : Int) (reason origin destination : String) (now : Time) :
    hv.ReturnsNew p (Vehicle.UpdateStatusAt hv p status now)
        { v with status := status, updatedAt := now } ∧
      hv.ReturnsNew p (Vehicle.UpdateOdometerAt hv p reading now)
        { v with currentOdometer := reading, updatedAt := now } ∧
      hv.ReturnsNew p (Vehicle.UpdateDetailsAt hv p make model year now)
        { v with make := make, model := model, year := year, updatedAt := now } ∧
      ht.ReturnsNew q (Trip.CompleteAt ht q endTime endOdometer now)
        { t with endTime := some endTime, endOdometer := some endOdometer,
                 status := TripStatusCompleted, updatedAt := now } ∧
      ht.ReturnsNew q (Trip.CancelAt ht q reason now)
        { t with purpose := reason, status := TripStatusCancelled, updatedAt := now } ∧
      ht.ReturnsNew q (Trip.UpdateRouteAt ht q origin destination now)
        { t with origin := origin, destination := destination, updatedAt := now } :=
  ⟨Heap.callMutator_returnsNew hv p v _ hp, Heap.callMutator_returnsNew hv p v _ hp,
    Heap.callMutator_returnsNew hv p v _ hp, Heap.callMutator_returnsNew ht q t _ hq,
    Heap.callMutator_returnsNew ht q t _ hq, Heap.callMutator_returnsNew ht q t _ hq⟩

/-- C25 on a heap holding vehicle 10 (Available) and the requested trip 30:
`UpdateStatus(Retired)` and `Cancel("weather")` at 2025-01-01 return the new
address 1, and address 0 still holds the vehicle and the trip as they were. -/
theorem C25_mutators_return_new_values_witness :
    Vehicle.UpdateStatusAt { objs := [scanVehicle (sampleVehicleRow VehicleStatusAvailable)] } 0
        VehicleStatusRetired t20250101
      = some (1, { objs := [scanVehicle (sampleVehicleRow VehicleStatusAvailable),
          { scanVehicle (sampleVehicleRow VehicleStatusAvailable) with
            status := VehicleStatusRetired, updatedAt := t20250101 }] }) ∧
      Trip.CancelAt { objs := [sampleTrip] } 0 "weather" t20250101
        = some (1, { objs := [sampleTrip,
            { sampleTrip with
              purpose := "weather", status := TripStatusCancelled, updatedAt := t20250101 }] }) ∧
      Heap.ReturnsNew { objs := [scanVehicle (sampleVehicleRow VehicleStatusAvailable)] } 0
        (Vehicle.UpdateStatusAt
          { objs := [scanVehicle (sampleVehicleRow VehicleStatusAvailable)] } 0
          VehicleStatusRetired t20250101)
        { scanVehicle (sampleVehicleRow VehicleStatusAvailable) with
          status := VehicleStatusRetired, updatedAt := t20250101 } :=
  ⟨by decide, by decide,
    (C25_mutators_return_new_values
      { objs := [scanVehicle (sampleVehicleRow VehicleStatusAvailable)] } { objs := [sampleTrip] }
      0 0 (scanVehicle (sampleVehicleRow VehicleStatusAvailable)) sampleTrip rfl rfl
      VehicleStatusRetired 0 "" "" 0 0 0 "" "" "" t20250101).1⟩

/-! ## Theorems: a status change to the status the vehicle already has -/

/-- C22, as stated, fails: vehicle 10 is stored as Retired, last updated at
instant 0; `UpdateStatus` with target Retired at 2025-01-01 returns no error,
but it is not a no-op: the store is written (the row's `updated_at` becomes
2025-01-01, all other columns keep their values) and a status-changed event
from Retired to Retired is published. Without a session the same call writes
the row and then returns an error. -/
theorem C22_same_status_counterexample :
    (sampleVehicleRow VehicleStatusRetired).UpdatedAt = 0 ∧
      isError (sqlVehicleService.UpdateStatus sampleCtx 10 VehicleStatusRetired
        (sampleWorld VehicleStatusRetired [])).1 = false ∧
      (sqlVehicleService.UpdateStatus sampleCtx 10 VehicleStatusRetired
        (sampleWorld VehicleStatusRetired [])).2.store.fleet_vehicles
        = [{ sampleVehicleRow VehicleStatusRetired with UpdatedAt := t20250101 }] ∧
      (sqlVehicleService.UpdateStatus sampleCtx 10 VehicleStatusRetired
        (sampleWorld VehicleStatusRetired [])).2.log
        = [Call.VehicleGetByID 10,
            Call.VehicleUpdate
              { scanVehicle (sampleVehicleRow VehicleStatusRetired) with updatedAt := t20250101 },
            Call.Publish (Event.VehicleStatusChanged 7 9
              { scanVehicle (sampleVehicleRow VehicleStatusRetired) with updatedAt := t20250101 }
              VehicleStatusRetired VehicleStatusRetired)] ∧
      (sqlVehicleService.UpdateStatus sampleCtxNoSession 10 VehicleStatusRetired
        (sampleWorld VehicleStatusRetired [])).1
        = .error (.wrap "failed to create event" (.msg "no session found")) ∧
      (sqlVehicleService.UpdateStatus sampleCtxNoSession 10 VehicleStatusRetired
        (sampleWorld VehicleStatusRetired [])).2.store.fleet_vehicles
        = [{ sampleVehicleRow VehicleStatusRetired with UpdatedAt := t20250101 }] := by
  decide

/-- C22, amended: when the capability is granted, the vehicle is found with
status `v.status` (any value, Retired included), the store accepts the update
and the user and the session are present, `UpdateStatus` with that same status
as target returns no error and the vehicle the store answered with. The call
is not a no-op: it loads the vehicle, hands the store the vehicle with every
field as loaded except `updatedAt`, which is the current time, and publishes a
status-changed event whose old and new status are both `v.status`. -/
theorem C22_same_status_amended {σ : Type} (s : VehicleService σ) (ctx : Ctx) (id : UUID)
    (w : World σ) (v u : Vehicle) (st1 st2 : σ) (sender : User) (sess : Session)
    (hperm : ctx.canUser Permission.VehicleUpdate = none)
    (hget : s.repo.GetByID ctx id w.store = (.ok v, st1))
    (hupd : s.repo.Update ctx { v with updatedAt := ctx.now } st1 = (.ok u, st2))
    (huser : ctx.useUser = .ok sender) (hsess : ctx.useSession = .ok sess) :
    s.UpdateStatus ctx id v.status w
      = (.ok u,
          { store := st2
            log := w.log ++ [Call.VehicleGetByID id,
              Call.VehicleUpdate { v with updatedAt := ctx.now },
              Call.Publish (Event.VehicleStatusChanged sender sess u v.status v.status)] }) := by
  have hv : v.UpdateStatus v.status ctx.now = { v with updatedAt := ctx.now } := rfl
  unfold VehicleService.UpdateStatus
  simp only [hperm, World.call, hget, VehicleService.validateStatusTransition, if_true, hv, hupd,
    NewVehicleStatusChangedEvent, huser, hsess, World.publish, List.append_assoc,
    List.cons_append, List.nil_append]

/-- C22, amended, on the stored Retired vehicle 10: the call returns the
vehicle as stored after the write, with `updatedAt` 2025-01-01. -/
theorem C22_same_status_amended_witness :
    (scanVehicle (sampleVehicleRow VehicleStatusRetired)).status = VehicleStatusRetired ∧
      (sqlVehicleService.UpdateStatus sampleCtx 10
        (scanVehicle (sampleVehicleRow VehicleStatusRetired)).status
        (sampleWorld VehicleStatusRetired [])).1
        = .ok { scanVehicle (sampleVehicleRow VehicleStatusRetired) with
                updatedAt := t20250101 } :=
  ⟨rfl,
    congrArg Prod.fst
      (C22_same_status_amended sqlVehicleService sampleCtx 10
        (sampleWorld VehicleStatusRetired [])
        (scanVehicle (sampleVehicleRow VehicleStatusRetired))
        { scanVehicle (sampleVehicleRow VehicleStatusRetired) with updatedAt := t20250101 }
        (sampleDB VehicleStatusRetired [])
        { sampleDB VehicleStatusRetired [] with
          fleet_vehicles := [{ sampleVehicleRow VehicleStatusRetired with
                               UpdatedAt := t20250101 }] }
        7 9 rfl (by decide) (by decide) rfl rfl)⟩

/-! ## Theorems: Create followed by Cancel -/

/-- What a successful `Create` has done, for every repository: the vehicle and
the driver were loaded, the conflict check answered false, the trip was
created, the loaded vehicle was written with status InUse, and the created-event
was published. Result, store and call log are given in full. -/
theorem TripService.create_succeeded {σ : Type} (s : TripService σ) (ctx : Ctx) (t : Trip)
    (w : World σ) (created : Trip) (hc : (s.Create ctx t w).1 = .ok created) :
    ∃ (v : Vehicle) (d : Driver) (u : Vehicle) (st1 st2 st3 st4 st5 : σ) (ev : Event),
      s.vehicleRepo.GetByID ctx t.vehicleID w.store = (.ok v, st1) ∧
      s.driverRepo.GetByID ctx t.driverID st1 = (.ok d, st2) ∧
      s.tripRepo.CheckConflict ctx t.vehicleID t.startTime (TripService.effectiveEnd t) none st2
        = (.ok false, st3) ∧
      s.tripRepo.Create ctx t st3 = (.ok created, st4) ∧
      s.vehicleRepo.Update ctx (v.UpdateStatus VehicleStatusInUse ctx.now) st4 = (.ok u, st5) ∧
      s.Create ctx t w
        = (.ok created,
            { store := st5
              log := w.log ++ [Call.VehicleGetByID t.vehicleID, Call.DriverGetByID t.driverID,
                Call.TripCheckConflict t.vehicleID t.startTime (TripService.effectiveEnd t) none,
                Call.TripCreate t,
                Call.VehicleUpdate (v.UpdateStatus VehicleStatusInUse ctx.now),
                Call.Publish ev] }) := by
  unfold TripService.Create at hc ⊢
  simp only [World.call] at hc ⊢
  cases hp : ctx.canUser Permission.TripCreate with
  | some err => simp [hp] at hc
  | none =>
    simp only [hp] at hc ⊢
    rcases h1 : s.vehicleRepo.GetByID ctx t.vehicleID w.store with ⟨r1, st1⟩
    simp only [h1] at hc ⊢
    cases r1 with
    | error e1 => simp at hc
    | ok v =>
      simp only [] at hc ⊢
      by_cases hv : v.status = VehicleStatusMaintenance ∨ v.status = VehicleStatusOutOfService
      · simp [hv] at hc
      · simp only [hv, if_false] at hc ⊢
        rcases h2 : s.driverRepo.GetByID ctx t.driverID st1 with ⟨r2, st2⟩
        simp only [h2] at hc ⊢
        cases r2 with
        | error e2 => simp at hc
        | ok d =>
          simp only [] at hc ⊢
          by_cases hd : d.status ≠ DriverStatusActive
          · simp [hd] at hc
          · simp only [hd, if_false] at hc ⊢
            by_cases hl : d.licenseExpiry < ctx.now
            · simp [hl] at hc
            · simp only [hl, if_false] at hc ⊢
              rcases h3 : s.tripRepo.CheckConflict ctx t.vehicleID t.startTime
                  (TripService.effectiveEnd t) none st2 with ⟨r3, st3⟩
              simp only [h3] at hc ⊢
              cases r3 with
              | error e3 => simp at hc
              | ok c =>
                cases c with
                | true => simp at hc
                | false =>
                  simp only [] at hc ⊢
                  rcases h4 : s.tripRepo.Create ctx t st3 with ⟨r4, st4⟩
                  simp only [h4] at hc ⊢
                  cases r4 with
                  | error e4 => simp at hc
                  | ok created1 =>
                    simp only [] at hc ⊢
                    rcases h5 : s.vehicleRepo.Update ctx
                        (v.UpdateStatus VehicleStatusInUse ctx.now) st4 with ⟨r5, st5⟩
                    simp only [h5] at hc ⊢
                    cases r5 with
                    | error e5 => simp at hc
                    | ok u =>
                      simp only [] at hc ⊢
                      cases hev : NewTripCreatedEvent ctx created1 with
                      | error e6 => simp [hev] at hc
                      | ok ev =>
                        simp only [hev] at hc ⊢
                        simp at hc
                        subst hc
                        exact ⟨v, d, u, st1, st2, st3, st4, st5, ev.setResult created1,
                          rfl, h2, h3, h4, h5, by simp [World.publish]⟩

/-- C27, as stated, fails: vehicle 10 is stored as Available and has no trips.
`Create` of the Scheduled trip 30 succeeds and stores the vehicle as InUse;
`Cancel` of trip 30 then succeeds and stores the trip as Cancelled, but, the
trip having been Scheduled and not InProgress, it makes no vehicle call: the
vehicle stays InUse although no active trip is left, while `Complete` of the
same Scheduled trip would have stored it as Available. -/
theorem C27_create_cancel_counterexample :
    ((sampleWorld VehicleStatusAvailable []).store.fleet_vehicles.map (fun r => r.Status))
        = [VehicleStatusAvailable] ∧
      (sqlTripService.Create sampleCtx sampleTrip (sampleWorld VehicleStatusAvailable [])).1
        = .ok sampleTrip ∧
      isError (sqlTripService.Cancel sampleCtx 30 "weather"
        (sqlTripService.Create sampleCtx sampleTrip (sampleWorld VehicleStatusAvailable [])).2).1
        = false ∧
      ((sqlTripService.Cancel sampleCtx 30 "weather"
        (sqlTripService.Create sampleCtx sampleTrip
          (sampleWorld VehicleStatusAvailable [])).2).2.store.fleet_trips.map
          (fun r => (r.ID, r.Status)))
        = [(30, TripStatusCancelled)] ∧
      ((sqlTripService.Cancel sampleCtx 30 "weather"
        (sqlTripService.Create sampleCtx sampleTrip
          (sampleWorld VehicleStatusAvailable [])).2).2.store.fleet_vehicles.map
          (fun r => r.Status))
        = [VehicleStatusInUse] ∧
      ((sqlTripService.Cancel sampleCtx 30 "weather"
        (sqlTripService.Create sampleCtx sampleTrip
          (sampleWorld VehicleStatusAvailable [])).2).2.log.filter Call.isVehicleWrite)
        = [Call.VehicleUpdate ((scanVehicle (sampleVehicleRow VehicleStatusAvailable)).UpdateStatus
            VehicleStatusInUse t20250101)] ∧
      ((sqlTripService.Complete sampleCtx 30 t20250110_1200 50100
        (sqlTripService.Create sampleCtx sampleTrip
          (sampleWorld VehicleStatusAvailable [])).2).2.store.fleet_vehicles.map
          (fun r => r.Status))
        = [VehicleStatusAvailable] := by
  decide


/-- C27, amended, for every repository: a successful `Create` has written the
vehicle it loaded with status InUse, whatever the status of the trip. A
successful `Cancel` of the created trip that follows loads the stored trip and
writes it as cancelled; if the stored trip is InProgress it then loads the
vehicle and writes it with status Available, all other fields (update
timestamp aside) kept, and leaves the store this write left; if the stored trip
is not InProgress (`NewTrip` makes a trip Scheduled) it makes no vehicle call
and leaves the store its trip update left, so that the last write of the
vehicle is the one of `Create`, with status InUse. -/
theorem C27_create_then_cancel_amended {σ : Type} (s : TripService σ) (ctx : Ctx) (t : Trip)
    (reason : String) (w : World σ) (created r : Trip)
    (hc : (s.Create ctx t w).1 = .ok created)
    (hk : (s.Cancel ctx created.id reason (s.Create ctx t w).2).1 = .ok r) :
    ∃ (v : Vehicle) (st1 : σ) (t1 : Trip) (st6 st7 : σ),
      s.vehicleRepo.GetByID ctx t.vehicleID w.store = (.ok v, st1) ∧
      (s.Create ctx t w).2.log.filter Call.isVehicleWrite
        = w.log.filter Call.isVehicleWrite
          ++ [Call.VehicleUpdate
            { v with status := VehicleStatusInUse, updatedAt := ctx.now }] ∧
      s.tripRepo.GetByID ctx created.id (s.Create ctx t w).2.store = (.ok t1, st6) ∧
      s.tripRepo.Update ctx (t1.Cancel reason ctx.now) st6 = (.ok r, st7) ∧
      (t1.status = TripStatusInProgress →
        ∃ (v2 u2 : Vehicle) (st8 st9 : σ),
          s.vehicleRepo.GetByID ctx t1.vehicleID st7 = (.ok v2, st8) ∧
          s.vehicleRepo.Update ctx
              { v2 with status := VehicleStatusAvailable, updatedAt := ctx.now } st8
            = (.ok u2, st9) ∧
          (s.Cancel ctx created.id reason (s.Create ctx t w).2).2.store = st9 ∧
          (s.Cancel ctx created.id reason (s.Create ctx t w).2).2.log.filter Call.isVehicleWrite
            = (s.Create ctx t w).2.log.filter Call.isVehicleWrite
              ++ [Call.VehicleUpdate
                { v2 with status := VehicleStatusAvailable, updatedAt := ctx.now }]) ∧
      (t1.status ≠ TripStatusInProgress →
        (s.Cancel ctx created.id reason (s.Create ctx t w).2).2.store = st7 ∧
        (s.Cancel ctx created.id reason (s.Create ctx t w).2).2.log.filter Call.isVehicleWrite
          = (s.Create ctx t w).2.log.filter Call.isVehicleWrite) := by
  obtain ⟨v, d, u, st1, st2, st3, st4, st5, ev, h1, _, _, _, _, hcreate⟩ :=
    TripService.create_succeeded s ctx t w created hc
  have hget : ∃ (t1 : Trip) (st6 : σ),
      s.tripRepo.GetByID ctx created.id (s.Create ctx t w).2.store = (.ok t1, st6) := by
    rcases hg : s.tripRepo.GetByID ctx created.id (s.Create ctx t w).2.store with ⟨r1, st6⟩
    cases r1 with
    | error e =>
      exfalso
      unfold TripService.Cancel at hk
      simp only [World.call, hg] at hk
      cases hp : ctx.canUser Permission.TripUpdate <;> simp [hp] at hk
    | ok t1 => exact ⟨t1, st6, rfl⟩
  obtain ⟨t1, st6, hg⟩ := hget
  obtain ⟨_, st7, ev2, hu, _, hin, hout⟩ :=
    TripService.cancel_succeeds s ctx created.id reason (s.Create ctx t w).2 t1 r st6 hg hk
  refine ⟨v, st1, t1, st6, st7, h1, ?_, hg, hu, ?_, ?_⟩
  · rw [hcreate]
    simp [List.filter_append, List.filter_cons, Call.isVehicleWrite, Vehicle.UpdateStatus]
  · intro hip
    obtain ⟨v2, u2, st8, st9, hv2, hu2, heq⟩ := hin hip
    refine ⟨v2, u2, st8, st9, hv2, hu2, ?_, ?_⟩
    · rw [heq]
    · rw [heq]
      simp [List.filter_append, List.filter_cons, Call.isVehicleWrite, Vehicle.UpdateStatus]
  · intro hnip
    have heq := hout hnip
    refine ⟨?_, ?_⟩
    · rw [heq]
    · rw [heq]
      simp [List.filter_append, List.filter_cons, Call.isVehicleWrite]

/-- C27, amended, on vehicle 10, stored as Available with no trips. When trip 30
is created as InProgress, `Create` then `Cancel` store the vehicle as InUse and
then as Available again; when it is created as Scheduled, `Cancel` adds no
vehicle write to those of `Create` and the vehicle stays InUse. -/
theorem C27_create_then_cancel_amended_witness :
    ((sqlTripService.Cancel sampleCtx 30 "weather"
          (sqlTripService.Create sampleCtx { sampleTrip with status := TripStatusInProgress }
            (sampleWorld VehicleStatusAvailable [])).2).2.store.fleet_vehicles.map
          (fun row => row.Status) = [VehicleStatusAvailable] ∧
        (sqlTripService.Create sampleCtx { sampleTrip with status := TripStatusInProgress }
            (sampleWorld VehicleStatusAvailable [])).2.store.fleet_vehicles.map
          (fun row => row.Status) = [VehicleStatusInUse] ∧
        (sqlTripService.Cancel sampleCtx 30 "weather"
          (sqlTripService.Create sampleCtx sampleTrip
            (sampleWorld VehicleStatusAvailable [])).2).2.store.fleet_vehicles.map
          (fun row => row.Status) = [VehicleStatusInUse]) ∧
      (sqlTripService.Cancel sampleCtx sampleTrip.id "weather"
          (sqlTripService.Create sampleCtx sampleTrip
            (sampleWorld VehicleStatusAvailable [])).2).2.log.filter Call.isVehicleWrite
        = (sqlTripService.Create sampleCtx sampleTrip
            (sampleWorld VehicleStatusAvailable [])).2.log.filter Call.isVehicleWrite := by
  refine ⟨by decide, ?_⟩
  obtain ⟨v, st1, t1, st6, st7, _, _, hg, _, _, hout⟩ :=
    C27_create_then_cancel_amended sqlTripService sampleCtx sampleTrip "weather"
      (sampleWorld VehicleStatusAvailable []) sampleTrip
      (sampleTrip.Cancel "weather" sampleCtx.now) (by decide) (by decide)
  have hst : t1.status = TripStatusScheduled := by
    have h := congrArg (fun x => x.1) hg
    have hv : (sqlTripService.tripRepo.GetByID sampleCtx sampleTrip.id
        (sqlTripService.Create sampleCtx sampleTrip
          (sampleWorld VehicleStatusAvailable [])).2.store).1 = .ok sampleTrip := by
      decide
    simp only [hv, Except.ok.injEq] at h
    rw [← h]
    decide
  exact (hout (by rw [hst]; decide)).2

/-! ## Theorems: the capability check -/

/-- The operations that start with a capability check return the error of a
failed check and make no call: the world is as it was. -/
theorem Services.capability_denied_short_circuits {F σ : Type} [Float64 F] (ctx : Ctx)
    (err : Err) (hdenied : ∀ p, ctx.canUser p = some err) :
    (∀ (s : TripService σ) (t : Trip) (w : World σ), s.Create ctx t w = (.error err, w)) ∧
      (∀ (s : TripService σ) (id : UUID) (endTime : Time) (endOdometer : Int) (w : World σ),
        s.Complete ctx id endTime endOdometer w = (.error err, w)) ∧
      (∀ (s : TripService σ) (id : UUID) (reason : String) (w : World σ),
        s.Cancel ctx id reason w = (.error err, w)) ∧
      (∀ (s : VehicleService σ) (id : UUID) (newStatus : VehicleStatus) (w : World σ),
        s.UpdateStatus ctx id newStatus w = (.error err, w)) ∧
      (∀ (s : MaintenanceService F σ) (m : Maintenance F) (w : Logged (MaintenanceCall F) σ),
        s.Create ctx m w = (.error err, w)) ∧
      (∀ (s : FuelService F σ) (vehicleID : UUID) (w : Logged FuelCall σ),
        s.GetByVehicle ctx vehicleID w = (.error err, w)) := by
  refine ⟨?_, ?_, ?_, ?_, ?_, ?_⟩
  · intro s t w
    simp only [TripService.Create, hdenied]
  · intro s id endTime endOdometer w
    simp only [TripService.Complete, hdenied]
  · intro s id reason w
    simp only [TripService.Cancel, hdenied]
  · intro s id newStatus w
    simp only [VehicleService.UpdateStatus, hdenied]
  · intro s m w
    simp only [MaintenanceService.Create, hdenied]
  · intro s vehicleID w
    simp only [FuelService.GetByVehicle, hdenied]

/-- Whatever the context says about capabilities, `DetectAnomaly` starts with
the store call `GetByVehicle`, and `CalculateEfficiency` makes the store call
`GetLastEntry` and returns no error. -/
theorem FuelService.reads_without_capability_check {F σ : Type} [Float64 F]
    (s : FuelService F σ) (ctx : Ctx) (f : FuelEntry F) (w : Logged FuelCall σ) :
    (∃ rest, (s.DetectAnomaly ctx f w).2.log
        = w.log ++ FuelCall.GetByVehicle f.vehicleID :: rest) ∧
      (s.CalculateEfficiency ctx f w).2.log = w.log ++ [FuelCall.GetLastEntry f.vehicleID] ∧
      isError (s.CalculateEfficiency ctx f w).1 = false := by
  have hce : (s.CalculateEfficiency ctx f w).2.log = w.log ++ [FuelCall.GetLastEntry f.vehicleID]
      ∧ isError (s.CalculateEfficiency ctx f w).1 = false := by
    unfold FuelService.CalculateEfficiency Logged.call
    rcases h : s.repo.GetLastEntry ctx f.vehicleID w.store with ⟨r, st1⟩
    cases r <;> simp [isError]
  refine ⟨?_, hce.1, hce.2⟩
  unfold FuelService.DetectAnomaly
  simp only [Logged.call]
  rcases h : s.repo.GetByVehicle ctx f.vehicleID w.store with ⟨r, st1⟩
  cases r with
  | error e => exact ⟨[], rfl⟩
  | ok entries =>
    simp only []
    split
    · exact ⟨[], rfl⟩
    · split
      · exact ⟨[], rfl⟩
      · unfold FuelService.CalculateEfficiency Logged.call
        rcases h2 : s.repo.GetLastEntry ctx f.vehicleID st1 with ⟨r2, st2⟩
        cases r2 <;> simp only [] <;> split <;> exact ⟨[FuelCall.GetLastEntry f.vehicleID], by simp⟩

/-- C23, the code at the failing input: the user holds no permission.
`FuelService.GetByVehicle` and `TripService.Create` return the authorization
error and make no call. `FuelService.CalculateEfficiency` and
`FuelService.DetectAnomaly`, which have no capability check, read the store
(`GetLastEntry`; `GetByVehicle` and `GetLastEntry`) and return a result and no
error. -/
theorem C23_fuel_reads_ignore_denied_capability :
    sampleCtxDenied.canUser Permission.FuelEntryRead = some (.msg "permission denied") ∧
      sqlFuelService.GetByVehicle sampleCtxDenied 10 (sampleFuelWorld sampleHistoryFalling)
        = (.error (.msg "permission denied"), sampleFuelWorld sampleHistoryFalling) ∧
      sqlTripService.Create sampleCtxDenied sampleTrip (sampleWorld VehicleStatusAvailable [])
        = (.error (.msg "permission denied"), sampleWorld VehicleStatusAvailable []) ∧
      (sqlFuelService.CalculateEfficiency sampleCtxDenied (sampleFuelEntry 2500)
        (sampleFuelWorld sampleHistoryFalling)).1 = .ok (30 : ℚ) ∧
      (sqlFuelService.CalculateEfficiency sampleCtxDenied (sampleFuelEntry 2500)
        (sampleFuelWorld sampleHistoryFalling)).2.log = [FuelCall.GetLastEntry 10] ∧
      (sqlFuelService.DetectAnomaly sampleCtxDenied (sampleFuelEntry 2500)
        (sampleFuelWorld sampleHistoryFalling)).1 = .ok true ∧
      (sqlFuelService.DetectAnomaly sampleCtxDenied (sampleFuelEntry 2500)
        (sampleFuelWorld sampleHistoryFalling)).2.log
        = [FuelCall.GetByVehicle 10, FuelCall.GetLastEntry 10] := by
  decide!

/-! ## Theorems: store errors -/

/-- Every error a store call of `Create` returns is wrapped by the error `Create`
returns. -/
theorem TripService.create_wraps_store_errors {σ : Type} (s : TripService σ) (ctx : Ctx)
    (t : Trip) (st : σ) (log : List Call) (e : Err)
    (he : e ∈ (s.recorded.Create ctx t { store := (st, []), log := log }).2.store.2) :
    ∃ x, (s.recorded.Create ctx t { store := (st, []), log := log }).1 = .error x ∧
      x.Unwrap = some e := by
  revert he
  unfold TripService.Create
  simp only [World.call, TripService.recorded, recordError]
  cases ctx.canUser Permission.TripCreate with
  | some err => simp
  | none =>
    simp only []
    rcases h1 : s.vehicleRepo.GetByID ctx t.vehicleID st with ⟨r1, st1⟩
    cases r1 with
    | error e1 => simp [Err.Unwrap, eq_comm]
    | ok v =>
      simp only []
      by_cases hv : v.status = VehicleStatusMaintenance ∨ v.status = VehicleStatusOutOfService
      · simp [hv]
      · simp only [hv, if_false]
        rcases h2 : s.driverRepo.GetByID ctx t.driverID st1 with ⟨r2, st2⟩
        cases r2 with
        | error e2 => simp [Err.Unwrap, eq_comm]
        | ok d =>
          simp only []
          by_cases hd : d.status ≠ DriverStatusActive
          · simp [hd]
          · simp only [hd, if_false]
            by_cases hl : d.licenseExpiry < ctx.now
            · simp [hl]
            · simp only [hl, if_false]
              rcases h3 : s.tripRepo.CheckConflict ctx t.vehicleID t.startTime
                  (TripService.effectiveEnd t) none st2 with ⟨r3, st3⟩
              cases r3 with
              | error e3 => simp [Err.Unwrap, eq_comm]
              | ok c =>
                cases c with
                | true => simp
                | false =>
                  simp only []
                  rcases h4 : s.tripRepo.Create ctx t st3 with ⟨r4, st4⟩
                  cases r4 with
                  | error e4 => simp [Err.Unwrap, eq_comm]
                  | ok created =>
                    simp only []
                    rcases h5 : s.vehicleRepo.Update ctx
                        (v.UpdateStatus VehicleStatusInUse ctx.now) st4 with ⟨r5, st5⟩
                    cases r5 with
                    | error e5 => simp [Err.Unwrap, eq_comm]
                    | ok u =>
                      simp only []
                      cases NewTripCreatedEvent ctx created with
                      | error e6 => simp
                      | ok ev => simp [World.publish]

/-- Every error a store call of `Complete` returns is wrapped by the error
`Complete` returns. -/
theorem TripService.complete_wraps_store_errors {σ : Type} (s : TripService σ) (ctx : Ctx)
    (id : UUID) (endTime : Time) (endOdometer : Int) (st : σ) (log : List Call) (e : Err)
    (he : e ∈ (s.recorded.Complete ctx id endTime endOdometer
      { store := (st, []), log := log }).2.store.2) :
    ∃ x, (s.recorded.Complete ctx id endTime endOdometer { store := (st, []), log := log }).1
        = .error x ∧ x.Unwrap = some e := by
  revert he
  unfold TripService.Complete
  simp only [World.call, TripService.recorded, recordError]
  cases ctx.canUser Permission.TripUpdate with
  | some err => simp
  | none =>
    simp only []
    rcases h1 : s.tripRepo.GetByID ctx id st with ⟨r1, st1⟩
    cases r1 with
    | error e1 => simp [Err.Unwrap, eq_comm]
    | ok t =>
      simp only []
      by_cases hr : TripService.completeRejects t.status = true
      · simp [hr]
      · simp only [hr, if_false]
        by_cases ho : endOdometer < t.startOdometer
        · simp [ho]
        · simp only [ho, if_false]
          rcases h2 : s.tripRepo.Update ctx (t.Complete endTime endOdometer ctx.now) st1
            with ⟨r2, st2⟩
          cases r2 with
          | error e2 => simp [Err.Unwrap, eq_comm]
          | ok updated =>
            simp only []
            rcases h3 : s.vehicleRepo.GetByID ctx t.vehicleID st2 with ⟨r3, st3⟩
            cases r3 with
            | error e3 => simp [Err.Unwrap, eq_comm]
            | ok v =>
              simp only []
              rcases h4 : s.vehicleRepo.Update ctx
                  ((v.UpdateStatus VehicleStatusAvailable ctx.now).UpdateOdometer
                    endOdometer ctx.now) st3 with ⟨r4, st4⟩
              cases r4 with
              | error e4 => simp [Err.Unwrap, eq_comm]
              | ok u =>
                simp only []
                cases NewTripCompletedEvent ctx updated with
                | error e5 => simp
                | ok ev => simp [World.publish]

/-- Every error a store call of `Cancel` returns is wrapped by the error
`Cancel` returns. -/
theorem TripService.cancel_wraps_store_errors {σ : Type} (s : TripService σ) (ctx : Ctx)
    (id : UUID) (reason : String) (st : σ) (log : List Call) (e : Err)
    (he : e ∈ (s.recorded.Cancel ctx id reason { store := (st, []), log := log }).2.store.2) :
    ∃ x, (s.recorded.Cancel ctx id reason { store := (st, []), log := log }).1 = .error x ∧
      x.Unwrap = some e := by
  revert he
  unfold TripService.Cancel
  simp only [World.call, TripService.recorded, recordError]
  cases ctx.canUser Permission.TripUpdate with
  | some err => simp
  | none =>
    simp only []
    rcases h1 : s.tripRepo.GetByID ctx id st with ⟨r1, st1⟩
    cases r1 with
    | error e1 => simp [Err.Unwrap, eq_comm]
    | ok t =>
      simp only []
      by_cases hr : TripService.cancelRejects t.status = true
      · simp [hr]
      · simp only [hr, if_false]
        rcases h2 : s.tripRepo.Update ctx (t.Cancel reason ctx.now) st1 with ⟨r2, st2⟩
        cases r2 with
        | error e2 => simp [Err.Unwrap, eq_comm]
        | ok updated =>
          simp only []
          by_cases hp : t.status = TripStatusInProgress
          · simp only [hp, if_true]
            rcases h3 : s.vehicleRepo.GetByID ctx t.vehicleID st2 with ⟨r3, st3⟩
            cases r3 with
            | error e3 => simp [Err.Unwrap, eq_comm]
            | ok v =>
              simp only []
              rcases h4 : s.vehicleRepo.Update ctx
                  (v.UpdateStatus VehicleStatusAvailable ctx.now) st3 with ⟨r4, st4⟩
              cases r4 with
              | error e4 => simp [Err.Unwrap, eq_comm]
              | ok u =>
                simp only []
                cases NewTripCancelledEvent ctx updated reason with
                | error e5 => simp
                | ok ev => simp [World.publish]
          · simp only [hp, if_false]
            cases NewTripCancelledEvent ctx updated reason with
            | error e5 => simp
            | ok ev => simp [World.publish]

/-- An error of the `GetByVehicle` call of `DetectAnomaly` is returned wrapped;
an error of its `GetLastEntry` call is not returned: `DetectAnomaly` then
returns no error. -/
theorem FuelService.detectAnomaly_store_errors {F σ : Type} [Float64 F] (s : FuelService F σ)
    (ctx : Ctx) (f : FuelEntry F) (w : Logged FuelCall σ) :
    (∀ e st1, s.repo.GetByVehicle ctx f.vehicleID w.store = (.error e, st1) →
        (s.DetectAnomaly ctx f w).1 = .error (.wrap "failed to get fuel entries" e)) ∧
      (∀ entries st1 e st2, s.repo.GetByVehicle ctx f.vehicleID w.store = (.ok entries, st1) →
        s.repo.GetLastEntry ctx f.vehicleID st1 = (.error e, st2) →
        isError (s.DetectAnomaly ctx f w).1 = false) := by
  constructor
  · intro e st1 h
    simp only [FuelService.DetectAnomaly, Logged.call, h]
  · intro entries st1 e st2 h h2
    simp only [FuelService.DetectAnomaly, Logged.call, h, FuelService.CalculateEfficiency, h2]
    split
    · rfl
    · split
      · rfl
      · split <;> rfl

/-- C24, as stated, fails: vehicle 10 has a history of three fills and the
connection fails on the second query. `DetectAnomaly` reads the history, then
`GetLastEntry` returns the error "connection lost";
`CalculateEfficiency` answers 0 and no error, and `DetectAnomaly` returns
false and no error. -/
theorem C24_getLastEntry_error_counterexample :
    (FuelEntryRepository.GetLastEntry sampleCtx 10
        (sampleFleetDBFaulty sampleHistoryFalling [some (.msg "connection lost")])).1
        = .error (.msg "connection lost") ∧
      (sqlFuelService.CalculateEfficiency sampleCtx (sampleFuelEntry 2500)
        { store := sampleFleetDBFaulty sampleHistoryFalling [some (.msg "connection lost")]
          log := [] }).1 = .ok (0 : ℚ) ∧
      (sqlFuelService.DetectAnomaly sampleCtx (sampleFuelEntry 2500)
        { store := sampleFleetDBFaulty sampleHistoryFalling [none, some (.msg "connection lost")]
          log := [] }).1 = .ok false ∧
      (sqlFuelService.DetectAnomaly sampleCtx (sampleFuelEntry 2500)
        { store := sampleFleetDBFaulty sampleHistoryFalling [none, some (.msg "connection lost")]
          log := [] }).2.log = [FuelCall.GetByVehicle 10, FuelCall.GetLastEntry 10] ∧
      (sqlFuelService.DetectAnomaly sampleCtx (sampleFuelEntry 2500)
        { store := sampleFleetDBFaulty sampleHistoryFalling [], log := [] }).1 = .ok true := by
  decide!

/-- C24, amended: every error returned by a store call of `TripService.Create`,
`Complete` or `Cancel` (the repositories keep the errors they return) is the
error that unwrapping the operation's error gives, and an error of the
`GetByVehicle` call of `FuelService.DetectAnomaly` is returned wrapped as
"failed to get fuel entries"; an error of the `GetLastEntry` call of
`DetectAnomaly` is not returned, `DetectAnomaly` then returns no error. -/
theorem C24_store_errors_amended {F σ : Type} [Float64 F] :
    (∀ (s : TripService σ) (ctx : Ctx) (t : Trip) (st : σ) (log : List Call) (e : Err),
        e ∈ (s.recorded.Create ctx t { store := (st, []), log := log }).2.store.2 →
        ∃ x, (s.recorded.Create ctx t { store := (st, []), log := log }).1 = .error x ∧
          x.Unwrap = some e) ∧
      (∀ (s : TripService σ) (ctx : Ctx) (id : UUID) (endTime : Time) (endOdometer : Int)
          (st : σ) (log : List Call) (e : Err),
        e ∈ (s.recorded.Complete ctx id endTime endOdometer
          { store := (st, []), log := log }).2.store.2 →
        ∃ x, (s.recorded.Complete ctx id endTime endOdometer
            { store := (st, []), log := log }).1 = .error x ∧ x.Unwrap = some e) ∧
      (∀ (s : TripService σ) (ctx : Ctx) (id : UUID) (reason : String) (st : σ)
          (log : List Call) (e : Err),
        e ∈ (s.recorded.Cancel ctx id reason { store := (st, []), log := log }).2.store.2 →
        ∃ x, (s.recorded.Cancel ctx id reason { store := (st, []), log := log }).1 = .error x ∧
          x.Unwrap = some e) ∧
      (∀ (s : FuelService F σ) (ctx : Ctx) (f : FuelEntry F) (w : Logged FuelCall σ) (e : Err)
          (st1 : σ),
        s.repo.GetByVehicle ctx f.vehicleID w.store = (.error e, st1) →
        ∃ x, (s.DetectAnomaly ctx f w).1 = .error x ∧ x.Unwrap = some e) ∧
      (∀ (s : FuelService F σ) (ctx : Ctx) (f : FuelEntry F) (w : Logged FuelCall σ)
          (entries : List (FuelEntry F)) (st1 : σ) (e : Err) (st2 : σ),
        s.repo.GetByVehicle ctx f.vehicleID w.store = (.ok entries, st1) →
        s.repo.GetLastEntry ctx f.vehicleID st1 = (.error e, st2) →
        isError (s.DetectAnomaly ctx f w).1 = false) :=
  ⟨TripService.create_wraps_store_errors, TripService.complete_wraps_store_errors,
    TripService.cancel_wraps_store_errors,
    fun s ctx f w e st1 h =>
      ⟨_, (FuelService.detectAnomaly_store_errors s ctx f w).1 e st1 h, rfl⟩,
    fun s ctx f w entries st1 e st2 h h2 =>
      (FuelService.detectAnomaly_store_errors s ctx f w).2 entries st1 e st2 h h2⟩

/-- C24, amended, on a connection that fails at the first query: the vehicle
load of `Create` returns "connection lost" and `Create` returns it wrapped as
"failed to get vehicle"; at the first query of `DetectAnomaly`, `GetByVehicle`
returns it and `DetectAnomaly` returns it wrapped. -/
theorem C24_store_errors_amended_witness :
    (sqlTripService.recorded.Create sampleCtx sampleTrip
        { store := ({ sampleDB VehicleStatusAvailable [] with
                      faults := [some (.msg "connection lost")] }, [])
          log := [] }).1
        = .error (.wrap "failed to get vehicle" (.msg "connection lost")) ∧
      (∃ x, (sqlTripService.recorded.Create sampleCtx sampleTrip
          { store := ({ sampleDB VehicleStatusAvailable [] with
                        faults := [some (.msg "connection lost")] }, [])
            log := [] }).1 = .error x ∧ x.Unwrap = some (.msg "connection lost")) ∧
      (∃ x, (sqlFuelService.DetectAnomaly sampleCtx (sampleFuelEntry 2500)
          { store := sampleFleetDBFaulty sampleHistoryFalling [some (.msg "connection lost")]
            log := [] }).1 = .error x ∧ x.Unwrap = some (.msg "connection lost")) :=
  ⟨by decide,
    (@C24_store_errors_amended ℚ DB _).1 sqlTripService sampleCtx sampleTrip
      { sampleDB VehicleStatusAvailable [] with faults := [some (.msg "connection lost")] } []
      (.msg "connection lost") (by decide),
    (@C24_store_errors_amended ℚ (FleetDB ℚ) _).2.2.2.1 sqlFuelService sampleCtx (sampleFuelEntry 2500)
      { store := sampleFleetDBFaulty sampleHistoryFalling [some (.msg "connection lost")]
        log := [] }
      (.msg "connection lost")
      { sampleFleetDBFaulty sampleHistoryFalling [some (.msg "connection lost")] with
        core := { sampleDB VehicleStatusAvailable [] with faults := [] } }
      (by decide!)⟩

/-! ## Theorems: the registered jobs -/

theorem SchedulerService.jobNames_perform {σ : Type} (notificationSvc : NotificationService σ)
    (s : SchedulerService σ) (c : SchedulerCall σ) :
    (s.perform notificationSvc c).jobNames
      = s.jobNames ++
        (match c with
          | .RegisterJob job => [job.Name]
          | .Start => builtinJobNames) := by
  cases c <;>
    simp [SchedulerService.perform, SchedulerService.RegisterJob, SchedulerService.Start,
      SchedulerService.jobNames, builtinJobNames]

theorem SchedulerService.count_builtinJobNames (name : String) :
    builtinJobNames.count name = if name ∈ builtinJobNames then 1 else 0 := by
  by_cases h : name ∈ builtinJobNames
  · rw [if_pos h]
    exact List.count_eq_one_of_mem (by decide) h
  · rw [if_neg h]
    exact List.count_eq_zero_of_not_mem h

/-- After any sequence of `RegisterJob` and `Start` calls, the number of
registered jobs named `name` is the number there was, plus the number of
`RegisterJob` calls with that name, plus, for a built-in name, the number of
`Start` calls. -/
theorem SchedulerService.count_jobNames_performAll {σ : Type}
    (notificationSvc : NotificationService σ) (calls : List (SchedulerCall σ)) :
    ∀ (s : SchedulerService σ) (name : String),
      (s.performAll notificationSvc calls).jobNames.count name
        = s.jobNames.count name + (SchedulerCall.registeredNames calls).count name
          + (if name ∈ builtinJobNames then SchedulerCall.starts calls else 0) := by
  induction calls with
  | nil =>
    intro s name
    simp [SchedulerService.performAll, SchedulerCall.registeredNames, SchedulerCall.starts]
  | cons c rest ih =>
    intro s name
    have h := ih (s.perform notificationSvc c) name
    simp only [SchedulerService.performAll, List.foldl_cons] at h ⊢
    rw [h, SchedulerService.jobNames_perform, List.count_append]
    cases c with
    | RegisterJob job =>
      have h1 : SchedulerCall.registeredNames (SchedulerCall.RegisterJob job :: rest)
          = job.Name :: SchedulerCall.registeredNames rest := rfl
      have h2 : SchedulerCall.starts (SchedulerCall.RegisterJob job :: rest)
          = SchedulerCall.starts rest := by
        simp [SchedulerCall.starts]
      rw [h1, h2]
      simp only [List.count_cons, List.count_nil]
      omega
    | Start =>
      have h1 : SchedulerCall.registeredNames (SchedulerCall.Start :: rest)
          = SchedulerCall.registeredNames rest := rfl
      have h2 : SchedulerCall.starts (SchedulerCall.Start :: rest)
          = SchedulerCall.starts rest + 1 := by
        simp [SchedulerCall.starts]
      rw [h1, h2]
      simp only [SchedulerService.count_builtinJobNames]
      split <;> omega

/-- C26, as stated, fails: a new scheduler has no job named
check_due_maintenance; after two `Start` calls the four built-in names are each
registered twice; two `RegisterJob` calls with the name "first" register it
twice; and a `RegisterJob` of a job named check_due_maintenance followed by
`Start` registers that name twice. -/
theorem C26_job_names_counterexample :
    (NewSchedulerService : SchedulerService Nat).jobNames.count "check_due_maintenance" = 0 ∧
      (NewSchedulerService.performAll sampleNotificationService
        [SchedulerCall.Start, SchedulerCall.Start]).jobNames
        = builtinJobNames ++ builtinJobNames ∧
      ¬ (NewSchedulerService.performAll sampleNotificationService
        [SchedulerCall.Start, SchedulerCall.Start]).jobNames.Nodup ∧
      (NewSchedulerService.performAll sampleNotificationService
        [SchedulerCall.RegisterJob (sampleJob "first" 1 2),
          SchedulerCall.RegisterJob (sampleJob "first" 10 1)]).jobNames = ["first", "first"] ∧
      (NewSchedulerService.performAll sampleNotificationService
        [SchedulerCall.RegisterJob (sampleJob "check_due_maintenance" 1 2),
          SchedulerCall.Start]).jobNames.count "check_due_maintenance" = 2 := by
  decide

/-- C26, amended: in the state a new scheduler reaches through any sequence of
`RegisterJob` and `Start` calls, the number of registered jobs with a given
name is the number of `RegisterJob` calls with that name plus, for a built-in
name, the number of `Start` calls. So, when `Start` was called exactly once
and the names passed to `RegisterJob` are pairwise distinct and none of them
is a built-in name, the names of the registered jobs are pairwise distinct and
each built-in job is registered exactly once. -/
theorem C26_job_names_amended {σ : Type} (notificationSvc : NotificationService σ)
    (calls : List (SchedulerCall σ)) :
    (∀ name : String,
        (NewSchedulerService.performAll notificationSvc calls).jobNames.count name
          = (SchedulerCall.registeredNames calls).count name
            + (if name ∈ builtinJobNames then SchedulerCall.starts calls else 0)) ∧
      (SchedulerCall.starts calls = 1 →
        (SchedulerCall.registeredNames calls).Nodup →
        (∀ name ∈ SchedulerCall.registeredNames calls, name ∉ builtinJobNames) →
        (NewSchedulerService.performAll notificationSvc calls).jobNames.Nodup ∧
          ∀ b ∈ builtinJobNames,
            (NewSchedulerService.performAll notificationSvc calls).jobNames.count b = 1) := by
  have hcount : ∀ name : String,
      (NewSchedulerService.performAll notificationSvc calls).jobNames.count name
        = (SchedulerCall.registeredNames calls).count name
          + (if name ∈ builtinJobNames then SchedulerCall.starts calls else 0) := by
    intro name
    have h := SchedulerService.count_jobNames_performAll notificationSvc calls
      NewSchedulerService name
    simpa [NewSchedulerService, SchedulerService.jobNames] using h
  refine ⟨hcount, ?_⟩
  intro hstart hnodup hnot
  constructor
  · rw [List.nodup_iff_count_le_one]
    intro name
    rw [hcount name, hstart]
    have hle := List.nodup_iff_count_le_one.mp hnodup name
    by_cases hb : name ∈ builtinJobNames
    · have hz : (SchedulerCall.registeredNames calls).count name = 0 :=
        List.count_eq_zero_of_not_mem (fun hmem => hnot name hmem hb)
      rw [if_pos hb, hz]
    · rw [if_neg hb]
      exact hle
  · intro b hb
    have hz : (SchedulerCall.registeredNames calls).count b = 0 :=
      List.count_eq_zero_of_not_mem (fun hmem => hnot b hmem hb)
    rw [hcount b, hstart, if_pos hb, hz]

/-- C26, amended, on the calls `RegisterJob` "first", `RegisterJob` "second",
`Start`: six jobs with pairwise distinct names are registered, each built-in
job once. -/
theorem C26_job_names_amended_witness :
    (NewSchedulerService.performAll sampleNotificationService
        [SchedulerCall.RegisterJob (sampleJob "first" 1 2),
          SchedulerCall.RegisterJob (sampleJob "second" 10 1), SchedulerCall.Start]).jobNames
        = ["first", "second", "check_expiring_licenses", "check_expiring_registrations",
            "check_expiring_insurance", "check_due_maintenance"] ∧
      ((NewSchedulerService.performAll sampleNotificationService
          [SchedulerCall.RegisterJob (sampleJob "first" 1 2),
            SchedulerCall.RegisterJob (sampleJob "second" 10 1),
            SchedulerCall.Start]).jobNames.Nodup ∧
        ∀ b ∈ builtinJobNames,
          (NewSchedulerService.performAll sampleNotificationService
            [SchedulerCall.RegisterJob (sampleJob "first" 1 2),
              SchedulerCall.RegisterJob (sampleJob "second" 10 1),
              SchedulerCall.Start]).jobNames.count b = 1) :=
  ⟨by decide,
    (C26_job_names_amended sampleNotificationService
      [SchedulerCall.RegisterJob (sampleJob "first" 1 2),
        SchedulerCall.RegisterJob (sampleJob "second" 10 1), SchedulerCall.Start]).2
      (by decide) (by decide) (by decide)⟩

/-! ## Theorems: `Stop` and the job loops -/

theorem SchedulerState.countP_set {α : Type} (p : α → Bool) (l : List α) (i : Nat) (a b : α)
    (h : l[i]? = some a) :
    (l.set i b).countP p + (if p a = true then 1 else 0)
      = l.countP p + (if p b = true then 1 else 0) := by
  induction l generalizing i with
  | nil => simp at h
  | cons x xs ih =>
    cases i with
    | zero =>
      simp only [List.getElem?_cons_zero, Option.some.injEq] at h
      subst h
      simp only [List.set_cons_zero, List.countP_cons]
      omega
    | succ j =>
      simp only [List.getElem?_cons_succ] at h
      have := ih j h
      simp only [List.set_cons_succ, List.countP_cons]
      omega

theorem SchedulerState.map_set {α β : Type} (f : α → β) (l : List α) (i : Nat) (a b : α)
    (h : l[i]? = some a) (hf : f b = f a) : (l.set i b).map f = l.map f := by
  induction l generalizing i with
  | nil => simp
  | cons x xs ih =>
    cases i with
    | zero =>
      simp only [List.getElem?_cons_zero, Option.some.injEq] at h
      subst h
      simp [hf]
    | succ j =>
      simp only [List.getElem?_cons_succ] at h
      simp [ih j h]

/-- A step keeps the bookkeeping right and the goroutines' jobs as they are. -/
theorem SchedulerState.step_accounted {σ : Type} (x y : SchedulerState σ) (a : SchedulerStep)
    (hx : x.Accounted) (h : x.step a = some y) : y.Accounted ∧ y.loopNames = x.loopNames := by
  obtain ⟨hwg, hret, hdone⟩ := hx
  cases a with
  | first i =>
    simp only [SchedulerState.step] at h
    cases hl : x.loops[i]? with
    | none => simp [hl] at h
    | some l =>
      simp only [hl] at h
      split at h
      · rename_i hc
        simp only [Option.some.injEq] at h
        subst h
        refine ⟨⟨?_, hret, hdone⟩, ?_⟩
        · have hpa : decide (l.phase ≠ LoopPhase.exited) = true := by
            rw [hc.1]
            decide
          have hpb : decide (LoopPhase.selecting ≠ LoopPhase.exited) = true := by decide
          have := SchedulerState.countP_set (fun l => decide (l.phase ≠ LoopPhase.exited))
            x.loops i l { job := l.job, phase := LoopPhase.selecting } hl
          simp only [hpa, hpb, if_true] at this
          simp only []
          omega
        · exact SchedulerState.map_set _ x.loops i l _ hl rfl
      · simp at h
  | tick i =>
    simp only [SchedulerState.step] at h
    cases hl : x.loops[i]? with
    | none => simp [hl] at h
    | some l =>
      simp only [hl] at h
      split at h
      · simp only [Option.some.injEq] at h
        subst h
        exact ⟨⟨hwg, hret, hdone⟩, rfl⟩
      · simp at h
  | observeDone i =>
    simp only [SchedulerState.step] at h
    cases hl : x.loops[i]? with
    | none => simp [hl] at h
    | some l =>
      simp only [hl] at h
      split at h
      · rename_i hc
        simp only [Option.some.injEq] at h
        subst h
        refine ⟨⟨?_, ?_, hdone⟩, ?_⟩
        · have hpa : decide (l.phase ≠ LoopPhase.exited) = true := by
            rw [hc.1]
            decide
          have hpb : decide (LoopPhase.exited ≠ LoopPhase.exited) = false := by decide
          have := SchedulerState.countP_set (fun l => decide (l.phase ≠ LoopPhase.exited))
            x.loops i l { job := l.job, phase := LoopPhase.exited } hl
          simp only [hpa, hpb, if_true, Bool.false_eq_true, if_false] at this
          have hpos := hc.2.2
          simp only []
          omega
        · intro hr
          have := hret hr
          have hpos := hc.2.2
          omega
        · exact SchedulerState.map_set _ x.loops i l _ hl rfl
      · simp at h
  | stopCancel =>
    simp only [SchedulerState.step] at h
    split at h
    · simp only [Option.some.injEq] at h
      subst h
      exact ⟨⟨hwg, by simp, by simp⟩, rfl⟩
    · simp at h
  | stopReturn =>
    simp only [SchedulerState.step] at h
    split at h
    · rename_i hc
      simp only [Option.some.injEq] at h
      subst h
      refine ⟨⟨hwg, fun _ => hc.2, fun _ => hdone ?_⟩, rfl⟩
      rw [hc.1]
      decide
    · simp at h

/-- A sequence of steps keeps the bookkeeping right and the goroutines' jobs as
they are. -/
theorem SchedulerState.steps_accounted {σ : Type} (as : List SchedulerStep) :
    ∀ (x y : SchedulerState σ), x.Accounted → x.steps as = some y →
      y.Accounted ∧ y.loopNames = x.loopNames := by
  induction as with
  | nil =>
    intro x y hx h
    simp only [SchedulerState.steps, Option.some.injEq] at h
    subst h
    exact ⟨hx, rfl⟩
  | cons a rest ih =>
    intro x y hx h
    unfold SchedulerState.steps at h
    cases hs : x.step a with
    | none => simp [hs] at h
    | some z =>
      simp only [hs] at h
      have h1 := SchedulerState.step_accounted x z a hx hs
      have h2 := ih z y h1.1 h
      exact ⟨h2.1, h2.2.trans h1.2⟩

/-- Right after `Start` on a scheduler without goroutines, the bookkeeping is
right and there is one goroutine per registered job. -/
theorem SchedulerState.start_accounted {σ : Type} (s : SchedulerService σ) (r : JobRun σ)
    (notificationSvc : NotificationService σ) :
    ((SchedulerState.idle s r).Start notificationSvc).Accounted ∧
      ((SchedulerState.idle s r).Start notificationSvc).loopNames
        = (s.Start notificationSvc).jobNames := by
  refine ⟨⟨?_, ?_, ?_⟩, ?_⟩
  · simp [SchedulerState.Start, SchedulerState.idle, List.countP_map, Function.comp_def]
  · intro h
    simp [SchedulerState.Start, SchedulerState.idle] at h
  · intro h
    simp [SchedulerState.Start, SchedulerState.idle] at h
  · simp [SchedulerState.Start, SchedulerState.idle, SchedulerState.loopNames,
      SchedulerService.jobNames, Function.comp_def]

/-- C21: `Start` on a scheduler launches one goroutine per registered job, the
four built-in jobs among them. In every execution from there, whatever the
interleaving of the goroutines' steps and the steps of `Stop`, once `Stop` has
returned the context is cancelled, the counter of the wait group is zero, and
every one of the goroutines launched has received from `s.ctx.Done()` and
returned: none is still running. -/
theorem C21_stop_returns_after_loops_exit {σ : Type} (s : SchedulerService σ) (r : JobRun σ)
    (notificationSvc : NotificationService σ) (as : List SchedulerStep) (x : SchedulerState σ)
    (hrun : ((SchedulerState.idle s r).Start notificationSvc).steps as = some x)
    (hstop : x.stop = StopPhase.returned) :
    x.done = true ∧ x.wg = 0 ∧
      x.loopNames = s.jobNames ++ builtinJobNames ∧
      ∀ l ∈ x.loops, l.phase = LoopPhase.exited := by
  have h0 := SchedulerState.start_accounted s r notificationSvc
  have h1 := SchedulerState.steps_accounted as _ x h0.1 hrun
  obtain ⟨⟨hwg, hret, hdone⟩, hnames⟩ := h1
  have hz : x.wg = 0 := hret hstop
  refine ⟨hdone ?_, hz, ?_, ?_⟩
  · rw [hstop]
    decide
  · rw [hnames, h0.2]
    exact SchedulerService.jobNames_perform notificationSvc s SchedulerCall.Start
  · intro l hl
    rw [hz] at hwg
    have := List.countP_eq_zero.mp hwg.symm l hl
    simpa using this

/-- C21 on the sample scheduler (jobs "first" and "second", tenants 1, 2, 3):
`Start` launches six goroutines, and `sampleStopSteps` is an execution at whose
end `Stop` has returned and all six goroutines have returned. -/
theorem C21_stop_returns_after_loops_exit_witness :
    ∃ x, sampleStarted.steps sampleStopSteps = some x ∧
      x.stop = StopPhase.returned ∧
      x.loops.length = 6 ∧
      (x.done = true ∧ x.wg = 0 ∧
        x.loopNames = sampleScheduler.jobNames ++ builtinJobNames ∧
        ∀ l ∈ x.loops, l.phase = LoopPhase.exited) :=
  ⟨(sampleStarted.steps sampleStopSteps).get (by decide), by simp, by decide, by decide,
    C21_stop_returns_after_loops_exit sampleScheduler { env := 0, invoked := [], logged := [] }
      sampleNotificationService sampleStopSteps
      ((sampleStarted.steps sampleStopSteps).get (by decide))
      (by simp [sampleStarted]) (by decide)⟩

/-- While a goroutine has not returned, `Wait` cannot return: with the six
goroutines of the sample scheduler cancelled and only five of them returned,
the step `stopReturn` is not possible. -/
theorem SchedulerState.stop_blocks_sample :
    (sampleStarted.steps
        [SchedulerStep.stopCancel, SchedulerStep.first 0, SchedulerStep.observeDone 0,
          SchedulerStep.first 1, SchedulerStep.observeDone 1,
          SchedulerStep.first 2, SchedulerStep.observeDone 2, SchedulerStep.first 3,
          SchedulerStep.observeDone 3, SchedulerStep.first 4, SchedulerStep.observeDone 4,
          SchedulerStep.first 5, SchedulerStep.stopReturn]).isNone = true := by
  decide

end Fleet
